import Mathlib

/-!
# Laser driver controller firmware: pulse-train engine

A shallow embedding of the register bank, the channel countdown state, the
start/stop register handlers (app_funcs.c) and the 500 us tick callback
(app.c), followed by theorems about the timing of the four pulse outputs.

Machine integers are natural numbers; every arithmetic result that is stored
in a 16-bit object is reduced modulo 2^16 at the point of the store.
-/

namespace LaserDriver

/-! ## Registers' bits (app_ios_and_regs.h) -/

def B_F1 : Nat := 1
def B_F2 : Nat := 2
def B_F3 : Nat := 4
def B_CW : Nat := 8
def B_DOUT1 : Nat := 1
def B_DOUT2 : Nat := 2
def B_BNC0 : Nat := 1
def B_BNC1 : Nat := 2
def B_SIGNAL_A : Nat := 1
def B_SIGNAL_B : Nat := 2
def B_EVT_SPAD_SWITCH : Nat := 1
def B_EVT_LASER_STATE : Nat := 2

def ADD_REG_SPAD_SWITCH : Nat := 32
def ADD_REG_LASER_STATE : Nat := 33
def ADD_REG_BNCS_STATE : Nat := 44
def ADD_REG_SIGNAL_STATE : Nat := 45

/-! ## Data model -/

/-- The register bank, struct AppRegs of app_ios_and_regs.h. -/
structure AppRegs where
  REG_SPAD_SWITCH : Nat
  REG_LASER_STATE : Nat
  REG_RESERVED0 : Nat
  REG_RESERVED1 : Nat
  REG_RESERVED2 : Nat
  REG_RESERVED3 : Nat
  REG_LASER_FREQUENCY_SELECT : Nat
  REG_LASER_INTENSITY : Nat
  REG_OUTPUT_SET : Nat
  REG_OUTPUT_CLEAR : Nat
  REG_OUTPUT_TOGGLE : Nat
  REG_OUTPUT_STATE : Nat
  REG_BNCS_STATE : Nat
  REG_SIGNAL_STATE : Nat
  REG_BNC0_ON : Nat
  REG_BNC0_OFF : Nat
  REG_BNC0_PULSES : Nat
  REG_BNC0_TAIL : Nat
  REG_BNC1_ON : Nat
  REG_BNC1_OFF : Nat
  REG_BNC1_PULSES : Nat
  REG_BNC1_TAIL : Nat
  REG_SIGNAL_A_ON : Nat
  REG_SIGNAL_A_OFF : Nat
  REG_SIGNAL_A_PULSES : Nat
  REG_SIGNAL_A_TAIL : Nat
  REG_SIGNAL_B_ON : Nat
  REG_SIGNAL_B_OFF : Nat
  REG_SIGNAL_B_PULSES : Nat
  REG_SIGNAL_B_TAIL : Nat
  REG_EVNT_ENABLE : Nat
deriving DecidableEq, Repr

/-- The countdown counters, countdown_t of structs.h (all uint16_t). -/
structure countdown_t where
  period_bnc0 : Nat
  period_bnc1 : Nat
  period_signal_a : Nat
  period_signal_b : Nat
  tail_bnc0 : Nat
  tail_bnc1 : Nat
  tail_signal_a : Nat
  tail_signal_b : Nat
  t_bnc0 : Nat
  t_bnc1 : Nat
  t_signal_a : Nat
  t_signal_b : Nat
  count_pulses_bnc0 : Nat
  count_pulses_bnc1 : Nat
  count_pulses_signal_a : Nat
  count_pulses_signal_b : Nat
deriving DecidableEq, Repr

/-- The interval descriptor, interval_t of structs.h (all uint16_t). -/
structure interval_t where
  on_ms : Nat
  off_ms : Nat
  pulses : Nat
  tail_ms : Nat
deriving DecidableEq, Repr

/-- The output pins of app_ios_and_regs.h. -/
inductive Pin where
  | DO2 | DO1 | MCU_TO_RELAY | POT_CS | POT_SDI | POT_CLK
  | F1 | F2 | F3 | BNC_SIG1_O | BNC_SIG2_O | SIGNAL_A_O | SIGNAL_B_O
deriving DecidableEq, Repr

/-- One call of set_io, clear_io or toggle_io on an output pin. -/
inductive IoCall where
  | set (p : Pin)
  | clr (p : Pin)
  | tgl (p : Pin)
deriving DecidableEq, Repr

/-- Level of every output pin. -/
structure Ports where
  DO2 : Bool
  DO1 : Bool
  MCU_TO_RELAY : Bool
  POT_CS : Bool
  POT_SDI : Bool
  POT_CLK : Bool
  F1 : Bool
  F2 : Bool
  F3 : Bool
  BNC_SIG1_O : Bool
  BNC_SIG2_O : Bool
  SIGNAL_A_O : Bool
  SIGNAL_B_O : Bool
deriving DecidableEq, Repr

/-- The globals of the firmware: app_regs, pulse_countdown, the four interval
descriptors, the output port levels, and two logs kept in program order: the
set_io / clear_io calls made on output pins, and the register addresses passed
to core_func_send_event. -/
structure Device where
  app_regs : AppRegs
  pulse_countdown : countdown_t
  s_bnc_0 : interval_t
  s_bnc_1 : interval_t
  s_signal_a : interval_t
  s_signal_b : interval_t
  ports : Ports
  io_calls : List IoCall
  events : List Nat
deriving DecidableEq, Repr

/-! ## 16-bit arithmetic -/

/-- Sum of two uint16_t values stored in a uint16_t. -/
def add16 (x y : Nat) : Nat := (x + y) % 65536

/-- Pre-decrement of a uint16_t object: the new value. -/
def dec16 (x : Nat) : Nat := (x + 65535) % 65536

/-- The byte mask ~b applied to a uint8_t register. -/
def not8 (b : Nat) : Nat := 255 ^^^ b

/-! ## Output pin macros (app_ios_and_regs.h) -/

def set_BNC_SIG1_O (s : Device) : Device :=
  { s with ports.BNC_SIG1_O := true, io_calls := s.io_calls ++ [IoCall.set Pin.BNC_SIG1_O] }

def clr_BNC_SIG1_O (s : Device) : Device :=
  { s with ports.BNC_SIG1_O := false, io_calls := s.io_calls ++ [IoCall.clr Pin.BNC_SIG1_O] }

def set_BNC_SIG2_O (s : Device) : Device :=
  { s with ports.BNC_SIG2_O := true, io_calls := s.io_calls ++ [IoCall.set Pin.BNC_SIG2_O] }

def clr_BNC_SIG2_O (s : Device) : Device :=
  { s with ports.BNC_SIG2_O := false, io_calls := s.io_calls ++ [IoCall.clr Pin.BNC_SIG2_O] }

def set_SIGNAL_A_O (s : Device) : Device :=
  { s with ports.SIGNAL_A_O := true, io_calls := s.io_calls ++ [IoCall.set Pin.SIGNAL_A_O] }

def clr_SIGNAL_A_O (s : Device) : Device :=
  { s with ports.SIGNAL_A_O := false, io_calls := s.io_calls ++ [IoCall.clr Pin.SIGNAL_A_O] }

def set_SIGNAL_B_O (s : Device) : Device :=
  { s with ports.SIGNAL_B_O := true, io_calls := s.io_calls ++ [IoCall.set Pin.SIGNAL_B_O] }

def clr_SIGNAL_B_O (s : Device) : Device :=
  { s with ports.SIGNAL_B_O := false, io_calls := s.io_calls ++ [IoCall.clr Pin.SIGNAL_B_O] }

def set_MCU_TO_RELAY (s : Device) : Device :=
  { s with ports.MCU_TO_RELAY := true, io_calls := s.io_calls ++ [IoCall.set Pin.MCU_TO_RELAY] }

def clr_MCU_TO_RELAY (s : Device) : Device :=
  { s with ports.MCU_TO_RELAY := false, io_calls := s.io_calls ++ [IoCall.clr Pin.MCU_TO_RELAY] }

/-- The hook core_func_send_event(add, true) of the host framework: the
address is appended to the event log. -/
def core_func_send_event (add : Nat) (s : Device) : Device :=
  { s with events := s.events ++ [add] }

/-! ## Assignments to single objects -/

/-- The assignment pulse_countdown.tail_bnc0 = v. -/
def put_tail_bnc0 (v : Nat) (s : Device) : Device :=
  { s with pulse_countdown := { s.pulse_countdown with tail_bnc0 := v } }

/-- The assignment pulse_countdown.period_bnc0 = v. -/
def put_period_bnc0 (v : Nat) (s : Device) : Device :=
  { s with pulse_countdown := { s.pulse_countdown with period_bnc0 := v } }

/-- The assignment pulse_countdown.t_bnc0 = v. -/
def put_t_bnc0 (v : Nat) (s : Device) : Device :=
  { s with pulse_countdown := { s.pulse_countdown with t_bnc0 := v } }

/-- The assignment pulse_countdown.count_pulses_bnc0 = v. -/
def put_count_pulses_bnc0 (v : Nat) (s : Device) : Device :=
  { s with pulse_countdown := { s.pulse_countdown with count_pulses_bnc0 := v } }

/-- The assignment pulse_countdown.tail_bnc1 = v. -/
def put_tail_bnc1 (v : Nat) (s : Device) : Device :=
  { s with pulse_countdown := { s.pulse_countdown with tail_bnc1 := v } }

/-- The assignment pulse_countdown.period_bnc1 = v. -/
def put_period_bnc1 (v : Nat) (s : Device) : Device :=
  { s with pulse_countdown := { s.pulse_countdown with period_bnc1 := v } }

/-- The assignment pulse_countdown.t_bnc1 = v. -/
def put_t_bnc1 (v : Nat) (s : Device) : Device :=
  { s with pulse_countdown := { s.pulse_countdown with t_bnc1 := v } }

/-- The assignment pulse_countdown.count_pulses_bnc1 = v. -/
def put_count_pulses_bnc1 (v : Nat) (s : Device) : Device :=
  { s with pulse_countdown := { s.pulse_countdown with count_pulses_bnc1 := v } }

/-- The assignment pulse_countdown.tail_signal_a = v. -/
def put_tail_signal_a (v : Nat) (s : Device) : Device :=
  { s with pulse_countdown := { s.pulse_countdown with tail_signal_a := v } }

/-- The assignment pulse_countdown.period_signal_a = v. -/
def put_period_signal_a (v : Nat) (s : Device) : Device :=
  { s with pulse_countdown := { s.pulse_countdown with period_signal_a := v } }

/-- The assignment pulse_countdown.t_signal_a = v. -/
def put_t_signal_a (v : Nat) (s : Device) : Device :=
  { s with pulse_countdown := { s.pulse_countdown with t_signal_a := v } }

/-- The assignment pulse_countdown.count_pulses_signal_a = v. -/
def put_count_pulses_signal_a (v : Nat) (s : Device) : Device :=
  { s with pulse_countdown := { s.pulse_countdown with count_pulses_signal_a := v } }

/-- The assignment pulse_countdown.tail_signal_b = v. -/
def put_tail_signal_b (v : Nat) (s : Device) : Device :=
  { s with pulse_countdown := { s.pulse_countdown with tail_signal_b := v } }

/-- The assignment pulse_countdown.period_signal_b = v. -/
def put_period_signal_b (v : Nat) (s : Device) : Device :=
  { s with pulse_countdown := { s.pulse_countdown with period_signal_b := v } }

/-- The assignment pulse_countdown.t_signal_b = v. -/
def put_t_signal_b (v : Nat) (s : Device) : Device :=
  { s with pulse_countdown := { s.pulse_countdown with t_signal_b := v } }

/-- The assignment pulse_countdown.count_pulses_signal_b = v. -/
def put_count_pulses_signal_b (v : Nat) (s : Device) : Device :=
  { s with pulse_countdown := { s.pulse_countdown with count_pulses_signal_b := v } }

/-- The assignment app_regs.REG_BNCS_STATE = v. -/
def put_REG_BNCS_STATE (v : Nat) (s : Device) : Device :=
  { s with app_regs := { s.app_regs with REG_BNCS_STATE := v } }

/-- The assignment app_regs.REG_SIGNAL_STATE = v. -/
def put_REG_SIGNAL_STATE (v : Nat) (s : Device) : Device :=
  { s with app_regs := { s.app_regs with REG_SIGNAL_STATE := v } }

/-! ## app_funcs.c -/

/-- start_signal: copies the four parameters into the descriptor. -/
def start_signal (t_on_ms n_pulses t_off_ms t_tail_ms : Nat) : interval_t :=
  { on_ms := t_on_ms, off_ms := t_off_ms, pulses := n_pulses, tail_ms := t_tail_ms }

/-- The BNC0 half of app_write_REG_BNCS_STATE (app_funcs.c). -/
def write_bncs_bnc0 (reg : Nat) (s : Device) : Device :=
  if reg &&& B_BNC0 ≠ 0 then
    let s1 := { s with s_bnc_0 := (start_signal s.app_regs.REG_BNC0_ON
      s.app_regs.REG_BNC0_PULSES s.app_regs.REG_BNC0_OFF s.app_regs.REG_BNC0_TAIL) }
    let s2 := put_tail_bnc0 (add16 s1.app_regs.REG_BNC0_TAIL 1) s1
    let s3 := put_period_bnc0 (add16 s2.app_regs.REG_BNC0_ON s2.app_regs.REG_BNC0_OFF) s2
    let s4 := put_t_bnc0 s3.app_regs.REG_BNC0_ON s3
    let s5 := put_count_pulses_bnc0 (add16 s4.app_regs.REG_BNC0_PULSES 1) s4
    if s5.pulse_countdown.tail_bnc0 = 1 then set_BNC_SIG1_O s5 else s5
  else clr_BNC_SIG1_O s

/-- The BNC1 half of app_write_REG_BNCS_STATE (app_funcs.c). -/
def write_bncs_bnc1 (reg : Nat) (s : Device) : Device :=
  if reg &&& B_BNC1 ≠ 0 then
    let s1 := { s with s_bnc_1 := (start_signal s.app_regs.REG_BNC1_ON
      s.app_regs.REG_BNC1_PULSES s.app_regs.REG_BNC1_OFF s.app_regs.REG_BNC1_TAIL) }
    let s2 := put_tail_bnc1 (add16 s1.app_regs.REG_BNC1_TAIL 1) s1
    let s3 := put_period_bnc1 (add16 s2.app_regs.REG_BNC1_ON s2.app_regs.REG_BNC1_OFF) s2
    let s4 := put_t_bnc1 s3.app_regs.REG_BNC1_ON s3
    let s5 := put_count_pulses_bnc1 (add16 s4.app_regs.REG_BNC1_PULSES 1) s4
    if s5.pulse_countdown.tail_bnc1 = 1 then set_BNC_SIG2_O s5 else s5
  else clr_BNC_SIG2_O s

/-- The handler app_write_REG_BNCS_STATE: the written byte is reg; the result
is the handler's return value and the new globals. -/
def app_write_REG_BNCS_STATE (reg : Nat) (s : Device) : Bool × Device :=
  let s1 := write_bncs_bnc0 reg s
  let s2 := write_bncs_bnc1 reg s1
  (true, put_REG_BNCS_STATE reg s2)

/-- The handler app_write_REG_SIGNAL_STATE: stores the byte, nothing else. -/
def app_write_REG_SIGNAL_STATE (reg : Nat) (s : Device) : Bool × Device :=
  (true, put_REG_SIGNAL_STATE reg s)

def app_write_REG_BNC0_ON (reg : Nat) (s : Device) : Bool × Device :=
  (true, { s with app_regs.REG_BNC0_ON := reg })

def app_write_REG_BNC0_OFF (reg : Nat) (s : Device) : Bool × Device :=
  (true, { s with app_regs.REG_BNC0_OFF := reg })

def app_write_REG_BNC0_PULSES (reg : Nat) (s : Device) : Bool × Device :=
  (true, { s with app_regs.REG_BNC0_PULSES := reg })

def app_write_REG_BNC0_TAIL (reg : Nat) (s : Device) : Bool × Device :=
  (true, { s with app_regs.REG_BNC0_TAIL := reg })

def app_write_REG_BNC1_ON (reg : Nat) (s : Device) : Bool × Device :=
  (true, { s with app_regs.REG_BNC1_ON := reg })

def app_write_REG_BNC1_OFF (reg : Nat) (s : Device) : Bool × Device :=
  (true, { s with app_regs.REG_BNC1_OFF := reg })

def app_write_REG_BNC1_PULSES (reg : Nat) (s : Device) : Bool × Device :=
  (true, { s with app_regs.REG_BNC1_PULSES := reg })

def app_write_REG_BNC1_TAIL (reg : Nat) (s : Device) : Bool × Device :=
  (true, { s with app_regs.REG_BNC1_TAIL := reg })

def app_write_REG_SIGNAL_A_ON (reg : Nat) (s : Device) : Bool × Device :=
  (true, { s with app_regs.REG_SIGNAL_A_ON := reg })

def app_write_REG_SIGNAL_A_OFF (reg : Nat) (s : Device) : Bool × Device :=
  (true, { s with app_regs.REG_SIGNAL_A_OFF := reg })

def app_write_REG_SIGNAL_A_PULSES (reg : Nat) (s : Device) : Bool × Device :=
  (true, { s with app_regs.REG_SIGNAL_A_PULSES := reg })

def app_write_REG_SIGNAL_A_TAIL (reg : Nat) (s : Device) : Bool × Device :=
  (true, { s with app_regs.REG_SIGNAL_A_TAIL := reg })

def app_write_REG_SIGNAL_B_ON (reg : Nat) (s : Device) : Bool × Device :=
  (true, { s with app_regs.REG_SIGNAL_B_ON := reg })

def app_write_REG_SIGNAL_B_OFF (reg : Nat) (s : Device) : Bool × Device :=
  (true, { s with app_regs.REG_SIGNAL_B_OFF := reg })

def app_write_REG_SIGNAL_B_PULSES (reg : Nat) (s : Device) : Bool × Device :=
  (true, { s with app_regs.REG_SIGNAL_B_PULSES := reg })

def app_write_REG_SIGNAL_B_TAIL (reg : Nat) (s : Device) : Bool × Device :=
  (true, { s with app_regs.REG_SIGNAL_B_TAIL := reg })

/-! ## app.c -/

/-- spad_switch_events: updates REG_SPAD_SWITCH and the relay when the event
is enabled, and sends an event when the register changed. -/
def spad_switch_events (state : Nat) (s : Device) : Device :=
  let reg_spad_switch := s.app_regs.REG_SPAD_SWITCH
  if state = 1 then
    if s.app_regs.REG_EVNT_ENABLE &&& B_EVT_SPAD_SWITCH ≠ 0 then
      let s1 := { s with app_regs.REG_SPAD_SWITCH := 1 }
      let s2 := set_MCU_TO_RELAY s1
      if reg_spad_switch ≠ s2.app_regs.REG_SPAD_SWITCH then
        core_func_send_event ADD_REG_SPAD_SWITCH s2
      else s2
    else s
  else
    if s.app_regs.REG_EVNT_ENABLE &&& B_EVT_SPAD_SWITCH ≠ 0 then
      let s1 := { s with app_regs.REG_SPAD_SWITCH := 0 }
      let s2 := clr_MCU_TO_RELAY s1
      if reg_spad_switch ≠ s2.app_regs.REG_SPAD_SWITCH then
        core_func_send_event ADD_REG_SPAD_SWITCH s2
      else s2
    else s

/-- The BNC SIGNAL 1 block of core_callback_t_500us (app.c lines 312-352). -/
def tick_bnc0 (s : Device) : Device :=
  if s.app_regs.REG_BNCS_STATE &&& B_BNC0 ≠ 0 then
    if s.pulse_countdown.tail_bnc0 > 0 ∧ s.app_regs.REG_BNC0_ON ≠ 0 then
      let s1 := put_tail_bnc0 (dec16 s.pulse_countdown.tail_bnc0) s
      if s1.pulse_countdown.tail_bnc0 = 0 then set_BNC_SIG1_O s1 else s1
    else
      if s.pulse_countdown.t_bnc0 > 0 then
        let s1 := put_period_bnc0 (dec16 s.pulse_countdown.period_bnc0) s
        let s2 := put_t_bnc0 (dec16 s1.pulse_countdown.t_bnc0) s1
        if s2.pulse_countdown.t_bnc0 = 0 then
          if s2.pulse_countdown.period_bnc0 = 0 then
            let s3 := put_count_pulses_bnc0 (dec16 s2.pulse_countdown.count_pulses_bnc0) s2
            if s3.pulse_countdown.count_pulses_bnc0 > 1 then
              let s4 := put_period_bnc0 (add16 s3.s_bnc_0.on_ms s3.s_bnc_0.off_ms) s3
              let s5 := put_t_bnc0 s4.s_bnc_0.on_ms s4
              set_BNC_SIG1_O s5
            else if s3.pulse_countdown.count_pulses_bnc0 = 1 then
              let s4 := clr_BNC_SIG1_O s3
              put_REG_BNCS_STATE (s4.app_regs.REG_BNCS_STATE &&& not8 B_BNC0) s4
            else
              let s4 := put_period_bnc0 (add16 s3.s_bnc_0.on_ms s3.s_bnc_0.off_ms) s3
              let s5 := put_t_bnc0 s4.s_bnc_0.on_ms s4
              let s6 := put_count_pulses_bnc0 1 s5
              set_BNC_SIG1_O s6
          else
            let s3 := put_t_bnc0 s2.s_bnc_0.off_ms s2
            clr_BNC_SIG1_O s3
        else s2
      else s
  else s

/-- The BNC SIGNAL 2 block of core_callback_t_500us (app.c lines 356-396). -/
def tick_bnc1 (s : Device) : Device :=
  if s.app_regs.REG_BNCS_STATE &&& B_BNC1 ≠ 0 then
    if s.pulse_countdown.tail_bnc1 > 0 ∧ s.app_regs.REG_BNC1_ON ≠ 0 then
      let s1 := put_tail_bnc1 (dec16 s.pulse_countdown.tail_bnc1) s
      if s1.pulse_countdown.tail_bnc1 = 0 then set_BNC_SIG2_O s1 else s1
    else
      if s.pulse_countdown.t_bnc1 > 0 then
        let s1 := put_period_bnc1 (dec16 s.pulse_countdown.period_bnc1) s
        let s2 := put_t_bnc1 (dec16 s1.pulse_countdown.t_bnc1) s1
        if s2.pulse_countdown.t_bnc1 = 0 then
          if s2.pulse_countdown.period_bnc1 = 0 then
            let s3 := put_count_pulses_bnc1 (dec16 s2.pulse_countdown.count_pulses_bnc1) s2
            if s3.pulse_countdown.count_pulses_bnc1 > 1 then
              let s4 := put_period_bnc1 (add16 s3.s_bnc_1.on_ms s3.s_bnc_1.off_ms) s3
              let s5 := put_t_bnc1 s4.s_bnc_1.on_ms s4
              set_BNC_SIG2_O s5
            else if s3.pulse_countdown.count_pulses_bnc1 = 1 then
              let s4 := clr_BNC_SIG2_O s3
              put_REG_BNCS_STATE (s4.app_regs.REG_BNCS_STATE &&& not8 B_BNC1) s4
            else
              let s4 := put_period_bnc1 (add16 s3.s_bnc_1.on_ms s3.s_bnc_1.off_ms) s3
              let s5 := put_t_bnc1 s4.s_bnc_1.on_ms s4
              let s6 := put_count_pulses_bnc1 1 s5
              set_BNC_SIG2_O s6
          else
            let s3 := put_t_bnc1 s2.s_bnc_1.off_ms s2
            clr_BNC_SIG2_O s3
        else s2
      else s
  else s

/-- The SIGNAL A block of core_callback_t_500us (app.c lines 400-441). -/
def tick_signal_a (s : Device) : Device :=
  if s.app_regs.REG_SIGNAL_STATE &&& B_SIGNAL_A ≠ 0 then
    if s.pulse_countdown.tail_signal_a > 0 ∧ s.app_regs.REG_SIGNAL_A_ON ≠ 0 then
      let s1 := put_tail_signal_a (dec16 s.pulse_countdown.tail_signal_a) s
      if s1.pulse_countdown.tail_signal_a = 0 then set_SIGNAL_A_O s1 else s1
    else
      if s.pulse_countdown.t_signal_a > 0 then
        let s1 := put_period_signal_a (dec16 s.pulse_countdown.period_signal_a) s
        let s2 := put_t_signal_a (dec16 s1.pulse_countdown.t_signal_a) s1
        if s2.pulse_countdown.t_signal_a = 0 then
          if s2.pulse_countdown.period_signal_a = 0 then
            let s3 := put_count_pulses_signal_a (dec16 s2.pulse_countdown.count_pulses_signal_a) s2
            if s3.pulse_countdown.count_pulses_signal_a > 1 then
              let s4 := put_period_signal_a (add16 s3.s_signal_a.on_ms s3.s_signal_a.off_ms) s3
              let s5 := put_t_signal_a s4.s_signal_a.on_ms s4
              set_SIGNAL_A_O s5
            else if s3.pulse_countdown.count_pulses_signal_a = 1 then
              let s4 := clr_SIGNAL_A_O s3
              put_REG_SIGNAL_STATE (s4.app_regs.REG_SIGNAL_STATE &&& not8 B_SIGNAL_A) s4
            else
              let s4 := put_period_signal_a (add16 s3.s_signal_a.on_ms s3.s_signal_a.off_ms) s3
              let s5 := put_t_signal_a s4.s_signal_a.on_ms s4
              let s6 := put_count_pulses_signal_a 1 s5
              set_SIGNAL_A_O s6
          else
            let s3 := put_t_signal_a s2.s_signal_a.off_ms s2
            clr_SIGNAL_A_O s3
        else s2
      else s
  else s

/-- The SIGNAL B block of core_callback_t_500us (app.c lines 444-484). -/
def tick_signal_b (s : Device) : Device :=
  if s.app_regs.REG_SIGNAL_STATE &&& B_SIGNAL_B ≠ 0 then
    if s.pulse_countdown.tail_signal_b > 0 ∧ s.app_regs.REG_SIGNAL_B_ON ≠ 0 then
      let s1 := put_tail_signal_b (dec16 s.pulse_countdown.tail_signal_b) s
      if s1.pulse_countdown.tail_signal_b = 0 then set_SIGNAL_B_O s1 else s1
    else
      if s.pulse_countdown.t_signal_b > 0 then
        let s1 := put_period_signal_b (dec16 s.pulse_countdown.period_signal_b) s
        let s2 := put_t_signal_b (dec16 s1.pulse_countdown.t_signal_b) s1
        if s2.pulse_countdown.t_signal_b = 0 then
          if s2.pulse_countdown.period_signal_b = 0 then
            let s3 := put_count_pulses_signal_b (dec16 s2.pulse_countdown.count_pulses_signal_b) s2
            if s3.pulse_countdown.count_pulses_signal_b > 1 then
              let s4 := put_period_signal_b (add16 s3.s_signal_b.on_ms s3.s_signal_b.off_ms) s3
              let s5 := put_t_signal_b s4.s_signal_b.on_ms s4
              set_SIGNAL_B_O s5
            else if s3.pulse_countdown.count_pulses_signal_b = 1 then
              let s4 := clr_SIGNAL_B_O s3
              put_REG_SIGNAL_STATE (s4.app_regs.REG_SIGNAL_STATE &&& not8 B_SIGNAL_B) s4
            else
              let s4 := put_period_signal_b (add16 s3.s_signal_b.on_ms s3.s_signal_b.off_ms) s3
              let s5 := put_t_signal_b s4.s_signal_b.on_ms s4
              let s6 := put_count_pulses_signal_b 1 s5
              set_SIGNAL_B_O s6
          else
            let s3 := put_t_signal_b s2.s_signal_b.off_ms s2
            clr_SIGNAL_B_O s3
        else s2
      else s
  else s

/-- The 500 us timer callback core_callback_t_500us: the four channel blocks
in source order. -/
def core_callback_t_500us (s : Device) : Device :=
  tick_signal_b (tick_signal_a (tick_bnc1 (tick_bnc0 s)))


/-- The device after n consecutive calls of core_callback_t_500us. -/
def ticks : Nat → Device → Device
  | 0, s => s
  | n + 1, s => ticks n (core_callback_t_500us s)

/-- The globals at power-on: zero-initialised statics, every output pin low
(init_ios clears each pin), no call and no event logged yet. -/
def power_on : Device :=
  { app_regs := ⟨0, 0, 0, 0, 0, 0, 0, 0, 0, 0, 0, 0, 0, 0, 0, 0, 0, 0, 0, 0, 0, 0, 0, 0, 0, 0, 0, 0,
      0, 0, 0⟩
    pulse_countdown := ⟨0, 0, 0, 0, 0, 0, 0, 0, 0, 0, 0, 0, 0, 0, 0, 0⟩
    s_bnc_0 := ⟨0, 0, 0, 0⟩
    s_bnc_1 := ⟨0, 0, 0, 0⟩
    s_signal_a := ⟨0, 0, 0, 0⟩
    s_signal_b := ⟨0, 0, 0, 0⟩
    ports := ⟨false, false, false, false, false, false, false, false, false, false, false, false,
      false⟩
    io_calls := []
    events := [] }

/-- Host writes of the four BNC0 configuration registers, in address order. -/
def configure_bnc0 (a b n t : Nat) (s : Device) : Device :=
  (app_write_REG_BNC0_TAIL t (app_write_REG_BNC0_PULSES n
    (app_write_REG_BNC0_OFF b (app_write_REG_BNC0_ON a s).2).2).2).2

/-- Host writes of the four BNC1 configuration registers, in address order. -/
def configure_bnc1 (a b n t : Nat) (s : Device) : Device :=
  (app_write_REG_BNC1_TAIL t (app_write_REG_BNC1_PULSES n
    (app_write_REG_BNC1_OFF b (app_write_REG_BNC1_ON a s).2).2).2).2

/-- Host writes of the four Signal A configuration registers, in address order. -/
def configure_signal_a (a b n t : Nat) (s : Device) : Device :=
  (app_write_REG_SIGNAL_A_TAIL t (app_write_REG_SIGNAL_A_PULSES n
    (app_write_REG_SIGNAL_A_OFF b (app_write_REG_SIGNAL_A_ON a s).2).2).2).2


/-! ## One channel seen on its own

The four blocks of the tick callback and the two halves of the BNC state
handler have the same shape.  The definitions below give that shape once, on
the objects of a single channel; the theorems of the next section show that
each block of the source acts on its channel exactly as these do. -/

/-- The four pulse outputs. -/
inductive Channel where
  | bnc0 | bnc1 | signal_a | signal_b
deriving DecidableEq, Repr

/-- The objects of one channel: its bit of the state register, its four
countdown counters, its output line, its four configuration registers
(ON, OFF, PULSES, TAIL) and its interval descriptor. -/
structure Chan where
  active : Bool
  tail : Nat
  period : Nat
  t : Nat
  count_pulses : Nat
  out : Bool
  cfg : interval_t
  desc : interval_t
deriving DecidableEq, Repr

/-- The objects of channel ch in the globals s. -/
def view : Channel → Device → Chan
  | Channel.bnc0, s =>
    { active := decide (s.app_regs.REG_BNCS_STATE &&& B_BNC0 ≠ 0)
      tail := s.pulse_countdown.tail_bnc0
      period := s.pulse_countdown.period_bnc0
      t := s.pulse_countdown.t_bnc0
      count_pulses := s.pulse_countdown.count_pulses_bnc0
      out := s.ports.BNC_SIG1_O
      cfg := ⟨s.app_regs.REG_BNC0_ON, s.app_regs.REG_BNC0_OFF, s.app_regs.REG_BNC0_PULSES,
        s.app_regs.REG_BNC0_TAIL⟩
      desc := s.s_bnc_0 }
  | Channel.bnc1, s =>
    { active := decide (s.app_regs.REG_BNCS_STATE &&& B_BNC1 ≠ 0)
      tail := s.pulse_countdown.tail_bnc1
      period := s.pulse_countdown.period_bnc1
      t := s.pulse_countdown.t_bnc1
      count_pulses := s.pulse_countdown.count_pulses_bnc1
      out := s.ports.BNC_SIG2_O
      cfg := ⟨s.app_regs.REG_BNC1_ON, s.app_regs.REG_BNC1_OFF, s.app_regs.REG_BNC1_PULSES,
        s.app_regs.REG_BNC1_TAIL⟩
      desc := s.s_bnc_1 }
  | Channel.signal_a, s =>
    { active := decide (s.app_regs.REG_SIGNAL_STATE &&& B_SIGNAL_A ≠ 0)
      tail := s.pulse_countdown.tail_signal_a
      period := s.pulse_countdown.period_signal_a
      t := s.pulse_countdown.t_signal_a
      count_pulses := s.pulse_countdown.count_pulses_signal_a
      out := s.ports.SIGNAL_A_O
      cfg := ⟨s.app_regs.REG_SIGNAL_A_ON, s.app_regs.REG_SIGNAL_A_OFF,
        s.app_regs.REG_SIGNAL_A_PULSES, s.app_regs.REG_SIGNAL_A_TAIL⟩
      desc := s.s_signal_a }
  | Channel.signal_b, s =>
    { active := decide (s.app_regs.REG_SIGNAL_STATE &&& B_SIGNAL_B ≠ 0)
      tail := s.pulse_countdown.tail_signal_b
      period := s.pulse_countdown.period_signal_b
      t := s.pulse_countdown.t_signal_b
      count_pulses := s.pulse_countdown.count_pulses_signal_b
      out := s.ports.SIGNAL_B_O
      cfg := ⟨s.app_regs.REG_SIGNAL_B_ON, s.app_regs.REG_SIGNAL_B_OFF,
        s.app_regs.REG_SIGNAL_B_PULSES, s.app_regs.REG_SIGNAL_B_TAIL⟩
      desc := s.s_signal_b }

/-- The block of channel ch in core_callback_t_500us. -/
def tick_block : Channel → Device → Device
  | Channel.bnc0 => tick_bnc0
  | Channel.bnc1 => tick_bnc1
  | Channel.signal_a => tick_signal_a
  | Channel.signal_b => tick_signal_b

/-- The bit of channel ch in its state register. -/
def state_bit : Channel → Nat
  | Channel.bnc0 => B_BNC0
  | Channel.bnc1 => B_BNC1
  | Channel.signal_a => B_SIGNAL_A
  | Channel.signal_b => B_SIGNAL_B

/-- One block of the tick callback, on the objects of its channel. -/
def chan_tick (c : Chan) : Chan :=
  if c.active = true then
    if c.tail > 0 ∧ c.cfg.on_ms ≠ 0 then
      if dec16 c.tail = 0 then { c with tail := dec16 c.tail, out := true }
      else { c with tail := dec16 c.tail }
    else
      if c.t > 0 then
        if dec16 c.t = 0 then
          if dec16 c.period = 0 then
            if dec16 c.count_pulses > 1 then
              { c with count_pulses := dec16 c.count_pulses
                       period := add16 c.desc.on_ms c.desc.off_ms
                       t := c.desc.on_ms
                       out := true }
            else if dec16 c.count_pulses = 1 then
              { c with count_pulses := dec16 c.count_pulses
                       period := dec16 c.period
                       t := dec16 c.t
                       out := false
                       active := false }
            else
              { c with count_pulses := 1
                       period := add16 c.desc.on_ms c.desc.off_ms
                       t := c.desc.on_ms
                       out := true }
          else
            { c with period := dec16 c.period, t := c.desc.off_ms, out := false }
        else { c with period := dec16 c.period, t := dec16 c.t }
      else c
  else c

/-- The start branch of a half of app_write_REG_BNCS_STATE followed by the
store of a state byte with the channel's bit set. -/
def chan_start (c : Chan) : Chan :=
  { active := true
    tail := add16 c.cfg.tail_ms 1
    period := add16 c.cfg.on_ms c.cfg.off_ms
    t := c.cfg.on_ms
    count_pulses := add16 c.cfg.pulses 1
    out := if add16 c.cfg.tail_ms 1 = 1 then true else c.out
    cfg := c.cfg
    desc := start_signal c.cfg.on_ms c.cfg.pulses c.cfg.off_ms c.cfg.tail_ms }

/-- The stop branch of a half of app_write_REG_BNCS_STATE followed by the
store of a state byte with the channel's bit clear. -/
def chan_stop (c : Chan) : Chan :=
  { c with out := false, active := false }

/-- Iteration of chan_tick. -/
def chan_ticks : Nat → Chan → Chan
  | 0, c => c
  | n + 1, c => chan_ticks n (chan_tick c)


/-- The objects of a channel i ticks into a period that began in c: the phase
counter runs down the on-time and then the off-time, the period counter runs
down modulo 2^16, and the line drops when the off-time begins. -/
def in_cycle (c : Chan) (i : Nat) : Chan :=
  { c with t := if i < c.desc.on_ms then c.desc.on_ms - i
                else c.desc.on_ms + c.desc.off_ms - i
           period := (c.desc.on_ms + c.desc.off_ms - i) % 65536
           out := if i < c.desc.on_ms then c.out else false }

/-- The objects of a channel at the first tick of an on-time: tail elapsed,
period and phase counters freshly loaded from the descriptor. -/
def on_state (cfg desc : interval_t) (cnt : Nat) (o : Bool) : Chan :=
  { active := true, tail := 0, period := add16 desc.on_ms desc.off_ms, t := desc.on_ms,
    count_pulses := cnt, out := o, cfg := cfg, desc := desc }

/-- The objects of a channel after the terminal branch of the tick block. -/
def end_state (cfg desc : interval_t) : Chan :=
  { active := false, tail := 0, period := 0, t := 0, count_pulses := 1, out := false,
    cfg := cfg, desc := desc }

/-- A pulse train on a sampled line: the line is high exactly in n windows of
a samples each, the j-th window beginning at sample first + j * (a + b), so
that consecutive windows are separated by b low samples. -/
def pulse_train (line : Nat → Bool) (first n a b : Nat) : Prop :=
  ∀ k, line k = true ↔ ∃ j, j < n ∧ first + j * (a + b) ≤ k ∧ k < first + j * (a + b) + a

/-- The globals after the host has configured BNC0 at power-on and written
the state byte reg to REG_BNCS_STATE. -/
def bnc0_run (a b n t reg : Nat) : Device :=
  (app_write_REG_BNCS_STATE reg (configure_bnc0 a b n t power_on)).2

/-- The globals after the host has configured Signal A at power-on and
written the state byte reg to REG_SIGNAL_STATE. -/
def signal_a_run (a b n t reg : Nat) : Device :=
  (app_write_REG_SIGNAL_STATE reg (configure_signal_a a b n t power_on)).2

/-! ## The other output pins and the remaining handlers -/

def set_F1 (s : Device) : Device :=
  { s with ports.F1 := true, io_calls := s.io_calls ++ [IoCall.set Pin.F1] }

def clr_F1 (s : Device) : Device :=
  { s with ports.F1 := false, io_calls := s.io_calls ++ [IoCall.clr Pin.F1] }

def set_F2 (s : Device) : Device :=
  { s with ports.F2 := true, io_calls := s.io_calls ++ [IoCall.set Pin.F2] }

def clr_F2 (s : Device) : Device :=
  { s with ports.F2 := false, io_calls := s.io_calls ++ [IoCall.clr Pin.F2] }

def set_F3 (s : Device) : Device :=
  { s with ports.F3 := true, io_calls := s.io_calls ++ [IoCall.set Pin.F3] }

def clr_F3 (s : Device) : Device :=
  { s with ports.F3 := false, io_calls := s.io_calls ++ [IoCall.clr Pin.F3] }

def set_DO1 (s : Device) : Device :=
  { s with ports.DO1 := true, io_calls := s.io_calls ++ [IoCall.set Pin.DO1] }

def clr_DO1 (s : Device) : Device :=
  { s with ports.DO1 := false, io_calls := s.io_calls ++ [IoCall.clr Pin.DO1] }

def tgl_DO1 (s : Device) : Device :=
  { s with ports.DO1 := !s.ports.DO1, io_calls := s.io_calls ++ [IoCall.tgl Pin.DO1] }

def set_DO2 (s : Device) : Device :=
  { s with ports.DO2 := true, io_calls := s.io_calls ++ [IoCall.set Pin.DO2] }

def clr_DO2 (s : Device) : Device :=
  { s with ports.DO2 := false, io_calls := s.io_calls ++ [IoCall.clr Pin.DO2] }

def tgl_DO2 (s : Device) : Device :=
  { s with ports.DO2 := !s.ports.DO2, io_calls := s.io_calls ++ [IoCall.tgl Pin.DO2] }

def set_POT_CS (s : Device) : Device :=
  { s with ports.POT_CS := true, io_calls := s.io_calls ++ [IoCall.set Pin.POT_CS] }

def clr_POT_CS (s : Device) : Device :=
  { s with ports.POT_CS := false, io_calls := s.io_calls ++ [IoCall.clr Pin.POT_CS] }

def set_POT_SDI (s : Device) : Device :=
  { s with ports.POT_SDI := true, io_calls := s.io_calls ++ [IoCall.set Pin.POT_SDI] }

def clr_POT_SDI (s : Device) : Device :=
  { s with ports.POT_SDI := false, io_calls := s.io_calls ++ [IoCall.clr Pin.POT_SDI] }

def set_POT_CLK (s : Device) : Device :=
  { s with ports.POT_CLK := true, io_calls := s.io_calls ++ [IoCall.set Pin.POT_CLK] }

def clr_POT_CLK (s : Device) : Device :=
  { s with ports.POT_CLK := false, io_calls := s.io_calls ++ [IoCall.clr Pin.POT_CLK] }

/-- The assignment app_regs.REG_LASER_FREQUENCY_SELECT = v. -/
def put_REG_LASER_FREQUENCY_SELECT (v : Nat) (s : Device) : Device :=
  { s with app_regs := { s.app_regs with REG_LASER_FREQUENCY_SELECT := v } }

/-- The assignment app_regs.REG_LASER_INTENSITY = v. -/
def put_REG_LASER_INTENSITY (v : Nat) (s : Device) : Device :=
  { s with app_regs := { s.app_regs with REG_LASER_INTENSITY := v } }

/-- The assignment app_regs.REG_OUTPUT_SET = v. -/
def put_REG_OUTPUT_SET (v : Nat) (s : Device) : Device :=
  { s with app_regs := { s.app_regs with REG_OUTPUT_SET := v } }

/-- The assignment app_regs.REG_OUTPUT_CLEAR = v. -/
def put_REG_OUTPUT_CLEAR (v : Nat) (s : Device) : Device :=
  { s with app_regs := { s.app_regs with REG_OUTPUT_CLEAR := v } }

/-- The assignment app_regs.REG_OUTPUT_TOGGLE = v. -/
def put_REG_OUTPUT_TOGGLE (v : Nat) (s : Device) : Device :=
  { s with app_regs := { s.app_regs with REG_OUTPUT_TOGGLE := v } }

/-- The assignment app_regs.REG_OUTPUT_STATE = v. -/
def put_REG_OUTPUT_STATE (v : Nat) (s : Device) : Device :=
  { s with app_regs := { s.app_regs with REG_OUTPUT_STATE := v } }

/-- One pass of the loop of update_digipot: bit 7 - i of data goes to the data
pin, then the clock pin is pulsed. -/
def update_digipot_bit (data i : Nat) (s : Device) : Device :=
  let s1 := if (data <<< i) &&& 0x80 ≠ 0 then set_POT_SDI s else clr_POT_SDI s
  clr_POT_CLK (set_POT_CLK s1)

/-- update_digipot as app.c calls it, with cs_port = spi_port = PORTD and
cs_pin = 4: pin 4 of PORTD is POT_CS, pin 5 POT_SDI and pin 7 POT_CLK. The SPI
control register and the delay cycles are not part of the globals. -/
def update_digipot (data : Nat) (s : Device) : Device :=
  let s1 := clr_POT_CS s
  let s2 := set_POT_SDI (clr_POT_SDI s1)
  let s3 := clr_POT_CLK (set_POT_CLK s2)
  let s4 := (List.range 8).foldl (fun d i => update_digipot_bit data i d) s3
  set_POT_CS s4

/-- set_laser_freq (app.c lines 130-162): five independent tests in a row. -/
def set_laser_freq (value : Nat) (s : Device) : Device :=
  let s1 := if value = 0 then
      put_REG_LASER_FREQUENCY_SELECT 0 (clr_F3 (clr_F2 (clr_F1 s)))
    else s
  let s2 := if value &&& B_F1 ≠ 0 then
      put_REG_LASER_FREQUENCY_SELECT B_F1 (clr_F3 (clr_F2 (set_F1 s1)))
    else s1
  let s3 := if value &&& B_F2 ≠ 0 then
      put_REG_LASER_FREQUENCY_SELECT B_F2 (clr_F3 (set_F2 (clr_F1 s2)))
    else s2
  let s4 := if value &&& B_F3 ≠ 0 then
      put_REG_LASER_FREQUENCY_SELECT B_F3 (set_F3 (clr_F2 (clr_F1 s3)))
    else s3
  if value &&& B_CW ≠ 0 then
    put_REG_LASER_FREQUENCY_SELECT B_CW (set_F3 (set_F2 (set_F1 s4)))
  else s4

def app_write_REG_SPAD_SWITCH (reg : Nat) (s : Device) : Bool × Device :=
  (true, if reg = 0 ∨ reg = 1 then spad_switch_events reg s else s)

/-- The handler app_write_REG_LASER_STATE: its body is commented out. -/
def app_write_REG_LASER_STATE (_reg : Nat) (s : Device) : Bool × Device :=
  (true, s)

def app_write_REG_RESERVED0 (reg : Nat) (s : Device) : Bool × Device :=
  (true, { s with app_regs.REG_RESERVED0 := reg })

def app_write_REG_RESERVED1 (reg : Nat) (s : Device) : Bool × Device :=
  (true, { s with app_regs.REG_RESERVED1 := reg })

def app_write_REG_RESERVED2 (reg : Nat) (s : Device) : Bool × Device :=
  (true, { s with app_regs.REG_RESERVED2 := reg })

def app_write_REG_RESERVED3 (reg : Nat) (s : Device) : Bool × Device :=
  (true, { s with app_regs.REG_RESERVED3 := reg })

/-- The handler app_write_REG_LASER_FREQUENCY_SELECT (app_funcs.c lines
219-230): the values let through are 0, 1, 2, 4 and 8. -/
def app_write_REG_LASER_FREQUENCY_SELECT (reg : Nat) (s : Device) : Bool × Device :=
  (true, if reg = 0 ∨ reg = 1 ∨ reg = 2 ∨ reg = 4 ∨ reg = 8 then set_laser_freq reg s else s)

def app_write_REG_LASER_INTENSITY (reg : Nat) (s : Device) : Bool × Device :=
  (true, if reg ≥ 0 ∧ reg ≤ 255 then
      update_digipot reg (put_REG_LASER_INTENSITY reg s)
    else s)

def app_write_REG_OUTPUT_SET (reg : Nat) (s : Device) : Bool × Device :=
  let s1 := if reg &&& B_DOUT1 ≠ 0 then set_DO1 s else s
  let s2 := if reg &&& B_DOUT2 ≠ 0 then set_DO2 s1 else s1
  let s3 := put_REG_OUTPUT_STATE (s2.app_regs.REG_OUTPUT_STATE ||| reg) s2
  (true, put_REG_OUTPUT_SET reg s3)

def app_write_REG_OUTPUT_CLEAR (reg : Nat) (s : Device) : Bool × Device :=
  let s1 := if reg &&& B_DOUT1 ≠ 0 then clr_DO1 s else s
  let s2 := if reg &&& B_DOUT2 ≠ 0 then clr_DO2 s1 else s1
  let s3 := put_REG_OUTPUT_STATE (s2.app_regs.REG_OUTPUT_STATE &&& not8 reg) s2
  (true, put_REG_OUTPUT_CLEAR reg s3)

def app_write_REG_OUTPUT_TOGGLE (reg : Nat) (s : Device) : Bool × Device :=
  let s1 := if reg &&& B_DOUT1 ≠ 0 then (if s.ports.DO1 = true then tgl_DO1 s else set_DO1 s)
    else s
  let s2 := if reg &&& B_DOUT2 ≠ 0 then (if s1.ports.DO2 = true then tgl_DO2 s1 else set_DO2 s1)
    else s1
  let s3 := put_REG_OUTPUT_STATE (s2.app_regs.REG_OUTPUT_STATE ^^^ reg) s2
  (true, put_REG_OUTPUT_TOGGLE reg s3)

def app_write_REG_OUTPUT_STATE (reg : Nat) (s : Device) : Bool × Device :=
  let s1 := if reg &&& B_DOUT1 ≠ 0 then set_DO1 s else clr_DO1 s
  let s2 := if reg &&& B_DOUT2 ≠ 0 then set_DO2 s1 else clr_DO2 s1
  (true, put_REG_OUTPUT_STATE reg s2)

def app_write_REG_EVNT_ENABLE (reg : Nat) (s : Device) : Bool × Device :=
  (true, { s with app_regs.REG_EVNT_ENABLE := reg })

/-- The handler app_read_REG_OUTPUT_STATE: the only read handler with a body. -/
def app_read_REG_OUTPUT_STATE (s : Device) : Device :=
  let s1 := put_REG_OUTPUT_STATE
    (s.app_regs.REG_OUTPUT_STATE ||| (if s.ports.DO1 = true then B_DOUT1 else 0)) s
  put_REG_OUTPUT_STATE
    (s1.app_regs.REG_OUTPUT_STATE ||| (if s1.ports.DO2 = true then B_DOUT2 else 0)) s1

/-- Every other read handler (app_read_REG_SPAD_SWITCH and the like) has an
empty body. -/
def app_read_nothing (s : Device) : Device := s

/-! ## Register tables and the two entry points of the host (app_ios_and_regs.c, app.c) -/

def APP_REGS_ADD_MIN : Nat := 0x20
def APP_REGS_ADD_MAX : Nat := 0x3E

/-- The table app_regs_type. The type codes TYPE_U8 and TYPE_U16 come from a
header of the host framework and are taken as parameters. -/
def app_regs_type (TYPE_U8 TYPE_U16 : Nat) : List Nat :=
  [TYPE_U8, TYPE_U8, TYPE_U16, TYPE_U16, TYPE_U8, TYPE_U8, TYPE_U8, TYPE_U8, TYPE_U8, TYPE_U8,
   TYPE_U8, TYPE_U8, TYPE_U8, TYPE_U8, TYPE_U16, TYPE_U16, TYPE_U16, TYPE_U16, TYPE_U16, TYPE_U16,
   TYPE_U16, TYPE_U16, TYPE_U16, TYPE_U16, TYPE_U16, TYPE_U16, TYPE_U16, TYPE_U16, TYPE_U16,
   TYPE_U16, TYPE_U8]

/-- The table app_regs_n_elements. -/
def app_regs_n_elements : List Nat :=
  [1, 1, 1, 1, 1, 1, 1, 1, 1, 1, 1, 1, 1, 1, 1, 1, 1, 1, 1, 1, 1, 1, 1, 1, 1, 1, 1, 1, 1, 1, 1]

/-- The table app_func_wr_pointer (app_funcs.c lines 56-88). -/
def app_func_wr_pointer : List (Nat → Device → Bool × Device) :=
  [app_write_REG_SPAD_SWITCH, app_write_REG_LASER_STATE, app_write_REG_RESERVED0,
   app_write_REG_RESERVED1, app_write_REG_RESERVED2, app_write_REG_RESERVED3,
   app_write_REG_LASER_FREQUENCY_SELECT, app_write_REG_LASER_INTENSITY,
   app_write_REG_OUTPUT_SET, app_write_REG_OUTPUT_CLEAR, app_write_REG_OUTPUT_TOGGLE,
   app_write_REG_OUTPUT_STATE, app_write_REG_BNCS_STATE, app_write_REG_SIGNAL_STATE,
   app_write_REG_BNC0_ON, app_write_REG_BNC0_OFF, app_write_REG_BNC0_PULSES,
   app_write_REG_BNC0_TAIL, app_write_REG_BNC1_ON, app_write_REG_BNC1_OFF,
   app_write_REG_BNC1_PULSES, app_write_REG_BNC1_TAIL, app_write_REG_SIGNAL_A_ON,
   app_write_REG_SIGNAL_A_OFF, app_write_REG_SIGNAL_A_PULSES, app_write_REG_SIGNAL_A_TAIL,
   app_write_REG_SIGNAL_B_ON, app_write_REG_SIGNAL_B_OFF, app_write_REG_SIGNAL_B_PULSES,
   app_write_REG_SIGNAL_B_TAIL, app_write_REG_EVNT_ENABLE]

/-- The table app_func_rd_pointer (app_funcs.c lines 22-54). -/
def app_func_rd_pointer : List (Device → Device) :=
  [app_read_nothing, app_read_nothing, app_read_nothing, app_read_nothing, app_read_nothing,
   app_read_nothing, app_read_nothing, app_read_nothing, app_read_nothing, app_read_nothing,
   app_read_nothing, app_read_REG_OUTPUT_STATE, app_read_nothing, app_read_nothing,
   app_read_nothing, app_read_nothing, app_read_nothing, app_read_nothing, app_read_nothing,
   app_read_nothing, app_read_nothing, app_read_nothing, app_read_nothing, app_read_nothing,
   app_read_nothing, app_read_nothing, app_read_nothing, app_read_nothing, app_read_nothing,
   app_read_nothing, app_read_nothing]

/-- The entry point core_write_app_register: add, type and n_elements as
received, content the value the handler reads through its pointer. The three
tables have 31 entries each and the index add - APP_REGS_ADD_MIN is at most 30
past the first test, so the defaults of the lookups are never used. -/
def core_write_app_register (TYPE_U8 TYPE_U16 : Nat) (add type content n_elements : Nat)
    (s : Device) : Bool × Device :=
  if add < APP_REGS_ADD_MIN ∨ add > APP_REGS_ADD_MAX then (false, s)
  else if (app_regs_type TYPE_U8 TYPE_U16).getD (add - APP_REGS_ADD_MIN) 0 ≠ type then (false, s)
  else if app_regs_n_elements.getD (add - APP_REGS_ADD_MIN) 0 ≠ n_elements then (false, s)
  else (app_func_wr_pointer.getD (add - APP_REGS_ADD_MIN) (fun _ d => (false, d))) content s

/-- The entry point core_read_app_register. -/
def core_read_app_register (TYPE_U8 TYPE_U16 : Nat) (add type : Nat) (s : Device) :
    Bool × Device :=
  if add < APP_REGS_ADD_MIN ∨ add > APP_REGS_ADD_MAX then (false, s)
  else if (app_regs_type TYPE_U8 TYPE_U16).getD (add - APP_REGS_ADD_MIN) 0 ≠ type then (false, s)
  else (true, (app_func_rd_pointer.getD (add - APP_REGS_ADD_MIN) (fun d => d)) s)

/-! ## Counting the assert events of a channel -/

/-- The output pin of a channel. -/
def pin_of : Channel → Pin
  | Channel.bnc0 => Pin.BNC_SIG1_O
  | Channel.bnc1 => Pin.BNC_SIG2_O
  | Channel.signal_a => Pin.SIGNAL_A_O
  | Channel.signal_b => Pin.SIGNAL_B_O

/-- The number of set_io calls made so far on the output pin of a channel. -/
def set_calls (ch : Channel) (s : Device) : Nat :=
  s.io_calls.count (IoCall.set (pin_of ch))

/-- The number of set calls one block of the tick callback makes on its line:
1 in the branches of chan_tick that assert the line, 0 in the others. -/
def chan_tick_sets (c : Chan) : Nat :=
  if c.active = true then
    if c.tail > 0 ∧ c.cfg.on_ms ≠ 0 then
      if dec16 c.tail = 0 then 1 else 0
    else
      if c.t > 0 then
        if dec16 c.t = 0 then
          if dec16 c.period = 0 then
            if dec16 c.count_pulses > 1 then 1
            else if dec16 c.count_pulses = 1 then 0
            else 1
          else 0
        else 0
      else 0
  else 0

/-- The number of set calls made by n consecutive ticks from c. -/
def chan_sets : Nat → Chan → Nat
  | 0, _ => 0
  | n + 1, c => chan_tick_sets c + chan_sets n (chan_tick c)

/-! ## Host activity during a run of BNC0 -/

/-- What can happen to BNC0 between a start and the next start or stop: a
tick, or a host write of one of its four configuration registers. -/
inductive HostOp where
  | tick
  | write_on (v : Nat)
  | write_off (v : Nat)
  | write_pulses (v : Nat)
  | write_tail (v : Nat)
deriving DecidableEq, Repr

/-- The globals after one step of host activity. -/
def run_op : HostOp → Device → Device
  | HostOp.tick, s => core_callback_t_500us s
  | HostOp.write_on v, s => (app_write_REG_BNC0_ON v s).2
  | HostOp.write_off v, s => (app_write_REG_BNC0_OFF v s).2
  | HostOp.write_pulses v, s => (app_write_REG_BNC0_PULSES v s).2
  | HostOp.write_tail v, s => (app_write_REG_BNC0_TAIL v s).2

/-- The globals after a sequence of steps, first step first. -/
def run_ops : List HostOp → Device → Device
  | [], s => s
  | op :: ops, s => run_ops ops (run_op op s)

/-- Two steps that differ at most in the value written. -/
def same_step : HostOp → HostOp → Prop
  | HostOp.tick, HostOp.tick => True
  | HostOp.write_on _, HostOp.write_on _ => True
  | HostOp.write_off _, HostOp.write_off _ => True
  | HostOp.write_pulses _, HostOp.write_pulses _ => True
  | HostOp.write_tail _, HostOp.write_tail _ => True
  | _, _ => False

/-- Two steps that differ at most in the value written, where two values
written to REG_BNC0_ON are both zero or both non-zero. -/
def same_step_on_zero : HostOp → HostOp → Prop
  | HostOp.tick, HostOp.tick => True
  | HostOp.write_on v, HostOp.write_on w => (v = 0 ↔ w = 0)
  | HostOp.write_off _, HostOp.write_off _ => True
  | HostOp.write_pulses _, HostOp.write_pulses _ => True
  | HostOp.write_tail _, HostOp.write_tail _ => True
  | _, _ => False

/-- The engine side of a channel: active bit, the four countdown counters,
the line and the descriptor (everything but the configuration registers). -/
def engine (c : Chan) : Bool × Nat × Nat × Nat × Nat × Bool × interval_t :=
  (c.active, c.tail, c.period, c.t, c.count_pulses, c.out, c.desc)

/-! ## Boot, register reset and standby -/

/-- The output part of init_ios (app_ios_and_regs.c): the thirteen output pins
are cleared in this order. The direction and interrupt configuration of the
pins is not part of the globals. -/
def init_ios (s : Device) : Device :=
  let s1 := clr_DO2 s
  let s2 := clr_DO1 s1
  let s3 := clr_MCU_TO_RELAY s2
  let s4 := clr_POT_CS s3
  let s5 := clr_POT_SDI s4
  let s6 := clr_POT_CLK s5
  let s7 := clr_F1 s6
  let s8 := clr_F2 s7
  let s9 := clr_F3 s8
  let s10 := clr_BNC_SIG1_O s9
  let s11 := clr_BNC_SIG2_O s10
  let s12 := clr_SIGNAL_A_O s11
  clr_SIGNAL_B_O s12

/-- The callback core_callback_reset_registers of app.c: every application
register is assigned, and nothing else. The two input reads read_SWITCH_5V and
read_ON_OFF_KEY are parameters. -/
def core_callback_reset_registers (read_SWITCH_5V read_ON_OFF_KEY : Nat) (s : Device) :
    Device :=
  { s with app_regs :=
      { REG_SPAD_SWITCH := read_SWITCH_5V
        REG_LASER_STATE := read_ON_OFF_KEY
        REG_RESERVED0 := 0
        REG_RESERVED1 := 0
        REG_RESERVED2 := 0
        REG_RESERVED3 := 0
        REG_LASER_FREQUENCY_SELECT := 0
        REG_LASER_INTENSITY := 0
        REG_OUTPUT_SET := 0
        REG_OUTPUT_CLEAR := 0
        REG_OUTPUT_TOGGLE := 0
        REG_OUTPUT_STATE := 0
        REG_BNCS_STATE := 0
        REG_SIGNAL_STATE := 0
        REG_BNC0_ON := 0
        REG_BNC0_OFF := 0
        REG_BNC0_PULSES := 0
        REG_BNC0_TAIL := 0
        REG_BNC1_ON := 0
        REG_BNC1_OFF := 0
        REG_BNC1_PULSES := 0
        REG_BNC1_TAIL := 0
        REG_SIGNAL_A_ON := 0
        REG_SIGNAL_A_OFF := 0
        REG_SIGNAL_A_PULSES := 0
        REG_SIGNAL_A_TAIL := 0
        REG_SIGNAL_B_ON := 0
        REG_SIGNAL_B_OFF := 0
        REG_SIGNAL_B_PULSES := 0
        REG_SIGNAL_B_TAIL := 0
        REG_EVNT_ENABLE := B_EVT_SPAD_SWITCH ||| B_EVT_LASER_STATE } }

/-- The callback core_callback_device_to_standby of app.c. Its last statement
calls app_write_REG_SPAD_SWITCH with the pointer 0; the byte the handler reads
through that pointer is the parameter byte_at_0. -/
def core_callback_device_to_standby (byte_at_0 : Nat) (s : Device) : Device :=
  let s1 := put_REG_BNCS_STATE 0 s
  let s2 := (app_write_REG_BNCS_STATE s1.app_regs.REG_BNCS_STATE s1).2
  let s3 := put_REG_SIGNAL_STATE 0 s2
  let s4 := (app_write_REG_SIGNAL_STATE s3.app_regs.REG_SIGNAL_STATE s3).2
  let s5 := put_REG_LASER_INTENSITY 0 s4
  let s6 := (app_write_REG_LASER_INTENSITY s5.app_regs.REG_LASER_INTENSITY s5).2
  (app_write_REG_SPAD_SWITCH byte_at_0 s6).2

/-- The globals after boot: init_ios, then core_callback_reset_registers. -/
def boot (read_SWITCH_5V read_ON_OFF_KEY : Nat) : Device :=
  core_callback_reset_registers read_SWITCH_5V read_ON_OFF_KEY (init_ios power_on)

/-- The calls that can follow boot: a host write of REG_BNCS_STATE, a tick, the
standby callback and the register reset callback. -/
inductive BootOp where
  | write_bncs (reg : Nat)
  | tick
  | standby (byte_at_0 : Nat)
  | reset (read_SWITCH_5V read_ON_OFF_KEY : Nat)
deriving DecidableEq, Repr

/-- One call after boot. -/
def boot_op : BootOp → Device → Device
  | BootOp.write_bncs reg, s => (app_write_REG_BNCS_STATE reg s).2
  | BootOp.tick, s => core_callback_t_500us s
  | BootOp.standby b, s => core_callback_device_to_standby b s
  | BootOp.reset sw key, s => core_callback_reset_registers sw key s

/-- A sequence of calls after boot, in order. -/
def boot_ops (ops : List BootOp) (s : Device) : Device :=
  ops.foldl (fun d op => boot_op op d) s

/-- The call is core_callback_reset_registers. -/
def is_reset : BootOp → Bool
  | BootOp.reset _ _ => true
  | _ => false

/-- A sequence of calls that holds no register reset. -/
def no_reset (ops : List BootOp) : Prop :=
  ∀ op ∈ ops, is_reset op = false

/-- A BNC channel whose active bit is clear has its line low, for both BNC
channels. -/
def idle_deasserted (s : Device) : Prop :=
  (s.app_regs.REG_BNCS_STATE &&& B_BNC0 = 0 → s.ports.BNC_SIG1_O = false) ∧
  (s.app_regs.REG_BNCS_STATE &&& B_BNC1 = 0 → s.ports.BNC_SIG2_O = false)

/-! ## The digital-output mirror -/

/-- The digital-output mirror: bit B_DOUT1 of REG_OUTPUT_STATE is set exactly
when pin DO1 is high, and bit B_DOUT2 exactly when pin DO2 is high. -/
def output_mirror (s : Device) : Prop :=
  (s.app_regs.REG_OUTPUT_STATE &&& B_DOUT1 ≠ 0 ↔ s.ports.DO1 = true) ∧
  (s.app_regs.REG_OUTPUT_STATE &&& B_DOUT2 ≠ 0 ↔ s.ports.DO2 = true)
/-! ## The pin trace of update_digipot -/

/-- The level of pin p after one call of a pin macro, level being its level
before the call. -/
def pin_after (p : Pin) (level : Bool) : IoCall → Bool
  | IoCall.set q => if q = p then true else level
  | IoCall.clr q => if q = p then false else level
  | IoCall.tgl q => if q = p then !level else level

/-- The levels of the data pin POT_SDI at the rising edges of the clock pin
POT_CLK over a sequence of pin calls that starts with the clock at level clk
and the data pin at level sdi. A rising edge is a call that takes the clock
pin from low to high. -/
def sdi_at_clk_rises : Bool → Bool → List IoCall → List Bool
  | _, _, [] => []
  | clk, sdi, c :: cs =>
    if clk = false ∧ pin_after Pin.POT_CLK clk c = true then
      pin_after Pin.POT_SDI sdi c ::
        sdi_at_clk_rises (pin_after Pin.POT_CLK clk c) (pin_after Pin.POT_SDI sdi c) cs
    else sdi_at_clk_rises (pin_after Pin.POT_CLK clk c) (pin_after Pin.POT_SDI sdi c) cs

/-- The call is on the chip-select pin POT_CS. -/
def on_POT_CS : IoCall → Bool
  | IoCall.set p => decide (p = Pin.POT_CS)
  | IoCall.clr p => decide (p = Pin.POT_CS)
  | IoCall.tgl p => decide (p = Pin.POT_CS)
/-! ## Calls of the host framework -/

/-- The callback core_callback_initialize_hardware of app.c: init_ios, then
update_digipot with data 0. The SPI control register and the delay are not
part of the globals. -/
def core_callback_initialize_hardware (s : Device) : Device :=
  update_digipot 0 (init_ios s)

/-- The calls through which the host framework reaches the application: a
register write, a register read, the 500 us tick, the standby callback, the
register reset and the hardware initialisation. -/
inductive HostCall where
  | write (add type content n_elements : Nat)
  | read (add type : Nat)
  | tick
  | standby (byte_at_0 : Nat)
  | reset (read_SWITCH_5V read_ON_OFF_KEY : Nat)
  | initialize_hardware
deriving DecidableEq, Repr

/-- One call of the host framework. -/
def host_call (TYPE_U8 TYPE_U16 : Nat) : HostCall → Device → Device
  | HostCall.write add type content n, s =>
    (core_write_app_register TYPE_U8 TYPE_U16 add type content n s).2
  | HostCall.read add type, s => (core_read_app_register TYPE_U8 TYPE_U16 add type s).2
  | HostCall.tick, s => core_callback_t_500us s
  | HostCall.standby b, s => core_callback_device_to_standby b s
  | HostCall.reset sw key, s => core_callback_reset_registers sw key s
  | HostCall.initialize_hardware, s => core_callback_initialize_hardware s

/-- A sequence of calls of the host framework, in order. -/
def host_calls (TYPE_U8 TYPE_U16 : Nat) (calls : List HostCall) (s : Device) : Device :=
  calls.foldl (fun d c => host_call TYPE_U8 TYPE_U16 c d) s

/-- The call is core_callback_reset_registers. -/
def is_host_reset : HostCall → Bool
  | HostCall.reset _ _ => true
  | _ => false

/-- A sequence of calls of the host framework that holds no register reset. -/
def no_host_reset (calls : List HostCall) : Prop :=
  ∀ c ∈ calls, is_host_reset c = false

/-! # Theorems -/

/-! ## Bit masks -/

theorem land_not8_B_BNC0 (x : Nat) : (x &&& not8 B_BNC0) &&& B_BNC0 = 0 := by
  rw [Nat.land_assoc]
  have h : not8 B_BNC0 &&& B_BNC0 = 0 := by decide
  rw [h, Nat.and_zero]

theorem land_not8_B_BNC1 (x : Nat) : (x &&& not8 B_BNC1) &&& B_BNC1 = 0 := by
  rw [Nat.land_assoc]
  have h : not8 B_BNC1 &&& B_BNC1 = 0 := by decide
  rw [h, Nat.and_zero]

theorem land_not8_B_SIGNAL_A (x : Nat) : (x &&& not8 B_SIGNAL_A) &&& B_SIGNAL_A = 0 := by
  rw [Nat.land_assoc]
  have h : not8 B_SIGNAL_A &&& B_SIGNAL_A = 0 := by decide
  rw [h, Nat.and_zero]

theorem land_not8_B_SIGNAL_B (x : Nat) : (x &&& not8 B_SIGNAL_B) &&& B_SIGNAL_B = 0 := by
  rw [Nat.land_assoc]
  have h : not8 B_SIGNAL_B &&& B_SIGNAL_B = 0 := by decide
  rw [h, Nat.and_zero]

theorem land_not8_B_BNC0_B_BNC1 (x : Nat) : (x &&& not8 B_BNC0) &&& B_BNC1 = x &&& B_BNC1 := by
  rw [Nat.land_assoc]
  have h : not8 B_BNC0 &&& B_BNC1 = B_BNC1 := by decide
  rw [h]

theorem land_not8_B_BNC1_B_BNC0 (x : Nat) : (x &&& not8 B_BNC1) &&& B_BNC0 = x &&& B_BNC0 := by
  rw [Nat.land_assoc]
  have h : not8 B_BNC1 &&& B_BNC0 = B_BNC0 := by decide
  rw [h]

theorem land_not8_B_SIGNAL_A_B_SIGNAL_B (x : Nat) : (x &&& not8 B_SIGNAL_A) &&& B_SIGNAL_B = x &&& B_SIGNAL_B := by
  rw [Nat.land_assoc]
  have h : not8 B_SIGNAL_A &&& B_SIGNAL_B = B_SIGNAL_B := by decide
  rw [h]

theorem land_not8_B_SIGNAL_B_B_SIGNAL_A (x : Nat) : (x &&& not8 B_SIGNAL_B) &&& B_SIGNAL_A = x &&& B_SIGNAL_A := by
  rw [Nat.land_assoc]
  have h : not8 B_SIGNAL_B &&& B_SIGNAL_A = B_SIGNAL_A := by decide
  rw [h]

/-! ## Each block of the tick callback acts on its own channel only -/

theorem view_bnc0_tick_bnc0 (s : Device) :
    view Channel.bnc0 (tick_bnc0 s) = chan_tick (view Channel.bnc0 s) := by
  rcases s with ⟨⟨r1, r2, r3, r4, r5, r6, r7, r8, r9, r10, r11, r12, r13, r14, r15, r16, r17, r18,
    r19, r20, r21, r22, r23, r24, r25, r26, r27, r28, r29, r30, r31⟩,
    ⟨c1, c2, c3, c4, c5, c6, c7, c8, c9, c10, c11, c12, c13, c14, c15, c16⟩, d0, d1, da, db,
    ⟨p1, p2, p3, p4, p5, p6, p7, p8, p9, p10, p11, p12, p13⟩, io, ev⟩
  simp only [chan_tick, tick_bnc0, put_tail_bnc0, put_period_bnc0, put_t_bnc0,
    put_count_pulses_bnc0, put_REG_BNCS_STATE, set_BNC_SIG1_O, clr_BNC_SIG1_O,
    apply_ite (view Channel.bnc0)]
  simp only [view, decide_eq_true_eq]
  simp only [land_not8_B_BNC0, ne_eq, not_true_eq_false, decide_False]

theorem view_bnc1_tick_bnc0 (s : Device) :
    view Channel.bnc1 (tick_bnc0 s) = view Channel.bnc1 s := by
  rcases s with ⟨⟨r1, r2, r3, r4, r5, r6, r7, r8, r9, r10, r11, r12, r13, r14, r15, r16, r17, r18,
    r19, r20, r21, r22, r23, r24, r25, r26, r27, r28, r29, r30, r31⟩,
    ⟨c1, c2, c3, c4, c5, c6, c7, c8, c9, c10, c11, c12, c13, c14, c15, c16⟩, d0, d1, da, db,
    ⟨p1, p2, p3, p4, p5, p6, p7, p8, p9, p10, p11, p12, p13⟩, io, ev⟩
  simp only [tick_bnc0, put_tail_bnc0, put_period_bnc0, put_t_bnc0,
    put_count_pulses_bnc0, put_REG_BNCS_STATE, set_BNC_SIG1_O, clr_BNC_SIG1_O,
    apply_ite (view Channel.bnc1)]
  simp only [view, land_not8_B_BNC0_B_BNC1, ite_self]

theorem view_signal_a_tick_bnc0 (s : Device) :
    view Channel.signal_a (tick_bnc0 s) = view Channel.signal_a s := by
  rcases s with ⟨⟨r1, r2, r3, r4, r5, r6, r7, r8, r9, r10, r11, r12, r13, r14, r15, r16, r17, r18,
    r19, r20, r21, r22, r23, r24, r25, r26, r27, r28, r29, r30, r31⟩,
    ⟨c1, c2, c3, c4, c5, c6, c7, c8, c9, c10, c11, c12, c13, c14, c15, c16⟩, d0, d1, da, db,
    ⟨p1, p2, p3, p4, p5, p6, p7, p8, p9, p10, p11, p12, p13⟩, io, ev⟩
  simp only [tick_bnc0, put_tail_bnc0, put_period_bnc0, put_t_bnc0,
    put_count_pulses_bnc0, put_REG_BNCS_STATE, set_BNC_SIG1_O, clr_BNC_SIG1_O,
    apply_ite (view Channel.signal_a)]
  simp only [view, ite_self]

theorem view_signal_b_tick_bnc0 (s : Device) :
    view Channel.signal_b (tick_bnc0 s) = view Channel.signal_b s := by
  rcases s with ⟨⟨r1, r2, r3, r4, r5, r6, r7, r8, r9, r10, r11, r12, r13, r14, r15, r16, r17, r18,
    r19, r20, r21, r22, r23, r24, r25, r26, r27, r28, r29, r30, r31⟩,
    ⟨c1, c2, c3, c4, c5, c6, c7, c8, c9, c10, c11, c12, c13, c14, c15, c16⟩, d0, d1, da, db,
    ⟨p1, p2, p3, p4, p5, p6, p7, p8, p9, p10, p11, p12, p13⟩, io, ev⟩
  simp only [tick_bnc0, put_tail_bnc0, put_period_bnc0, put_t_bnc0,
    put_count_pulses_bnc0, put_REG_BNCS_STATE, set_BNC_SIG1_O, clr_BNC_SIG1_O,
    apply_ite (view Channel.signal_b)]
  simp only [view, ite_self]

theorem view_bnc0_tick_bnc1 (s : Device) :
    view Channel.bnc0 (tick_bnc1 s) = view Channel.bnc0 s := by
  rcases s with ⟨⟨r1, r2, r3, r4, r5, r6, r7, r8, r9, r10, r11, r12, r13, r14, r15, r16, r17, r18,
    r19, r20, r21, r22, r23, r24, r25, r26, r27, r28, r29, r30, r31⟩,
    ⟨c1, c2, c3, c4, c5, c6, c7, c8, c9, c10, c11, c12, c13, c14, c15, c16⟩, d0, d1, da, db,
    ⟨p1, p2, p3, p4, p5, p6, p7, p8, p9, p10, p11, p12, p13⟩, io, ev⟩
  simp only [tick_bnc1, put_tail_bnc1, put_period_bnc1, put_t_bnc1,
    put_count_pulses_bnc1, put_REG_BNCS_STATE, set_BNC_SIG2_O, clr_BNC_SIG2_O,
    apply_ite (view Channel.bnc0)]
  simp only [view, land_not8_B_BNC1_B_BNC0, ite_self]

theorem view_bnc1_tick_bnc1 (s : Device) :
    view Channel.bnc1 (tick_bnc1 s) = chan_tick (view Channel.bnc1 s) := by
  rcases s with ⟨⟨r1, r2, r3, r4, r5, r6, r7, r8, r9, r10, r11, r12, r13, r14, r15, r16, r17, r18,
    r19, r20, r21, r22, r23, r24, r25, r26, r27, r28, r29, r30, r31⟩,
    ⟨c1, c2, c3, c4, c5, c6, c7, c8, c9, c10, c11, c12, c13, c14, c15, c16⟩, d0, d1, da, db,
    ⟨p1, p2, p3, p4, p5, p6, p7, p8, p9, p10, p11, p12, p13⟩, io, ev⟩
  simp only [chan_tick, tick_bnc1, put_tail_bnc1, put_period_bnc1, put_t_bnc1,
    put_count_pulses_bnc1, put_REG_BNCS_STATE, set_BNC_SIG2_O, clr_BNC_SIG2_O,
    apply_ite (view Channel.bnc1)]
  simp only [view, decide_eq_true_eq]
  simp only [land_not8_B_BNC1, ne_eq, not_true_eq_false, decide_False]

theorem view_signal_a_tick_bnc1 (s : Device) :
    view Channel.signal_a (tick_bnc1 s) = view Channel.signal_a s := by
  rcases s with ⟨⟨r1, r2, r3, r4, r5, r6, r7, r8, r9, r10, r11, r12, r13, r14, r15, r16, r17, r18,
    r19, r20, r21, r22, r23, r24, r25, r26, r27, r28, r29, r30, r31⟩,
    ⟨c1, c2, c3, c4, c5, c6, c7, c8, c9, c10, c11, c12, c13, c14, c15, c16⟩, d0, d1, da, db,
    ⟨p1, p2, p3, p4, p5, p6, p7, p8, p9, p10, p11, p12, p13⟩, io, ev⟩
  simp only [tick_bnc1, put_tail_bnc1, put_period_bnc1, put_t_bnc1,
    put_count_pulses_bnc1, put_REG_BNCS_STATE, set_BNC_SIG2_O, clr_BNC_SIG2_O,
    apply_ite (view Channel.signal_a)]
  simp only [view, ite_self]

theorem view_signal_b_tick_bnc1 (s : Device) :
    view Channel.signal_b (tick_bnc1 s) = view Channel.signal_b s := by
  rcases s with ⟨⟨r1, r2, r3, r4, r5, r6, r7, r8, r9, r10, r11, r12, r13, r14, r15, r16, r17, r18,
    r19, r20, r21, r22, r23, r24, r25, r26, r27, r28, r29, r30, r31⟩,
    ⟨c1, c2, c3, c4, c5, c6, c7, c8, c9, c10, c11, c12, c13, c14, c15, c16⟩, d0, d1, da, db,
    ⟨p1, p2, p3, p4, p5, p6, p7, p8, p9, p10, p11, p12, p13⟩, io, ev⟩
  simp only [tick_bnc1, put_tail_bnc1, put_period_bnc1, put_t_bnc1,
    put_count_pulses_bnc1, put_REG_BNCS_STATE, set_BNC_SIG2_O, clr_BNC_SIG2_O,
    apply_ite (view Channel.signal_b)]
  simp only [view, ite_self]

theorem view_bnc0_tick_signal_a (s : Device) :
    view Channel.bnc0 (tick_signal_a s) = view Channel.bnc0 s := by
  rcases s with ⟨⟨r1, r2, r3, r4, r5, r6, r7, r8, r9, r10, r11, r12, r13, r14, r15, r16, r17, r18,
    r19, r20, r21, r22, r23, r24, r25, r26, r27, r28, r29, r30, r31⟩,
    ⟨c1, c2, c3, c4, c5, c6, c7, c8, c9, c10, c11, c12, c13, c14, c15, c16⟩, d0, d1, da, db,
    ⟨p1, p2, p3, p4, p5, p6, p7, p8, p9, p10, p11, p12, p13⟩, io, ev⟩
  simp only [tick_signal_a, put_tail_signal_a, put_period_signal_a, put_t_signal_a,
    put_count_pulses_signal_a, put_REG_SIGNAL_STATE, set_SIGNAL_A_O, clr_SIGNAL_A_O,
    apply_ite (view Channel.bnc0)]
  simp only [view, ite_self]

theorem view_bnc1_tick_signal_a (s : Device) :
    view Channel.bnc1 (tick_signal_a s) = view Channel.bnc1 s := by
  rcases s with ⟨⟨r1, r2, r3, r4, r5, r6, r7, r8, r9, r10, r11, r12, r13, r14, r15, r16, r17, r18,
    r19, r20, r21, r22, r23, r24, r25, r26, r27, r28, r29, r30, r31⟩,
    ⟨c1, c2, c3, c4, c5, c6, c7, c8, c9, c10, c11, c12, c13, c14, c15, c16⟩, d0, d1, da, db,
    ⟨p1, p2, p3, p4, p5, p6, p7, p8, p9, p10, p11, p12, p13⟩, io, ev⟩
  simp only [tick_signal_a, put_tail_signal_a, put_period_signal_a, put_t_signal_a,
    put_count_pulses_signal_a, put_REG_SIGNAL_STATE, set_SIGNAL_A_O, clr_SIGNAL_A_O,
    apply_ite (view Channel.bnc1)]
  simp only [view, ite_self]

theorem view_signal_a_tick_signal_a (s : Device) :
    view Channel.signal_a (tick_signal_a s) = chan_tick (view Channel.signal_a s) := by
  rcases s with ⟨⟨r1, r2, r3, r4, r5, r6, r7, r8, r9, r10, r11, r12, r13, r14, r15, r16, r17, r18,
    r19, r20, r21, r22, r23, r24, r25, r26, r27, r28, r29, r30, r31⟩,
    ⟨c1, c2, c3, c4, c5, c6, c7, c8, c9, c10, c11, c12, c13, c14, c15, c16⟩, d0, d1, da, db,
    ⟨p1, p2, p3, p4, p5, p6, p7, p8, p9, p10, p11, p12, p13⟩, io, ev⟩
  simp only [chan_tick, tick_signal_a, put_tail_signal_a, put_period_signal_a, put_t_signal_a,
    put_count_pulses_signal_a, put_REG_SIGNAL_STATE, set_SIGNAL_A_O, clr_SIGNAL_A_O,
    apply_ite (view Channel.signal_a)]
  simp only [view, decide_eq_true_eq]
  simp only [land_not8_B_SIGNAL_A, ne_eq, not_true_eq_false, decide_False]

theorem view_signal_b_tick_signal_a (s : Device) :
    view Channel.signal_b (tick_signal_a s) = view Channel.signal_b s := by
  rcases s with ⟨⟨r1, r2, r3, r4, r5, r6, r7, r8, r9, r10, r11, r12, r13, r14, r15, r16, r17, r18,
    r19, r20, r21, r22, r23, r24, r25, r26, r27, r28, r29, r30, r31⟩,
    ⟨c1, c2, c3, c4, c5, c6, c7, c8, c9, c10, c11, c12, c13, c14, c15, c16⟩, d0, d1, da, db,
    ⟨p1, p2, p3, p4, p5, p6, p7, p8, p9, p10, p11, p12, p13⟩, io, ev⟩
  simp only [tick_signal_a, put_tail_signal_a, put_period_signal_a, put_t_signal_a,
    put_count_pulses_signal_a, put_REG_SIGNAL_STATE, set_SIGNAL_A_O, clr_SIGNAL_A_O,
    apply_ite (view Channel.signal_b)]
  simp only [view, land_not8_B_SIGNAL_A_B_SIGNAL_B, ite_self]

theorem view_bnc0_tick_signal_b (s : Device) :
    view Channel.bnc0 (tick_signal_b s) = view Channel.bnc0 s := by
  rcases s with ⟨⟨r1, r2, r3, r4, r5, r6, r7, r8, r9, r10, r11, r12, r13, r14, r15, r16, r17, r18,
    r19, r20, r21, r22, r23, r24, r25, r26, r27, r28, r29, r30, r31⟩,
    ⟨c1, c2, c3, c4, c5, c6, c7, c8, c9, c10, c11, c12, c13, c14, c15, c16⟩, d0, d1, da, db,
    ⟨p1, p2, p3, p4, p5, p6, p7, p8, p9, p10, p11, p12, p13⟩, io, ev⟩
  simp only [tick_signal_b, put_tail_signal_b, put_period_signal_b, put_t_signal_b,
    put_count_pulses_signal_b, put_REG_SIGNAL_STATE, set_SIGNAL_B_O, clr_SIGNAL_B_O,
    apply_ite (view Channel.bnc0)]
  simp only [view, ite_self]

theorem view_bnc1_tick_signal_b (s : Device) :
    view Channel.bnc1 (tick_signal_b s) = view Channel.bnc1 s := by
  rcases s with ⟨⟨r1, r2, r3, r4, r5, r6, r7, r8, r9, r10, r11, r12, r13, r14, r15, r16, r17, r18,
    r19, r20, r21, r22, r23, r24, r25, r26, r27, r28, r29, r30, r31⟩,
    ⟨c1, c2, c3, c4, c5, c6, c7, c8, c9, c10, c11, c12, c13, c14, c15, c16⟩, d0, d1, da, db,
    ⟨p1, p2, p3, p4, p5, p6, p7, p8, p9, p10, p11, p12, p13⟩, io, ev⟩
  simp only [tick_signal_b, put_tail_signal_b, put_period_signal_b, put_t_signal_b,
    put_count_pulses_signal_b, put_REG_SIGNAL_STATE, set_SIGNAL_B_O, clr_SIGNAL_B_O,
    apply_ite (view Channel.bnc1)]
  simp only [view, ite_self]

theorem view_signal_a_tick_signal_b (s : Device) :
    view Channel.signal_a (tick_signal_b s) = view Channel.signal_a s := by
  rcases s with ⟨⟨r1, r2, r3, r4, r5, r6, r7, r8, r9, r10, r11, r12, r13, r14, r15, r16, r17, r18,
    r19, r20, r21, r22, r23, r24, r25, r26, r27, r28, r29, r30, r31⟩,
    ⟨c1, c2, c3, c4, c5, c6, c7, c8, c9, c10, c11, c12, c13, c14, c15, c16⟩, d0, d1, da, db,
    ⟨p1, p2, p3, p4, p5, p6, p7, p8, p9, p10, p11, p12, p13⟩, io, ev⟩
  simp only [tick_signal_b, put_tail_signal_b, put_period_signal_b, put_t_signal_b,
    put_count_pulses_signal_b, put_REG_SIGNAL_STATE, set_SIGNAL_B_O, clr_SIGNAL_B_O,
    apply_ite (view Channel.signal_a)]
  simp only [view, land_not8_B_SIGNAL_B_B_SIGNAL_A, ite_self]

theorem view_signal_b_tick_signal_b (s : Device) :
    view Channel.signal_b (tick_signal_b s) = chan_tick (view Channel.signal_b s) := by
  rcases s with ⟨⟨r1, r2, r3, r4, r5, r6, r7, r8, r9, r10, r11, r12, r13, r14, r15, r16, r17, r18,
    r19, r20, r21, r22, r23, r24, r25, r26, r27, r28, r29, r30, r31⟩,
    ⟨c1, c2, c3, c4, c5, c6, c7, c8, c9, c10, c11, c12, c13, c14, c15, c16⟩, d0, d1, da, db,
    ⟨p1, p2, p3, p4, p5, p6, p7, p8, p9, p10, p11, p12, p13⟩, io, ev⟩
  simp only [chan_tick, tick_signal_b, put_tail_signal_b, put_period_signal_b, put_t_signal_b,
    put_count_pulses_signal_b, put_REG_SIGNAL_STATE, set_SIGNAL_B_O, clr_SIGNAL_B_O,
    apply_ite (view Channel.signal_b)]
  simp only [view, decide_eq_true_eq]
  simp only [land_not8_B_SIGNAL_B, ne_eq, not_true_eq_false, decide_False]

/-! ## The state handlers on the objects of each channel -/

theorem view_bnc0_write_bncs_bnc0 (reg : Nat) (s : Device) :
    view Channel.bnc0 (write_bncs_bnc0 reg s) =
      if reg &&& B_BNC0 ≠ 0 then
        { chan_start (view Channel.bnc0 s) with active := (view Channel.bnc0 s).active }
      else { view Channel.bnc0 s with out := false } := by
  rcases s with ⟨⟨r1, r2, r3, r4, r5, r6, r7, r8, r9, r10, r11, r12, r13, r14, r15, r16, r17, r18,
    r19, r20, r21, r22, r23, r24, r25, r26, r27, r28, r29, r30, r31⟩,
    ⟨c1, c2, c3, c4, c5, c6, c7, c8, c9, c10, c11, c12, c13, c14, c15, c16⟩, d0, d1, da, db,
    ⟨p1, p2, p3, p4, p5, p6, p7, p8, p9, p10, p11, p12, p13⟩, io, ev⟩
  simp only [write_bncs_bnc0, put_tail_bnc0, put_period_bnc0, put_t_bnc0, put_count_pulses_bnc0,
    set_BNC_SIG1_O, clr_BNC_SIG1_O,
    apply_ite (view Channel.bnc0)]
  simp only [view, chan_start, start_signal]
  by_cases h0 : reg &&& B_BNC0 ≠ 0 <;> by_cases h1 : add16 r18 1 = 1 <;> simp [h0, h1]

theorem view_bnc1_write_bncs_bnc0 (reg : Nat) (s : Device) :
    view Channel.bnc1 (write_bncs_bnc0 reg s) = view Channel.bnc1 s := by
  rcases s with ⟨⟨r1, r2, r3, r4, r5, r6, r7, r8, r9, r10, r11, r12, r13, r14, r15, r16, r17, r18,
    r19, r20, r21, r22, r23, r24, r25, r26, r27, r28, r29, r30, r31⟩,
    ⟨c1, c2, c3, c4, c5, c6, c7, c8, c9, c10, c11, c12, c13, c14, c15, c16⟩, d0, d1, da, db,
    ⟨p1, p2, p3, p4, p5, p6, p7, p8, p9, p10, p11, p12, p13⟩, io, ev⟩
  simp only [write_bncs_bnc0, put_tail_bnc0, put_period_bnc0, put_t_bnc0, put_count_pulses_bnc0,
    set_BNC_SIG1_O, clr_BNC_SIG1_O,
    apply_ite (view Channel.bnc1)]
  simp only [view, ite_self]

theorem view_signal_a_write_bncs_bnc0 (reg : Nat) (s : Device) :
    view Channel.signal_a (write_bncs_bnc0 reg s) = view Channel.signal_a s := by
  rcases s with ⟨⟨r1, r2, r3, r4, r5, r6, r7, r8, r9, r10, r11, r12, r13, r14, r15, r16, r17, r18,
    r19, r20, r21, r22, r23, r24, r25, r26, r27, r28, r29, r30, r31⟩,
    ⟨c1, c2, c3, c4, c5, c6, c7, c8, c9, c10, c11, c12, c13, c14, c15, c16⟩, d0, d1, da, db,
    ⟨p1, p2, p3, p4, p5, p6, p7, p8, p9, p10, p11, p12, p13⟩, io, ev⟩
  simp only [write_bncs_bnc0, put_tail_bnc0, put_period_bnc0, put_t_bnc0, put_count_pulses_bnc0,
    set_BNC_SIG1_O, clr_BNC_SIG1_O,
    apply_ite (view Channel.signal_a)]
  simp only [view, ite_self]

theorem view_signal_b_write_bncs_bnc0 (reg : Nat) (s : Device) :
    view Channel.signal_b (write_bncs_bnc0 reg s) = view Channel.signal_b s := by
  rcases s with ⟨⟨r1, r2, r3, r4, r5, r6, r7, r8, r9, r10, r11, r12, r13, r14, r15, r16, r17, r18,
    r19, r20, r21, r22, r23, r24, r25, r26, r27, r28, r29, r30, r31⟩,
    ⟨c1, c2, c3, c4, c5, c6, c7, c8, c9, c10, c11, c12, c13, c14, c15, c16⟩, d0, d1, da, db,
    ⟨p1, p2, p3, p4, p5, p6, p7, p8, p9, p10, p11, p12, p13⟩, io, ev⟩
  simp only [write_bncs_bnc0, put_tail_bnc0, put_period_bnc0, put_t_bnc0, put_count_pulses_bnc0,
    set_BNC_SIG1_O, clr_BNC_SIG1_O,
    apply_ite (view Channel.signal_b)]
  simp only [view, ite_self]

theorem view_bnc0_write_bncs_bnc1 (reg : Nat) (s : Device) :
    view Channel.bnc0 (write_bncs_bnc1 reg s) = view Channel.bnc0 s := by
  rcases s with ⟨⟨r1, r2, r3, r4, r5, r6, r7, r8, r9, r10, r11, r12, r13, r14, r15, r16, r17, r18,
    r19, r20, r21, r22, r23, r24, r25, r26, r27, r28, r29, r30, r31⟩,
    ⟨c1, c2, c3, c4, c5, c6, c7, c8, c9, c10, c11, c12, c13, c14, c15, c16⟩, d0, d1, da, db,
    ⟨p1, p2, p3, p4, p5, p6, p7, p8, p9, p10, p11, p12, p13⟩, io, ev⟩
  simp only [write_bncs_bnc1, put_tail_bnc1, put_period_bnc1, put_t_bnc1, put_count_pulses_bnc1,
    set_BNC_SIG2_O, clr_BNC_SIG2_O,
    apply_ite (view Channel.bnc0)]
  simp only [view, ite_self]

theorem view_bnc1_write_bncs_bnc1 (reg : Nat) (s : Device) :
    view Channel.bnc1 (write_bncs_bnc1 reg s) =
      if reg &&& B_BNC1 ≠ 0 then
        { chan_start (view Channel.bnc1 s) with active := (view Channel.bnc1 s).active }
      else { view Channel.bnc1 s with out := false } := by
  rcases s with ⟨⟨r1, r2, r3, r4, r5, r6, r7, r8, r9, r10, r11, r12, r13, r14, r15, r16, r17, r18,
    r19, r20, r21, r22, r23, r24, r25, r26, r27, r28, r29, r30, r31⟩,
    ⟨c1, c2, c3, c4, c5, c6, c7, c8, c9, c10, c11, c12, c13, c14, c15, c16⟩, d0, d1, da, db,
    ⟨p1, p2, p3, p4, p5, p6, p7, p8, p9, p10, p11, p12, p13⟩, io, ev⟩
  simp only [write_bncs_bnc1, put_tail_bnc1, put_period_bnc1, put_t_bnc1, put_count_pulses_bnc1,
    set_BNC_SIG2_O, clr_BNC_SIG2_O,
    apply_ite (view Channel.bnc1)]
  simp only [view, chan_start, start_signal]
  by_cases h0 : reg &&& B_BNC1 ≠ 0 <;> by_cases h1 : add16 r22 1 = 1 <;> simp [h0, h1]

theorem view_signal_a_write_bncs_bnc1 (reg : Nat) (s : Device) :
    view Channel.signal_a (write_bncs_bnc1 reg s) = view Channel.signal_a s := by
  rcases s with ⟨⟨r1, r2, r3, r4, r5, r6, r7, r8, r9, r10, r11, r12, r13, r14, r15, r16, r17, r18,
    r19, r20, r21, r22, r23, r24, r25, r26, r27, r28, r29, r30, r31⟩,
    ⟨c1, c2, c3, c4, c5, c6, c7, c8, c9, c10, c11, c12, c13, c14, c15, c16⟩, d0, d1, da, db,
    ⟨p1, p2, p3, p4, p5, p6, p7, p8, p9, p10, p11, p12, p13⟩, io, ev⟩
  simp only [write_bncs_bnc1, put_tail_bnc1, put_period_bnc1, put_t_bnc1, put_count_pulses_bnc1,
    set_BNC_SIG2_O, clr_BNC_SIG2_O,
    apply_ite (view Channel.signal_a)]
  simp only [view, ite_self]

theorem view_signal_b_write_bncs_bnc1 (reg : Nat) (s : Device) :
    view Channel.signal_b (write_bncs_bnc1 reg s) = view Channel.signal_b s := by
  rcases s with ⟨⟨r1, r2, r3, r4, r5, r6, r7, r8, r9, r10, r11, r12, r13, r14, r15, r16, r17, r18,
    r19, r20, r21, r22, r23, r24, r25, r26, r27, r28, r29, r30, r31⟩,
    ⟨c1, c2, c3, c4, c5, c6, c7, c8, c9, c10, c11, c12, c13, c14, c15, c16⟩, d0, d1, da, db,
    ⟨p1, p2, p3, p4, p5, p6, p7, p8, p9, p10, p11, p12, p13⟩, io, ev⟩
  simp only [write_bncs_bnc1, put_tail_bnc1, put_period_bnc1, put_t_bnc1, put_count_pulses_bnc1,
    set_BNC_SIG2_O, clr_BNC_SIG2_O,
    apply_ite (view Channel.signal_b)]
  simp only [view, ite_self]

theorem view_bnc0_put_REG_BNCS_STATE (v : Nat) (s : Device) :
    view Channel.bnc0 (put_REG_BNCS_STATE v s) =
      { view Channel.bnc0 s with active := decide (v &&& B_BNC0 ≠ 0) } := rfl

theorem view_bnc0_put_REG_SIGNAL_STATE (v : Nat) (s : Device) :
    view Channel.bnc0 (put_REG_SIGNAL_STATE v s) = view Channel.bnc0 s := rfl

theorem view_bnc1_put_REG_BNCS_STATE (v : Nat) (s : Device) :
    view Channel.bnc1 (put_REG_BNCS_STATE v s) =
      { view Channel.bnc1 s with active := decide (v &&& B_BNC1 ≠ 0) } := rfl

theorem view_bnc1_put_REG_SIGNAL_STATE (v : Nat) (s : Device) :
    view Channel.bnc1 (put_REG_SIGNAL_STATE v s) = view Channel.bnc1 s := rfl

theorem view_signal_a_put_REG_SIGNAL_STATE (v : Nat) (s : Device) :
    view Channel.signal_a (put_REG_SIGNAL_STATE v s) =
      { view Channel.signal_a s with active := decide (v &&& B_SIGNAL_A ≠ 0) } := rfl

theorem view_signal_a_put_REG_BNCS_STATE (v : Nat) (s : Device) :
    view Channel.signal_a (put_REG_BNCS_STATE v s) = view Channel.signal_a s := rfl

theorem view_signal_b_put_REG_SIGNAL_STATE (v : Nat) (s : Device) :
    view Channel.signal_b (put_REG_SIGNAL_STATE v s) =
      { view Channel.signal_b s with active := decide (v &&& B_SIGNAL_B ≠ 0) } := rfl

theorem view_signal_b_put_REG_BNCS_STATE (v : Nat) (s : Device) :
    view Channel.signal_b (put_REG_BNCS_STATE v s) = view Channel.signal_b s := rfl

/-- The BNC state handler acts on a BNC channel as a start when the written
byte has the channel's bit set and as a stop otherwise. -/
theorem view_write_bncs (ch : Channel) (hch : ch = Channel.bnc0 ∨ ch = Channel.bnc1)
    (reg : Nat) (s : Device) :
    view ch (app_write_REG_BNCS_STATE reg s).2 =
      if reg &&& state_bit ch ≠ 0 then chan_start (view ch s) else chan_stop (view ch s) := by
  rcases hch with h | h <;> subst h
  · show view Channel.bnc0 (put_REG_BNCS_STATE reg (write_bncs_bnc1 reg (write_bncs_bnc0 reg s)))
      = _
    rw [view_bnc0_put_REG_BNCS_STATE, view_bnc0_write_bncs_bnc1, view_bnc0_write_bncs_bnc0]
    by_cases h0 : reg &&& B_BNC0 ≠ 0 <;> simp [h0, state_bit, chan_start, chan_stop]
  · show view Channel.bnc1 (put_REG_BNCS_STATE reg (write_bncs_bnc1 reg (write_bncs_bnc0 reg s)))
      = _
    rw [view_bnc1_put_REG_BNCS_STATE, view_bnc1_write_bncs_bnc1, view_bnc1_write_bncs_bnc0]
    by_cases h0 : reg &&& B_BNC1 ≠ 0 <;> simp [h0, state_bit, chan_start, chan_stop]

/-- The BNC state handler leaves the objects of Signal A and Signal B alone. -/
theorem view_write_bncs_signal (ch : Channel)
    (hch : ch = Channel.signal_a ∨ ch = Channel.signal_b) (reg : Nat) (s : Device) :
    view ch (app_write_REG_BNCS_STATE reg s).2 = view ch s := by
  rcases hch with h | h <;> subst h
  · show view Channel.signal_a
      (put_REG_BNCS_STATE reg (write_bncs_bnc1 reg (write_bncs_bnc0 reg s))) = _
    rw [view_signal_a_put_REG_BNCS_STATE, view_signal_a_write_bncs_bnc1,
      view_signal_a_write_bncs_bnc0]
  · show view Channel.signal_b
      (put_REG_BNCS_STATE reg (write_bncs_bnc1 reg (write_bncs_bnc0 reg s))) = _
    rw [view_signal_b_put_REG_BNCS_STATE, view_signal_b_write_bncs_bnc1,
      view_signal_b_write_bncs_bnc0]

/-- The tick callback acts on every channel as chan_tick. -/
theorem view_tick (ch : Channel) (s : Device) :
    view ch (core_callback_t_500us s) = chan_tick (view ch s) := by
  unfold core_callback_t_500us
  cases ch
  · rw [view_bnc0_tick_signal_b, view_bnc0_tick_signal_a, view_bnc0_tick_bnc1, view_bnc0_tick_bnc0]
  · rw [view_bnc1_tick_signal_b, view_bnc1_tick_signal_a, view_bnc1_tick_bnc1, view_bnc1_tick_bnc0]
  · rw [view_signal_a_tick_signal_b, view_signal_a_tick_signal_a, view_signal_a_tick_bnc1,
      view_signal_a_tick_bnc0]
  · rw [view_signal_b_tick_signal_b, view_signal_b_tick_signal_a, view_signal_b_tick_bnc1,
      view_signal_b_tick_bnc0]

theorem view_ticks (ch : Channel) (n : Nat) (s : Device) :
    view ch (ticks n s) = chan_ticks n (view ch s) := by
  induction n generalizing s with
  | zero => rfl
  | succ n ih => rw [ticks, chan_ticks, ih, view_tick]

/-! ## The engine of one channel -/

theorem chan_ticks_add (m n : Nat) (c : Chan) :
    chan_ticks (m + n) c = chan_ticks n (chan_ticks m c) := by
  induction m generalizing c with
  | zero => simp [chan_ticks]
  | succ m ih => rw [Nat.succ_add, chan_ticks, chan_ticks, ih]

theorem chan_ticks_succ (n : Nat) (c : Chan) :
    chan_ticks (n + 1) c = chan_tick (chan_ticks n c) := by
  rw [chan_ticks_add]; rfl

theorem chan_tick_idle (c : Chan) (h : c.active = false) : chan_tick c = c := by
  unfold chan_tick; simp [h]

theorem chan_ticks_idle (n : Nat) (c : Chan) (h : c.active = false) : chan_ticks n c = c := by
  induction n with
  | zero => rfl
  | succ n ih => rw [chan_ticks, chan_tick_idle c h, ih]

theorem in_cycle_step (c : Chan) (ha : c.active = true) (htail : c.tail = 0)
    (hA : 1 ≤ c.desc.on_ms) (hA2 : c.desc.on_ms ≤ 65535) (hB : c.desc.off_ms ≤ 65535)
    (i : Nat) (hi : i + 1 < c.desc.on_ms + c.desc.off_ms) :
    chan_tick (in_cycle c i) = in_cycle c (i + 1) := by
  rcases c with ⟨act, tail, per, t, cnt, out, cfg, ⟨A, B, N, T⟩⟩
  simp only at ha htail hA hA2 hB hi
  subst ha htail
  simp only [in_cycle, chan_tick, dec16]
  by_cases h1 : i < A
  · by_cases h2 : i + 1 < A
    · have e1 : (A - i + 65535) % 65536 = A - (i + 1) := by omega
      have e2 : ((A + B - i) % 65536 + 65535) % 65536 = (A + B - (i + 1)) % 65536 := by omega
      have e3 : A - (i + 1) ≠ 0 := by omega
      have e4 : 0 < A - i := by omega
      simp [h1, h2, e1, e2, e3, e4]
    · have e1 : (A - i + 65535) % 65536 = 0 := by omega
      have e2 : ((A + B - i) % 65536 + 65535) % 65536 = (A + B - (i + 1)) % 65536 := by omega
      have e3 : (A + B - (i + 1)) % 65536 ≠ 0 := by omega
      have e4 : 0 < A - i := by omega
      have e5 : B = A + B - (i + 1) := by omega
      simp [h1, h2, e1, e2, e3, e4]
      exact e5
  · have h2 : ¬ i + 1 < A := by omega
    have e1 : (A + B - i + 65535) % 65536 = A + B - (i + 1) := by omega
    have e2 : ((A + B - i) % 65536 + 65535) % 65536 = (A + B - (i + 1)) % 65536 := by omega
    have e3 : A + B - (i + 1) ≠ 0 := by omega
    have e4 : 0 < A + B - i := by omega
    simp [h1, h2, e1, e2, e3, e4]

theorem in_cycle_zero (cfg d : interval_t) (cnt : Nat) (o : Bool) (hA : 1 ≤ d.on_ms) :
    in_cycle (on_state cfg d cnt o) 0 = on_state cfg d cnt o := by
  have h : 0 < d.on_ms := hA
  simp [in_cycle, on_state, add16, h]

theorem cycle_run (cfg d : interval_t) (cnt : Nat) (o : Bool)
    (hA : 1 ≤ d.on_ms) (hA2 : d.on_ms ≤ 65535) (hB : d.off_ms ≤ 65535)
    (i : Nat) (hi : i < d.on_ms + d.off_ms) :
    chan_ticks i (on_state cfg d cnt o) = in_cycle (on_state cfg d cnt o) i := by
  induction i with
  | zero => rw [in_cycle_zero cfg d cnt o hA]; rfl
  | succ i ih =>
    rw [chan_ticks_succ, ih (by omega)]
    exact in_cycle_step _ rfl rfl hA hA2 hB i hi

theorem cycle_last (cfg d : interval_t) (cnt : Nat) (o : Bool)
    (hA : 1 ≤ d.on_ms) (hA2 : d.on_ms ≤ 65535) (hB : d.off_ms ≤ 65535) :
    chan_tick (in_cycle (on_state cfg d cnt o) (d.on_ms + d.off_ms - 1)) =
      if dec16 cnt > 1 then on_state cfg d (dec16 cnt) true
      else if dec16 cnt = 1 then end_state cfg d
      else on_state cfg d 1 true := by
  rcases d with ⟨A, B, N, T⟩
  simp only at hA hA2 hB
  simp only [in_cycle, on_state, end_state, chan_tick]
  have e0 : (if A + B - 1 < A then A - (A + B - 1) else A + B - (A + B - 1)) = 1 := by
    split_ifs <;> omega
  have e1 : (A + B - (A + B - 1)) % 65536 = 1 := by omega
  have e2 : dec16 1 = 0 := by decide
  rw [e0, e1, e2]
  by_cases h1 : dec16 cnt > 1
  · simp [h1]
  · by_cases h2 : dec16 cnt = 1
    · simp [h2]
    · simp [h1, h2]

theorem cycle_end (cfg d : interval_t) (cnt : Nat) (o : Bool)
    (hA : 1 ≤ d.on_ms) (hA2 : d.on_ms ≤ 65535) (hB : d.off_ms ≤ 65535) :
    chan_ticks (d.on_ms + d.off_ms) (on_state cfg d cnt o) =
      if dec16 cnt > 1 then on_state cfg d (dec16 cnt) true
      else if dec16 cnt = 1 then end_state cfg d
      else on_state cfg d 1 true := by
  have h : d.on_ms + d.off_ms = (d.on_ms + d.off_ms - 1) + 1 := by omega
  rw [h, chan_ticks_succ, cycle_run cfg d cnt o hA hA2 hB _ (by omega)]
  have h2 : d.on_ms + d.off_ms - 1 + 1 - 1 = d.on_ms + d.off_ms - 1 := by omega
  exact cycle_last cfg d cnt o hA hA2 hB

theorem end_state_ticks (cfg d : interval_t) (n : Nat) :
    chan_ticks n (end_state cfg d) = end_state cfg d :=
  chan_ticks_idle n _ rfl

/-- A finite run, period by period: after j whole periods the pulses counter
has come down by j. -/
theorem finite_periods (cfg d : interval_t) (N : Nat)
    (hA : 1 ≤ d.on_ms) (hA2 : d.on_ms ≤ 65535) (hB : d.off_ms ≤ 65535)
    (hN2 : N ≤ 65535) (j : Nat) (hj : j < N) :
    chan_ticks (j * (d.on_ms + d.off_ms)) (on_state cfg d (add16 N 1) true) =
      on_state cfg d ((N + 1 - j) % 65536) true := by
  induction j with
  | zero => simp [chan_ticks, add16]
  | succ j ih =>
    have e : (j + 1) * (d.on_ms + d.off_ms) = j * (d.on_ms + d.off_ms) + (d.on_ms + d.off_ms) := by
      rw [Nat.succ_mul]
    rw [e, chan_ticks_add, ih (by omega), cycle_end cfg d _ true hA hA2 hB]
    have e1 : dec16 ((N + 1 - j) % 65536) = (N + 1 - (j + 1)) % 65536 := by
      unfold dec16; omega
    have e2 : (N + 1 - (j + 1)) % 65536 > 1 := by omega
    rw [e1, if_pos e2]

/-- A finite run ends after N whole periods. -/
theorem finite_end (cfg d : interval_t) (N : Nat)
    (hA : 1 ≤ d.on_ms) (hA2 : d.on_ms ≤ 65535) (hB : d.off_ms ≤ 65535)
    (hN : 1 ≤ N) (hN2 : N ≤ 65535) :
    chan_ticks (N * (d.on_ms + d.off_ms)) (on_state cfg d (add16 N 1) true) =
      end_state cfg d := by
  obtain ⟨j, rfl⟩ : ∃ j, N = j + 1 := ⟨N - 1, by omega⟩
  have e : (j + 1) * (d.on_ms + d.off_ms) = j * (d.on_ms + d.off_ms) + (d.on_ms + d.off_ms) := by
    rw [Nat.succ_mul]
  rw [e, chan_ticks_add, finite_periods cfg d (j + 1) hA hA2 hB hN2 j (by omega),
    cycle_end cfg d _ true hA hA2 hB]
  have e1 : dec16 ((j + 1 + 1 - j) % 65536) = 1 := by
    unfold dec16; omega
  rw [e1]; simp

/-- The objects of a channel m ticks into a finite run. -/
theorem finite_run (cfg d : interval_t) (N : Nat)
    (hA : 1 ≤ d.on_ms) (hA2 : d.on_ms ≤ 65535) (hB : d.off_ms ≤ 65535)
    (hN : 1 ≤ N) (hN2 : N ≤ 65535) (m : Nat) :
    chan_ticks m (on_state cfg d (add16 N 1) true) =
      if m < N * (d.on_ms + d.off_ms) then
        in_cycle (on_state cfg d ((N + 1 - m / (d.on_ms + d.off_ms)) % 65536) true)
          (m % (d.on_ms + d.off_ms))
      else end_state cfg d := by
  have hP : 0 < d.on_ms + d.off_ms := by omega
  by_cases h : m < N * (d.on_ms + d.off_ms)
  · rw [if_pos h]
    have hq : m / (d.on_ms + d.off_ms) < N := (Nat.div_lt_iff_lt_mul hP).2 h
    have hr : m % (d.on_ms + d.off_ms) < d.on_ms + d.off_ms := Nat.mod_lt _ hP
    have e : m = m / (d.on_ms + d.off_ms) * (d.on_ms + d.off_ms) + m % (d.on_ms + d.off_ms) := by
      rw [Nat.mul_comm]; exact (Nat.div_add_mod m _).symm
    conv_lhs => rw [e]
    rw [chan_ticks_add, finite_periods cfg d N hA hA2 hB hN2 _ hq,
      cycle_run cfg d _ true hA hA2 hB _ hr]
  · rw [if_neg h]
    obtain ⟨r, rfl⟩ : ∃ r, m = N * (d.on_ms + d.off_ms) + r := ⟨m - N * (d.on_ms + d.off_ms), by omega⟩
    rw [chan_ticks_add, finite_end cfg d N hA hA2 hB hN hN2, end_state_ticks]

/-- An unlimited run, period by period: the pulses counter is back at 1 and
the line is high at every period boundary. -/
theorem infinite_periods (cfg d : interval_t) (o : Bool)
    (hA : 1 ≤ d.on_ms) (hA2 : d.on_ms ≤ 65535) (hB : d.off_ms ≤ 65535) (j : Nat) :
    chan_ticks ((j + 1) * (d.on_ms + d.off_ms)) (on_state cfg d 1 o) = on_state cfg d 1 true := by
  induction j with
  | zero =>
    rw [Nat.zero_add, Nat.one_mul, cycle_end cfg d 1 o hA hA2 hB]
    have e1 : dec16 1 = 0 := by decide
    rw [e1]; simp
  | succ j ih =>
    have e : (j + 1 + 1) * (d.on_ms + d.off_ms) =
        (j + 1) * (d.on_ms + d.off_ms) + (d.on_ms + d.off_ms) := by
      rw [Nat.succ_mul]
    rw [e, chan_ticks_add, ih, cycle_end cfg d 1 true hA hA2 hB]
    have e1 : dec16 1 = 0 := by decide
    rw [e1]; simp

/-- The objects of a channel m ticks into an unlimited run. -/
theorem infinite_run (cfg d : interval_t) (o : Bool)
    (hA : 1 ≤ d.on_ms) (hA2 : d.on_ms ≤ 65535) (hB : d.off_ms ≤ 65535) (m : Nat) :
    chan_ticks m (on_state cfg d 1 o) =
      in_cycle (on_state cfg d 1 (if m < d.on_ms + d.off_ms then o else true))
        (m % (d.on_ms + d.off_ms)) := by
  have hP : 0 < d.on_ms + d.off_ms := by omega
  have hr : m % (d.on_ms + d.off_ms) < d.on_ms + d.off_ms := Nat.mod_lt _ hP
  by_cases h : m < d.on_ms + d.off_ms
  · rw [if_pos h, Nat.mod_eq_of_lt h]
    exact cycle_run cfg d 1 o hA hA2 hB m h
  · rw [if_neg h]
    have hq : 1 ≤ m / (d.on_ms + d.off_ms) := (Nat.one_le_div_iff hP).2 (by omega)
    obtain ⟨j, hj⟩ : ∃ j, m / (d.on_ms + d.off_ms) = j + 1 :=
      ⟨m / (d.on_ms + d.off_ms) - 1, by omega⟩
    have e : m = (j + 1) * (d.on_ms + d.off_ms) + m % (d.on_ms + d.off_ms) := by
      rw [← hj, Nat.mul_comm]; exact (Nat.div_add_mod m _).symm
    conv_lhs => rw [e]
    rw [chan_ticks_add, infinite_periods cfg d o hA hA2 hB j,
      cycle_run cfg d 1 true hA hA2 hB _ hr]

/-- The tail wait: the tail counter runs down, nothing else moves, and the
line is set by the tick that brings it to 0. -/
theorem tail_run (c : Chan) (ha : c.active = true) (hon : c.cfg.on_ms ≠ 0)
    (ht : c.tail ≤ 65535) (i : Nat) (hi : i < c.tail) :
    chan_ticks i c = { c with tail := c.tail - i } ∧
      chan_tick { c with tail := c.tail - i } =
        { c with tail := c.tail - (i + 1), out := if i + 1 = c.tail then true else c.out } := by
  rcases c with ⟨act, tail, per, t, cnt, out, cfg, d⟩
  simp only at ha hon ht hi
  subst ha
  have step : ∀ i, i < tail →
      chan_tick ⟨true, tail - i, per, t, cnt, out, cfg, d⟩ =
        ⟨true, tail - (i + 1), per, t, cnt, if i + 1 = tail then true else out, cfg, d⟩ := by
    intro i hi
    have e1 : dec16 (tail - i) = tail - (i + 1) := by unfold dec16; omega
    have e2 : 0 < tail - i := by omega
    by_cases h : i + 1 = tail
    · have e3 : tail - (i + 1) = 0 := by omega
      simp [chan_tick, e1, e2, e3, h, hon]
    · have e3 : tail - (i + 1) ≠ 0 := by omega
      simp [chan_tick, e1, e2, e3, h, hon]
  refine ⟨?_, step i hi⟩
  induction i with
  | zero => rfl
  | succ i ih =>
    rw [chan_ticks_succ, ih (by omega), step i (by omega)]
    have h : ¬ i + 1 = tail := by omega
    simp [h]

theorem start_signal_cfg (c : interval_t) :
    start_signal c.on_ms c.pulses c.off_ms c.tail_ms = c := rfl

/-- From a start to the first tick of the first on-time, for a tail delay
below 65535 and a non-zero on-time. -/
theorem start_tail (v : Chan) (hT : v.cfg.tail_ms ≤ 65534) (hA : v.cfg.on_ms ≠ 0) :
    (∀ k, k ≤ v.cfg.tail_ms →
      chan_ticks k (chan_start v) = { chan_start v with tail := v.cfg.tail_ms + 1 - k }) ∧
    chan_ticks (v.cfg.tail_ms + 1) (chan_start v) =
      on_state v.cfg v.cfg (add16 v.cfg.pulses 1) true := by
  have e : (chan_start v).tail = v.cfg.tail_ms + 1 := by
    simp only [chan_start, add16]; omega
  have hr := fun i hi => tail_run (chan_start v) rfl hA (by rw [e]; omega) i hi
  constructor
  · intro k hk
    have := (hr k (by rw [e]; omega)).1
    rw [this, e]
  · have h2 := hr v.cfg.tail_ms (by rw [e]; omega)
    rw [chan_ticks_succ, h2.1, h2.2, e]
    simp [chan_start, on_state, start_signal_cfg]

/-- The objects of a channel k ticks after a start with a finite pulse count. -/
theorem finite_trace (v : Chan) (A B N T : Nat) (hcfg : v.cfg = ⟨A, B, N, T⟩)
    (hA : 1 ≤ A) (hA2 : A ≤ 65535) (hB : B ≤ 65535) (hN : 1 ≤ N) (hN2 : N ≤ 65535)
    (hT : T ≤ 65534) (k : Nat) :
    chan_ticks k (chan_start v) =
      if k ≤ T then { chan_start v with tail := T + 1 - k }
      else if k - (T + 1) < N * (A + B) then
        in_cycle (on_state v.cfg v.cfg ((N + 1 - (k - (T + 1)) / (A + B)) % 65536) true)
          ((k - (T + 1)) % (A + B))
      else end_state v.cfg v.cfg := by
  have c1 : v.cfg.on_ms = A := by rw [hcfg]
  have c2 : v.cfg.off_ms = B := by rw [hcfg]
  have c3 : v.cfg.pulses = N := by rw [hcfg]
  have c4 : v.cfg.tail_ms = T := by rw [hcfg]
  have hs := start_tail v (by omega) (by omega)
  rw [c4] at hs
  by_cases h : k ≤ T
  · rw [if_pos h]; exact hs.1 k h
  · rw [if_neg h]
    obtain ⟨m, rfl⟩ : ∃ m, k = T + 1 + m := ⟨k - (T + 1), by omega⟩
    have e : T + 1 + m - (T + 1) = m := by omega
    rw [chan_ticks_add, hs.2, e, c3]
    have := finite_run v.cfg v.cfg N (by omega) (by omega) (by omega) hN hN2 m
    rw [c1, c2] at this
    exact this

theorem window_iff (A B N m : Nat) (hA : 1 ≤ A) :
    (m < N * (A + B) ∧ m % (A + B) < A) ↔
      ∃ j, j < N ∧ j * (A + B) ≤ m ∧ m < j * (A + B) + A := by
  have hP : 0 < A + B := by omega
  constructor
  · rintro ⟨h1, h2⟩
    refine ⟨m / (A + B), (Nat.div_lt_iff_lt_mul hP).2 h1, Nat.div_mul_le_self m _, ?_⟩
    have := Nat.div_add_mod m (A + B)
    rw [Nat.mul_comm] at this
    omega
  · rintro ⟨j, h1, h2, h3⟩
    have h4 : (j + 1) * (A + B) ≤ N * (A + B) := Nat.mul_le_mul_right _ h1
    have h5 : (j + 1) * (A + B) = j * (A + B) + (A + B) := Nat.succ_mul _ _
    have h6 : m / (A + B) = j := Nat.div_eq_of_lt_le h2 (by omega)
    have := Nat.div_add_mod m (A + B)
    rw [h6, Nat.mul_comm] at this
    constructor <;> omega

theorem in_cycle_out (c : Chan) (i : Nat) :
    (in_cycle c i).out = if i < c.desc.on_ms then c.out else false := rfl

theorem in_cycle_active (c : Chan) (i : Nat) : (in_cycle c i).active = c.active := rfl

theorem in_cycle_count (c : Chan) (i : Nat) :
    (in_cycle c i).count_pulses = c.count_pulses := rfl

/-- The line k ticks after a start with a finite pulse count. -/
theorem finite_trace_out (v : Chan) (A B N T : Nat) (hcfg : v.cfg = ⟨A, B, N, T⟩)
    (hidle : v.out = false)
    (hA : 1 ≤ A) (hA2 : A ≤ 65535) (hB : B ≤ 65535) (hN : 1 ≤ N) (hN2 : N ≤ 65535)
    (hT : T ≤ 65534) (k : Nat) :
    (chan_ticks k (chan_start v)).out = true ↔
      (T = 0 ∧ k = 0) ∨ ∃ j, j < N ∧ T + 1 + j * (A + B) ≤ k ∧ k < T + 1 + j * (A + B) + A := by
  rw [finite_trace v A B N T hcfg hA hA2 hB hN hN2 hT k]
  have c1 : v.cfg.on_ms = A := by rw [hcfg]
  have c4 : v.cfg.tail_ms = T := by rw [hcfg]
  by_cases h : k ≤ T
  · rw [if_pos h]
    have e : (chan_start v).out = decide (T = 0) := by
      simp only [chan_start, add16, c4, hidle]
      by_cases hT0 : T = 0
      · simp [hT0]
      · have : (T + 1) % 65536 ≠ 1 := by omega
        simp [this, hT0]
    show (chan_start v).out = true ↔ _
    rw [e]
    constructor
    · intro h0
      have h0 : T = 0 := by simpa using h0
      left; omega
    · rintro (⟨h0, _⟩ | ⟨j, _, h2, _⟩)
      · simpa using h0
      · omega
  · rw [if_neg h]
    obtain ⟨m, rfl⟩ : ∃ m, k = T + 1 + m := ⟨k - (T + 1), by omega⟩
    have e : T + 1 + m - (T + 1) = m := by omega
    rw [e]
    have hw := window_iff A B N m hA
    by_cases h1 : m < N * (A + B)
    · rw [if_pos h1, in_cycle_out]
      show (if m % (A + B) < v.cfg.on_ms then true else false) = true ↔ _
      rw [c1]
      constructor
      · intro h2
        have h2 : m % (A + B) < A := by simpa using h2
        obtain ⟨j, hj1, hj2, hj3⟩ := hw.1 ⟨h1, h2⟩
        exact Or.inr ⟨j, hj1, by omega, by omega⟩
      · rintro (⟨_, h0⟩ | ⟨j, hj1, hj2, hj3⟩)
        · omega
        · have := (hw.2 ⟨j, hj1, by omega, by omega⟩).2
          simp [this]
    · rw [if_neg h1]
      show false = true ↔ _
      constructor
      · intro h2; cases h2
      · rintro (⟨_, h0⟩ | ⟨j, hj1, hj2, hj3⟩)
        · omega
        · exact absurd (hw.2 ⟨j, hj1, by omega, by omega⟩).1 h1

/-- The active flag k ticks after a start with a finite pulse count. -/
theorem finite_trace_active (v : Chan) (A B N T : Nat) (hcfg : v.cfg = ⟨A, B, N, T⟩)
    (hA : 1 ≤ A) (hA2 : A ≤ 65535) (hB : B ≤ 65535) (hN : 1 ≤ N) (hN2 : N ≤ 65535)
    (hT : T ≤ 65534) (k : Nat) :
    (chan_ticks k (chan_start v)).active = true ↔ k < T + 1 + N * (A + B) := by
  rw [finite_trace v A B N T hcfg hA hA2 hB hN hN2 hT k]
  by_cases h : k ≤ T
  · rw [if_pos h]
    show true = true ↔ _
    constructor
    · intro _; omega
    · intro _; rfl
  · rw [if_neg h]
    by_cases h1 : k - (T + 1) < N * (A + B)
    · rw [if_pos h1, in_cycle_active]
      show true = true ↔ _
      constructor
      · intro _; omega
      · intro _; rfl
    · rw [if_neg h1]
      show false = true ↔ _
      constructor
      · intro h2; cases h2
      · intro h2; omega

/-- A start through the BNC state register followed by k ticks, on the
objects of the started channel. -/
theorem view_start_ticks (ch : Channel) (hch : ch = Channel.bnc0 ∨ ch = Channel.bnc1)
    (reg : Nat) (hreg : reg &&& state_bit ch ≠ 0) (s : Device) (k : Nat) :
    view ch (ticks k (app_write_REG_BNCS_STATE reg s).2) =
      chan_ticks k (chan_start (view ch s)) := by
  rw [view_ticks, view_write_bncs ch hch, if_pos hreg]

/-! ## Timing of a finite run (C1, C2, C3) -/

/-- C1 (as stated) fails for on = 1, off = 1, pulses = 1, tail = 0 on BNC0:
the line BNC_SIG1_O is high after arming and still high after the first tick,
so its single window lasts two samples and no placement of one window of
one tick describes the trace. -/
theorem c1_windows_counterexample :
    ¬ ∃ first, pulse_train (fun k => (ticks k (bnc0_run 1 1 1 0 1)).ports.BNC_SIG1_O)
      first 1 1 1 := by
  rintro ⟨f, h⟩
  have h0 : (ticks 0 (bnc0_run 1 1 1 0 1)).ports.BNC_SIG1_O = true := by decide
  have h1 : (ticks 1 (bnc0_run 1 1 1 0 1)).ports.BNC_SIG1_O = true := by decide
  obtain ⟨j, hj, a, b⟩ := (h 0).1 h0
  obtain ⟨i, hi, c, d⟩ := (h 1).1 h1
  have ej : j = 0 := by omega
  have ei : i = 0 := by omega
  subst ej ei
  omega

/-- C1 (amended): for BNC0 and BNC1, pulse count N, on-time A and off-time B
all in [1, 65535] and tail T in [0, 65534], started from a deasserted line and
advanced by ticks only: sampled after each tick (sample k is taken after tick
k + 1), the line is high in exactly N windows of exactly A ticks each,
consecutive windows separated by exactly B low ticks, the first window
beginning after tick T + 1; the line is already high after arming exactly
when T = 0. -/
theorem c1_finite_run_windows (ch : Channel) (hch : ch = Channel.bnc0 ∨ ch = Channel.bnc1)
    (s : Device) (reg A B N T : Nat) (hreg : reg &&& state_bit ch ≠ 0)
    (hcfg : (view ch s).cfg = ⟨A, B, N, T⟩) (hidle : (view ch s).out = false)
    (hA : 1 ≤ A) (hA2 : A ≤ 65535) (_hB : 1 ≤ B) (hB2 : B ≤ 65535)
    (hN : 1 ≤ N) (hN2 : N ≤ 65535) (hT : T ≤ 65534) :
    pulse_train (fun k => (view ch (ticks (k + 1) (app_write_REG_BNCS_STATE reg s).2)).out)
        T N A B ∧
      ((view ch (app_write_REG_BNCS_STATE reg s).2).out = true ↔ T = 0) := by
  have key := fun k => finite_trace_out (view ch s) A B N T hcfg hidle hA hA2 hB2 hN hN2 hT k
  constructor
  · intro k
    show (view ch (ticks (k + 1) (app_write_REG_BNCS_STATE reg s).2)).out = true ↔ _
    rw [view_start_ticks ch hch reg hreg, key (k + 1)]
    constructor
    · rintro (⟨_, h0⟩ | ⟨j, h1, h2, h3⟩)
      · omega
      · exact ⟨j, h1, by omega, by omega⟩
    · rintro ⟨j, h1, h2, h3⟩
      exact Or.inr ⟨j, h1, by omega, by omega⟩
  · have h0 := key 0
    have e := view_start_ticks ch hch reg hreg s 0
    rw [ticks, chan_ticks] at e
    rw [chan_ticks] at h0
    rw [e, h0]
    constructor
    · rintro (⟨h, _⟩ | ⟨j, h1, h2, h3⟩)
      · exact h
      · omega
    · intro h; exact Or.inl ⟨h, rfl⟩

theorem c1_finite_run_windows_witness :
    pulse_train (fun k => (view Channel.bnc0 (ticks (k + 1)
        (app_write_REG_BNCS_STATE 1 (configure_bnc0 2 1 2 1 power_on)).2)).out) 1 2 2 1 ∧
      ((view Channel.bnc0
        (app_write_REG_BNCS_STATE 1 (configure_bnc0 2 1 2 1 power_on)).2).out = true ↔ 1 = 0) :=
  c1_finite_run_windows Channel.bnc0 (Or.inl rfl) (configure_bnc0 2 1 2 1 power_on) 1 2 1 2 1
    (by decide) rfl rfl (by decide) (by decide) (by decide) (by decide) (by decide) (by decide)
    (by decide)

/-- C2 (as stated) fails for tail = 1 (on = 1, off = 1, pulses = 1) on BNC0:
after the first tick, which is the T-th, the line BNC_SIG1_O is still low; it
goes high on the second tick. -/
theorem c2_first_assert_counterexample :
    (ticks 1 (bnc0_run 1 1 1 1 1)).ports.BNC_SIG1_O = false ∧
      (ticks 2 (bnc0_run 1 1 1 1 1)).ports.BNC_SIG1_O = true := by
  decide

/-- C2 (amended): for BNC0 and BNC1 started from a deasserted line with
on-time A >= 1 and tail T in [0, 65534]: when T = 0 the line is asserted at
arming itself; when T > 0 the line is low after arming and after each of the
first T ticks, and is asserted by tick T + 1 (the handler loads the tail
counter with T + 1, so one tick more than T elapses). -/
theorem c2_first_assert (ch : Channel) (hch : ch = Channel.bnc0 ∨ ch = Channel.bnc1)
    (s : Device) (reg A B N T : Nat) (hreg : reg &&& state_bit ch ≠ 0)
    (hcfg : (view ch s).cfg = ⟨A, B, N, T⟩) (hidle : (view ch s).out = false)
    (hA : 1 ≤ A) (hT : T ≤ 65534) :
    (T = 0 → (view ch (app_write_REG_BNCS_STATE reg s).2).out = true) ∧
      (0 < T →
        (∀ k, k ≤ T → (view ch (ticks k (app_write_REG_BNCS_STATE reg s).2)).out = false) ∧
          (view ch (ticks (T + 1) (app_write_REG_BNCS_STATE reg s).2)).out = true) := by
  have c1 : (view ch s).cfg.on_ms = A := by rw [hcfg]
  have c4 : (view ch s).cfg.tail_ms = T := by rw [hcfg]
  have hs := start_tail (view ch s) (by omega) (by omega)
  rw [c4] at hs
  have e0 : view ch (app_write_REG_BNCS_STATE reg s).2 = chan_start (view ch s) :=
    view_start_ticks ch hch reg hreg s 0
  have eo : (chan_start (view ch s)).out = decide (T = 0) := by
    simp only [chan_start, add16, c4, hidle]
    by_cases hT0 : T = 0
    · simp [hT0]
    · have : (T + 1) % 65536 ≠ 1 := by omega
      simp [this, hT0]
  refine ⟨?_, ?_⟩
  · intro h
    rw [e0, eo]; simpa using h
  · intro h
    constructor
    · intro k hk
      rw [view_start_ticks ch hch reg hreg, hs.1 k hk]
      show (chan_start (view ch s)).out = false
      rw [eo]
      have : T ≠ 0 := by omega
      simpa using this
    · rw [view_start_ticks ch hch reg hreg, hs.2]
      rfl

theorem c2_first_assert_witness :
    (3 = 0 → (view Channel.bnc1
        (app_write_REG_BNCS_STATE 2 (configure_bnc1 2 5 4 3 power_on)).2).out = true) ∧
      (0 < 3 →
        (∀ k, k ≤ 3 → (view Channel.bnc1 (ticks k
          (app_write_REG_BNCS_STATE 2 (configure_bnc1 2 5 4 3 power_on)).2)).out = false) ∧
        (view Channel.bnc1 (ticks (3 + 1)
          (app_write_REG_BNCS_STATE 2 (configure_bnc1 2 5 4 3 power_on)).2)).out = true) :=
  c2_first_assert Channel.bnc1 (Or.inr rfl) (configure_bnc1 2 5 4 3 power_on) 2 2 5 4 3
    (by decide) rfl rfl (by decide) (by decide)

/-- C3 (as stated) fails for on = 1, off = 1, pulses = 1, tail = 0 on BNC0:
after T + N * (A + B) = 2 ticks bit B_BNC0 of REG_BNCS_STATE is still set; it
is the third tick that clears it. -/
theorem c3_idle_time_counterexample :
    (ticks (0 + 1 * (1 + 1)) (bnc0_run 1 1 1 0 1)).app_regs.REG_BNCS_STATE &&& B_BNC0 ≠ 0 ∧
      (ticks (0 + 1 * (1 + 1) + 1) (bnc0_run 1 1 1 0 1)).app_regs.REG_BNCS_STATE &&& B_BNC0 = 0 := by
  decide

/-- C3 (amended): for BNC0 and BNC1 started with pulse count N, on-time A and
off-time B all in [1, 65535] and tail T in [0, 65534]: the active bit of the
channel is set after arming and after each of the first T + N * (A + B) ticks,
and is clear after tick T + 1 + N * (A + B) and after every later tick. -/
theorem c3_idle_time (ch : Channel) (hch : ch = Channel.bnc0 ∨ ch = Channel.bnc1)
    (s : Device) (reg A B N T : Nat) (hreg : reg &&& state_bit ch ≠ 0)
    (hcfg : (view ch s).cfg = ⟨A, B, N, T⟩)
    (hA : 1 ≤ A) (hA2 : A ≤ 65535) (_hB : 1 ≤ B) (hB2 : B ≤ 65535)
    (hN : 1 ≤ N) (hN2 : N ≤ 65535) (hT : T ≤ 65534) :
    ∀ k, (view ch (ticks k (app_write_REG_BNCS_STATE reg s).2)).active = true ↔
      k < T + 1 + N * (A + B) := by
  intro k
  rw [view_start_ticks ch hch reg hreg]
  exact finite_trace_active (view ch s) A B N T hcfg hA hA2 hB2 hN hN2 hT k

theorem c3_idle_time_witness :
    1 &&& state_bit Channel.bnc0 ≠ 0 ∧ ∀ k, (view Channel.bnc0 (ticks k
        (app_write_REG_BNCS_STATE 1 (configure_bnc0 2 1 2 1 power_on)).2)).active = true ↔
      k < 1 + 1 + 2 * (2 + 1) :=
  ⟨by decide, c3_idle_time Channel.bnc0 (Or.inl rfl) (configure_bnc0 2 1 2 1 power_on) 1 2 1 2 1
    (by decide) rfl (by decide) (by decide) (by decide) (by decide) (by decide) (by decide)
    (by decide)⟩

/-! ## The event log -/

theorem events_tick_bnc0 (s : Device) : (tick_bnc0 s).events = s.events := by
  rcases s with ⟨⟨r1, r2, r3, r4, r5, r6, r7, r8, r9, r10, r11, r12, r13, r14, r15, r16, r17, r18,
    r19, r20, r21, r22, r23, r24, r25, r26, r27, r28, r29, r30, r31⟩,
    ⟨c1, c2, c3, c4, c5, c6, c7, c8, c9, c10, c11, c12, c13, c14, c15, c16⟩, d0, d1, da, db,
    ⟨p1, p2, p3, p4, p5, p6, p7, p8, p9, p10, p11, p12, p13⟩, io, ev⟩
  simp only [tick_bnc0, put_tail_bnc0, put_period_bnc0, put_t_bnc0, put_count_pulses_bnc0,
    put_REG_BNCS_STATE, set_BNC_SIG1_O, clr_BNC_SIG1_O, apply_ite Device.events, ite_self]

theorem events_tick_bnc1 (s : Device) : (tick_bnc1 s).events = s.events := by
  rcases s with ⟨⟨r1, r2, r3, r4, r5, r6, r7, r8, r9, r10, r11, r12, r13, r14, r15, r16, r17, r18,
    r19, r20, r21, r22, r23, r24, r25, r26, r27, r28, r29, r30, r31⟩,
    ⟨c1, c2, c3, c4, c5, c6, c7, c8, c9, c10, c11, c12, c13, c14, c15, c16⟩, d0, d1, da, db,
    ⟨p1, p2, p3, p4, p5, p6, p7, p8, p9, p10, p11, p12, p13⟩, io, ev⟩
  simp only [tick_bnc1, put_tail_bnc1, put_period_bnc1, put_t_bnc1, put_count_pulses_bnc1,
    put_REG_BNCS_STATE, set_BNC_SIG2_O, clr_BNC_SIG2_O, apply_ite Device.events, ite_self]

theorem events_tick_signal_a (s : Device) : (tick_signal_a s).events = s.events := by
  rcases s with ⟨⟨r1, r2, r3, r4, r5, r6, r7, r8, r9, r10, r11, r12, r13, r14, r15, r16, r17, r18,
    r19, r20, r21, r22, r23, r24, r25, r26, r27, r28, r29, r30, r31⟩,
    ⟨c1, c2, c3, c4, c5, c6, c7, c8, c9, c10, c11, c12, c13, c14, c15, c16⟩, d0, d1, da, db,
    ⟨p1, p2, p3, p4, p5, p6, p7, p8, p9, p10, p11, p12, p13⟩, io, ev⟩
  simp only [tick_signal_a, put_tail_signal_a, put_period_signal_a, put_t_signal_a, put_count_pulses_signal_a,
    put_REG_SIGNAL_STATE, set_SIGNAL_A_O, clr_SIGNAL_A_O, apply_ite Device.events, ite_self]

theorem events_tick_signal_b (s : Device) : (tick_signal_b s).events = s.events := by
  rcases s with ⟨⟨r1, r2, r3, r4, r5, r6, r7, r8, r9, r10, r11, r12, r13, r14, r15, r16, r17, r18,
    r19, r20, r21, r22, r23, r24, r25, r26, r27, r28, r29, r30, r31⟩,
    ⟨c1, c2, c3, c4, c5, c6, c7, c8, c9, c10, c11, c12, c13, c14, c15, c16⟩, d0, d1, da, db,
    ⟨p1, p2, p3, p4, p5, p6, p7, p8, p9, p10, p11, p12, p13⟩, io, ev⟩
  simp only [tick_signal_b, put_tail_signal_b, put_period_signal_b, put_t_signal_b, put_count_pulses_signal_b,
    put_REG_SIGNAL_STATE, set_SIGNAL_B_O, clr_SIGNAL_B_O, apply_ite Device.events, ite_self]

/-- The tick callback never calls core_func_send_event. -/
theorem events_tick (s : Device) : (core_callback_t_500us s).events = s.events := by
  unfold core_callback_t_500us
  rw [events_tick_signal_b, events_tick_signal_a, events_tick_bnc1, events_tick_bnc0]

theorem events_ticks (n : Nat) (s : Device) : (ticks n s).events = s.events := by
  induction n generalizing s with
  | zero => rfl
  | succ n ih => rw [ticks, ih, events_tick]

/-- The BNC state handler never calls core_func_send_event. -/
theorem events_write_bncs (reg : Nat) (s : Device) :
    (app_write_REG_BNCS_STATE reg s).2.events = s.events := by
  rcases s with ⟨⟨r1, r2, r3, r4, r5, r6, r7, r8, r9, r10, r11, r12, r13, r14, r15, r16, r17, r18,
    r19, r20, r21, r22, r23, r24, r25, r26, r27, r28, r29, r30, r31⟩,
    ⟨c1, c2, c3, c4, c5, c6, c7, c8, c9, c10, c11, c12, c13, c14, c15, c16⟩, d0, d1, da, db,
    ⟨p1, p2, p3, p4, p5, p6, p7, p8, p9, p10, p11, p12, p13⟩, io, ev⟩
  simp only [app_write_REG_BNCS_STATE, write_bncs_bnc0, write_bncs_bnc1, put_tail_bnc0,
    put_period_bnc0, put_t_bnc0, put_count_pulses_bnc0, put_tail_bnc1, put_period_bnc1,
    put_t_bnc1, put_count_pulses_bnc1, put_REG_BNCS_STATE, set_BNC_SIG1_O, clr_BNC_SIG1_O,
    set_BNC_SIG2_O, clr_BNC_SIG2_O]
  split_ifs <;> rfl

/-! ## Unlimited runs and stop (C4, C5) -/

theorem chan_tick_hold (c : Chan) (hon : c.cfg.on_ms = 0) (ht : c.t = 0) : chan_tick c = c := by
  unfold chan_tick
  simp [hon, ht]

theorem chan_ticks_hold (n : Nat) (c : Chan) (hon : c.cfg.on_ms = 0) (ht : c.t = 0) :
    chan_ticks n c = c := by
  induction n with
  | zero => rfl
  | succ n ih => rw [chan_ticks, chan_tick_hold c hon ht, ih]

/-- The objects of a channel after a start with pulse count 0 and a non-zero
on-time: a tail wait of t0 ticks, then the unlimited run. -/
theorem infinite_trace (v : Chan) (A B T : Nat) (hcfg : v.cfg = ⟨A, B, 0, T⟩)
    (hA : 1 ≤ A) (hA2 : A ≤ 65535) (hB : B ≤ 65535) (hT : T ≤ 65535) :
    ∃ t0 o, t0 ≤ T + 1 ∧ (T ≤ 65534 → t0 = T + 1 ∧ o = true) ∧
      (∀ k, k < t0 → chan_ticks k (chan_start v) = { chan_start v with tail := t0 - k }) ∧
      ∀ m, chan_ticks (t0 + m) (chan_start v) =
        in_cycle (on_state v.cfg v.cfg 1 (if m < A + B then o else true)) (m % (A + B)) := by
  have c1 : v.cfg.on_ms = A := by rw [hcfg]
  have c2 : v.cfg.off_ms = B := by rw [hcfg]
  have c3 : v.cfg.pulses = 0 := by rw [hcfg]
  have c4 : v.cfg.tail_ms = T := by rw [hcfg]
  have e1 : add16 0 1 = 1 := by decide
  by_cases h : T ≤ 65534
  · have hs := start_tail v (by omega) (by omega)
    rw [c4, c3, e1] at hs
    refine ⟨T + 1, true, le_refl _, fun _ => ⟨rfl, rfl⟩, fun k hk => hs.1 k (by omega), ?_⟩
    intro m
    rw [chan_ticks_add, hs.2]
    have := infinite_run v.cfg v.cfg true (by omega) (by omega) (by omega) m
    rw [c1, c2] at this
    rw [this]
  · have hT' : T = 65535 := by omega
    have e2 : add16 65535 1 = 0 := by decide
    have e : chan_start v = on_state v.cfg v.cfg 1 v.out := by
      have e3 : start_signal v.cfg.on_ms 0 v.cfg.off_ms 65535 = v.cfg := by
        rw [hcfg, hT']; rfl
      simp [chan_start, on_state, c4, c3, hT', e1, e2, e3]
    refine ⟨0, v.out, by omega, fun h' => absurd h' h, fun k hk => absurd hk (by omega), ?_⟩
    intro m
    rw [Nat.zero_add, e]
    have := infinite_run v.cfg v.cfg v.out (by omega) (by omega) (by omega) m
    rw [c1, c2] at this
    exact this

/-- A write of the BNC state register with the channel's bit clear, on the
objects of the channel. -/
theorem view_stop (ch : Channel) (hch : ch = Channel.bnc0 ∨ ch = Channel.bnc1)
    (reg : Nat) (hreg : reg &&& state_bit ch = 0) (s : Device) :
    view ch (app_write_REG_BNCS_STATE reg s).2 = chan_stop (view ch s) := by
  rw [view_write_bncs ch hch, if_neg (by simpa using hreg)]

/-- C4: for pulse count 0 on BNC0 or BNC1, with any on-time, off-time and tail
in the 16-bit range, after a start and any number of ticks: the active bit is
set; the pulses counter is 1 (it is re-armed to 1 at every period boundary);
from tick T + 1 + (A + B) on, the objects of the channel, its line included,
repeat with period A + B ticks; for a non-zero on-time and T below 65535 the
line is high for A ticks and low for B ticks in every period counted from
tick T + 1; and a write of REG_BNCS_STATE with the channel's bit clear, at any
point of the run, clears the active bit and deasserts the line. -/
theorem c4_infinite_run (ch : Channel) (hch : ch = Channel.bnc0 ∨ ch = Channel.bnc1)
    (s : Device) (reg A B T : Nat) (hreg : reg &&& state_bit ch ≠ 0)
    (hcfg : (view ch s).cfg = ⟨A, B, 0, T⟩)
    (hA2 : A ≤ 65535) (hB2 : B ≤ 65535) (hT2 : T ≤ 65535) :
    (∀ k, (view ch (ticks k (app_write_REG_BNCS_STATE reg s).2)).active = true) ∧
    (∀ k, (view ch (ticks k (app_write_REG_BNCS_STATE reg s).2)).count_pulses = 1) ∧
    (∀ k, T + 1 + (A + B) ≤ k →
      view ch (ticks (k + (A + B)) (app_write_REG_BNCS_STATE reg s).2) =
        view ch (ticks k (app_write_REG_BNCS_STATE reg s).2)) ∧
    (1 ≤ A → T ≤ 65534 → ∀ m,
      (view ch (ticks (T + 1 + m) (app_write_REG_BNCS_STATE reg s).2)).out =
        decide (m % (A + B) < A)) ∧
    (∀ k reg2, reg2 &&& state_bit ch = 0 →
      (view ch (app_write_REG_BNCS_STATE reg2
          (ticks k (app_write_REG_BNCS_STATE reg s).2)).2).active = false ∧
        (view ch (app_write_REG_BNCS_STATE reg2
          (ticks k (app_write_REG_BNCS_STATE reg s).2)).2).out = false) := by
  have stop : ∀ k reg2, reg2 &&& state_bit ch = 0 →
      (view ch (app_write_REG_BNCS_STATE reg2
          (ticks k (app_write_REG_BNCS_STATE reg s).2)).2).active = false ∧
        (view ch (app_write_REG_BNCS_STATE reg2
          (ticks k (app_write_REG_BNCS_STATE reg s).2)).2).out = false := by
    intro k reg2 h2
    rw [view_stop ch hch reg2 h2]
    exact ⟨rfl, rfl⟩
  have c1 : (view ch s).cfg.on_ms = A := by rw [hcfg]
  have c3 : (view ch s).cfg.pulses = 0 := by rw [hcfg]
  have e1 : add16 0 1 = 1 := by decide
  have hcnt : (chan_start (view ch s)).count_pulses = 1 := by
    simp only [chan_start, c3, e1]
  by_cases hA : A = 0
  · have hold : ∀ k, view ch (ticks k (app_write_REG_BNCS_STATE reg s).2) =
        chan_start (view ch s) := by
      intro k
      rw [view_start_ticks ch hch reg hreg]
      exact chan_ticks_hold k _ (by simp [chan_start, c1, hA]) (by simp [chan_start, c1, hA])
    refine ⟨fun k => ?_, fun k => ?_, fun k _ => ?_, fun h => absurd hA (by omega), stop⟩
    · rw [hold]; rfl
    · rw [hold, hcnt]
    · rw [hold, hold]
  · obtain ⟨t0, o, ht0, hreg0, htail, hrun⟩ :=
      infinite_trace (view ch s) A B T hcfg (by omega) hA2 hB2 hT2
    have split : ∀ k, k < t0 ∨ ∃ m, k = t0 + m := by
      intro k
      by_cases h : k < t0
      · exact Or.inl h
      · exact Or.inr ⟨k - t0, by omega⟩
    refine ⟨fun k => ?_, fun k => ?_, fun k hk => ?_, fun _ hT m => ?_, stop⟩
    · rw [view_start_ticks ch hch reg hreg]
      rcases split k with h | ⟨m, rfl⟩
      · rw [htail k h]; rfl
      · rw [hrun m]; rfl
    · rw [view_start_ticks ch hch reg hreg]
      rcases split k with h | ⟨m, rfl⟩
      · rw [htail k h]; exact hcnt
      · rw [hrun m]; rfl
    · rw [view_start_ticks ch hch reg hreg, view_start_ticks ch hch reg hreg]
      obtain ⟨m, rfl⟩ : ∃ m, k = t0 + m := ⟨k - t0, by omega⟩
      have hm : ¬ m < A + B := by omega
      have hm2 : ¬ m + (A + B) < A + B := by omega
      rw [Nat.add_assoc, hrun m, hrun (m + (A + B)), if_neg hm, if_neg hm2, Nat.add_mod_right]
    · obtain ⟨rfl, rfl⟩ := hreg0 hT
      rw [view_start_ticks ch hch reg hreg, hrun m, in_cycle_out]
      show (if m % (A + B) < (view ch s).cfg.on_ms then _ else false) = _
      rw [c1]
      by_cases h : m % (A + B) < A
      · simp [h, on_state]
      · simp [h]

theorem c4_infinite_run_witness :
    1 &&& state_bit Channel.bnc0 ≠ 0 ∧
    (∀ k, (view Channel.bnc0 (ticks k (app_write_REG_BNCS_STATE 1
        (configure_bnc0 2 3 0 4 power_on)).2)).active = true) ∧
    (∀ k, (view Channel.bnc0 (ticks k (app_write_REG_BNCS_STATE 1
        (configure_bnc0 2 3 0 4 power_on)).2)).count_pulses = 1) ∧
    (∀ k, 4 + 1 + (2 + 3) ≤ k →
      view Channel.bnc0 (ticks (k + (2 + 3)) (app_write_REG_BNCS_STATE 1
          (configure_bnc0 2 3 0 4 power_on)).2) =
        view Channel.bnc0 (ticks k (app_write_REG_BNCS_STATE 1
          (configure_bnc0 2 3 0 4 power_on)).2)) ∧
    (1 ≤ 2 → 4 ≤ 65534 → ∀ m,
      (view Channel.bnc0 (ticks (4 + 1 + m) (app_write_REG_BNCS_STATE 1
          (configure_bnc0 2 3 0 4 power_on)).2)).out = decide (m % (2 + 3) < 2)) ∧
    (∀ k reg2, reg2 &&& state_bit Channel.bnc0 = 0 →
      (view Channel.bnc0 (app_write_REG_BNCS_STATE reg2
          (ticks k (app_write_REG_BNCS_STATE 1
            (configure_bnc0 2 3 0 4 power_on)).2)).2).active = false ∧
        (view Channel.bnc0 (app_write_REG_BNCS_STATE reg2
          (ticks k (app_write_REG_BNCS_STATE 1
            (configure_bnc0 2 3 0 4 power_on)).2)).2).out = false) :=
  ⟨by decide, c4_infinite_run Channel.bnc0 (Or.inl rfl) (configure_bnc0 2 3 0 4 power_on) 1 2 3 4
    (by decide) rfl (by decide) (by decide) (by decide)⟩

/-- C5: for every state of the globals and every written byte with the bit of
BNC0 (or of BNC1) clear, app_write_REG_BNCS_STATE leaves the line of that
channel deasserted and its active bit clear, and no number of later ticks
changes any object of the channel (counters, line, bit, descriptor). -/
theorem c5_stop (ch : Channel) (hch : ch = Channel.bnc0 ∨ ch = Channel.bnc1)
    (s : Device) (reg : Nat) (hreg : reg &&& state_bit ch = 0) :
    (view ch (app_write_REG_BNCS_STATE reg s).2).out = false ∧
    (view ch (app_write_REG_BNCS_STATE reg s).2).active = false ∧
    (app_write_REG_BNCS_STATE reg s).2.app_regs.REG_BNCS_STATE &&& state_bit ch = 0 ∧
    ∀ n, view ch (ticks n (app_write_REG_BNCS_STATE reg s).2) =
      view ch (app_write_REG_BNCS_STATE reg s).2 := by
  refine ⟨?_, ?_, hreg, fun n => ?_⟩
  · rw [view_stop ch hch reg hreg]; rfl
  · rw [view_stop ch hch reg hreg]; rfl
  · rw [view_ticks]
    exact chan_ticks_idle n _ (by rw [view_stop ch hch reg hreg]; rfl)

theorem c5_stop_witness :
    (view Channel.bnc0 (ticks 3 (bnc0_run 5 5 0 0 1))).out = true ∧
    (view Channel.bnc0 (app_write_REG_BNCS_STATE 2 (ticks 3 (bnc0_run 5 5 0 0 1))).2).out = false ∧
    (view Channel.bnc0
      (app_write_REG_BNCS_STATE 2 (ticks 3 (bnc0_run 5 5 0 0 1))).2).active = false ∧
    (app_write_REG_BNCS_STATE 2
      (ticks 3 (bnc0_run 5 5 0 0 1))).2.app_regs.REG_BNCS_STATE &&& state_bit Channel.bnc0 = 0 ∧
    ∀ n, view Channel.bnc0 (ticks n
        (app_write_REG_BNCS_STATE 2 (ticks 3 (bnc0_run 5 5 0 0 1))).2) =
      view Channel.bnc0 (app_write_REG_BNCS_STATE 2 (ticks 3 (bnc0_run 5 5 0 0 1))).2 :=
  ⟨by decide, c5_stop Channel.bnc0 (Or.inl rfl) (ticks 3 (bnc0_run 5 5 0 0 1)) 2 (by decide)⟩


/-! ## Signal A against BNC0 (C6) -/

/-- A channel whose tail and phase counters are both 0 is not moved by a tick. -/
theorem chan_tick_rest (c : Chan) (htail : c.tail = 0) (ht : c.t = 0) : chan_tick c = c := by
  unfold chan_tick
  simp [htail, ht]

theorem chan_ticks_rest (n : Nat) (c : Chan) (htail : c.tail = 0) (ht : c.t = 0) :
    chan_ticks n c = c := by
  induction n with
  | zero => rfl
  | succ n ih => rw [chan_ticks, chan_tick_rest c htail ht, ih]

/-- The Signal state handler only stores the byte: on the objects of Signal A
it changes the active bit and nothing else. -/
theorem view_write_signal_a (reg : Nat) (s : Device) :
    view Channel.signal_a (app_write_REG_SIGNAL_STATE reg s).2 =
      { view Channel.signal_a s with active := decide (reg &&& B_SIGNAL_A ≠ 0) } := rfl

/-- C6 (code defect): with ON = 1, OFF = 1, PULSES = 1, TAIL = 0 written at
power-on, a start of BNC0 through REG_BNCS_STATE asserts BNC_SIG1_O at once,
drops it at the second tick and clears the active bit at the third; the same
start of Signal A through REG_SIGNAL_STATE loads no counter and no descriptor,
so SIGNAL_A_O is low after the write and after every number of ticks, and bit
B_SIGNAL_A stays set for ever. -/
theorem c6_signal_a_never_armed :
    (bnc0_run 1 1 1 0 1).ports.BNC_SIG1_O = true ∧
    (ticks 3 (bnc0_run 1 1 1 0 1)).app_regs.REG_BNCS_STATE &&& B_BNC0 = 0 ∧
    (signal_a_run 1 1 1 0 1).ports.SIGNAL_A_O = false ∧
    (signal_a_run 1 1 1 0 1).pulse_countdown.t_signal_a = 0 ∧
    (signal_a_run 1 1 1 0 1).s_signal_a = ⟨0, 0, 0, 0⟩ ∧
    ∀ n, (ticks n (signal_a_run 1 1 1 0 1)).ports.SIGNAL_A_O = false ∧
      (ticks n (signal_a_run 1 1 1 0 1)).app_regs.REG_SIGNAL_STATE &&& B_SIGNAL_A ≠ 0 := by
  refine ⟨by decide, by decide, by decide, by decide, by decide, fun n => ?_⟩
  have h : view Channel.signal_a (ticks n (signal_a_run 1 1 1 0 1)) =
      view Channel.signal_a (signal_a_run 1 1 1 0 1) := by
    rw [view_ticks]
    exact chan_ticks_rest n _ rfl rfl
  have h1 := congrArg Chan.out h
  have h2 := congrArg Chan.active h
  constructor
  · exact h1
  · have h3 : decide ((ticks n (signal_a_run 1 1 1 0 1)).app_regs.REG_SIGNAL_STATE &&&
        B_SIGNAL_A ≠ 0) = true := h2
    exact of_decide_eq_true h3

/-! ## Re-arming and the shared state register (C7, C8) -/

/-- C7 (code defect): BNC0 is one tick into a run with its line high, the host
writes a new configuration with TAIL = 2 and starts BNC0 again. The start
branch reloads every counter but only ever sets the line, so BNC_SIG1_O stays
high through the tail wait, where the same start from an idle channel leaves
it low; the four counters and the descriptor are equal in both cases. -/
theorem c7_rearm_keeps_line_high :
    (ticks 1 (bnc0_run 5 5 3 0 1)).ports.BNC_SIG1_O = true ∧
    (app_write_REG_BNCS_STATE 1
      (configure_bnc0 5 5 3 2 (ticks 1 (bnc0_run 5 5 3 0 1)))).2.ports.BNC_SIG1_O = true ∧
    (app_write_REG_BNCS_STATE 1 (configure_bnc0 5 5 3 2 power_on)).2.ports.BNC_SIG1_O = false ∧
    (ticks 2 (app_write_REG_BNCS_STATE 1
      (configure_bnc0 5 5 3 2 (ticks 1 (bnc0_run 5 5 3 0 1)))).2).ports.BNC_SIG1_O = true ∧
    (ticks 2 (app_write_REG_BNCS_STATE 1
      (configure_bnc0 5 5 3 2 power_on)).2).ports.BNC_SIG1_O = false ∧
    (app_write_REG_BNCS_STATE 1
      (configure_bnc0 5 5 3 2 (ticks 1 (bnc0_run 5 5 3 0 1)))).2.pulse_countdown =
      (app_write_REG_BNCS_STATE 1 (configure_bnc0 5 5 3 2 power_on)).2.pulse_countdown ∧
    (app_write_REG_BNCS_STATE 1
      (configure_bnc0 5 5 3 2 (ticks 1 (bnc0_run 5 5 3 0 1)))).2.s_bnc_0 =
      (app_write_REG_BNCS_STATE 1 (configure_bnc0 5 5 3 2 power_on)).2.s_bnc_0 := by
  decide

/-- C8 (as stated) fails: BNC1 is two ticks into an unlimited run (bit set,
line high) when the host writes 1 to REG_BNCS_STATE to start BNC0; the same
call deasserts BNC_SIG2_O and clears bit B_BNC1. Writing 3 instead keeps the
bit but reloads the counters of BNC1. -/
theorem c8_bncs_write_counterexample :
    (view Channel.bnc1 (ticks 2 (app_write_REG_BNCS_STATE 2
      (configure_bnc1 5 5 0 0 power_on)).2)).active = true ∧
    (view Channel.bnc1 (ticks 2 (app_write_REG_BNCS_STATE 2
      (configure_bnc1 5 5 0 0 power_on)).2)).out = true ∧
    (view Channel.bnc1 (app_write_REG_BNCS_STATE 1 (ticks 2 (app_write_REG_BNCS_STATE 2
      (configure_bnc1 5 5 0 0 power_on)).2)).2).active = false ∧
    (view Channel.bnc1 (app_write_REG_BNCS_STATE 1 (ticks 2 (app_write_REG_BNCS_STATE 2
      (configure_bnc1 5 5 0 0 power_on)).2)).2).out = false ∧
    (view Channel.bnc1 (ticks 2 (app_write_REG_BNCS_STATE 2
      (configure_bnc1 5 5 0 0 power_on)).2)).t = 4 ∧
    (view Channel.bnc1 (app_write_REG_BNCS_STATE 3 (ticks 2 (app_write_REG_BNCS_STATE 2
      (configure_bnc1 5 5 0 0 power_on)).2)).2).t = 5 := by
  decide

/-- C8 (amended): every call of app_write_REG_BNCS_STATE acts on both BNC
channels. The half of the handler for one channel leaves the counters,
descriptor, line and active bit of the other unchanged, and what the whole
call does to a channel depends only on that channel's bit of the written byte
and on that channel's own objects: bit set, the channel is started afresh from
its configuration registers; bit clear, its line is deasserted and its active
bit cleared, counters and descriptor kept. -/
theorem c8_bncs_write_per_bit (reg : Nat) (s : Device) :
    view Channel.bnc1 (write_bncs_bnc0 reg s) = view Channel.bnc1 s ∧
    view Channel.bnc0 (write_bncs_bnc1 reg s) = view Channel.bnc0 s ∧
    view Channel.bnc0 (app_write_REG_BNCS_STATE reg s).2 =
      (if reg &&& B_BNC0 ≠ 0 then chan_start (view Channel.bnc0 s)
        else chan_stop (view Channel.bnc0 s)) ∧
    view Channel.bnc1 (app_write_REG_BNCS_STATE reg s).2 =
      (if reg &&& B_BNC1 ≠ 0 then chan_start (view Channel.bnc1 s)
        else chan_stop (view Channel.bnc1 s)) :=
  ⟨view_bnc1_write_bncs_bnc0 reg s, view_bnc0_write_bncs_bnc1 reg s,
    view_write_bncs Channel.bnc0 (Or.inl rfl) reg s,
    view_write_bncs Channel.bnc1 (Or.inr rfl) reg s⟩

/-! ## Independence of the channels (C9) -/

/-- A block of the tick callback leaves the objects of every other channel
unchanged. -/
theorem view_tick_block_other (x y : Channel) (h : x ≠ y) (s : Device) :
    view y (tick_block x s) = view y s := by
  cases x <;> cases y <;>
    first
    | exact absurd rfl h
    | exact view_bnc1_tick_bnc0 s
    | exact view_signal_a_tick_bnc0 s
    | exact view_signal_b_tick_bnc0 s
    | exact view_bnc0_tick_bnc1 s
    | exact view_signal_a_tick_bnc1 s
    | exact view_signal_b_tick_bnc1 s
    | exact view_bnc0_tick_signal_a s
    | exact view_bnc1_tick_signal_a s
    | exact view_signal_b_tick_signal_a s
    | exact view_bnc0_tick_signal_b s
    | exact view_bnc1_tick_signal_b s
    | exact view_signal_a_tick_signal_b s

/-- A block of the tick callback acts on its own channel as chan_tick. -/
theorem view_tick_block_own (x : Channel) (s : Device) :
    view x (tick_block x s) = chan_tick (view x s) := by
  cases x
  · exact view_bnc0_tick_bnc0 s
  · exact view_bnc1_tick_bnc1 s
  · exact view_signal_a_tick_signal_a s
  · exact view_signal_b_tick_signal_b s

/-- C9: a start or stop of BNC0 through REG_BNCS_STATE and the BNC0 block of
the tick leave the counters, descriptor, line and active bit of Signal A
unchanged; a write of REG_SIGNAL_STATE and the Signal A block of the tick leave
those of BNC0 unchanged; and each of the four blocks of the tick leaves the
objects of the three other channels unchanged while its effect on its own
channel is a function of that channel's objects alone; hence after any number
of whole ticks the objects of a channel are a function of what they were
before, whatever the other channels do. -/
theorem c9_channels_independent (reg : Nat) (s : Device) :
    view Channel.signal_a (app_write_REG_BNCS_STATE reg s).2 = view Channel.signal_a s ∧
    view Channel.signal_a (tick_bnc0 s) = view Channel.signal_a s ∧
    view Channel.bnc0 (app_write_REG_SIGNAL_STATE reg s).2 = view Channel.bnc0 s ∧
    view Channel.bnc0 (tick_signal_a s) = view Channel.bnc0 s ∧
    (∀ x y, x ≠ y → view y (tick_block x s) = view y s) ∧
    (∀ x, view x (tick_block x s) = chan_tick (view x s)) ∧
    core_callback_t_500us s =
      tick_block Channel.signal_b (tick_block Channel.signal_a
        (tick_block Channel.bnc1 (tick_block Channel.bnc0 s))) ∧
    (∀ x n, view x (ticks n s) = chan_ticks n (view x s)) :=
  ⟨view_write_bncs_signal Channel.signal_a (Or.inl rfl) reg s, view_signal_a_tick_bnc0 s,
    view_bnc0_put_REG_SIGNAL_STATE reg s, view_bnc0_tick_signal_a s,
    fun x y h => view_tick_block_other x y h s, fun x => view_tick_block_own x s, rfl,
    fun x n => view_ticks x n s⟩

/-! ## Completion (C10) -/

/-- C10 (as stated) fails for on = 1, off = 1, pulses = 1, tail = 0 on BNC0:
the third tick clears bit B_BNC0 of REG_BNCS_STATE, and the event log is as
empty after it as before: no completion event is sent. -/
theorem c10_completion_counterexample :
    (ticks 2 (bnc0_run 1 1 1 0 1)).app_regs.REG_BNCS_STATE &&& B_BNC0 ≠ 0 ∧
    (ticks 3 (bnc0_run 1 1 1 0 1)).app_regs.REG_BNCS_STATE &&& B_BNC0 = 0 ∧
    (ticks 2 (bnc0_run 1 1 1 0 1)).events = [] ∧
    (ticks 3 (bnc0_run 1 1 1 0 1)).events = [] := by
  decide

/-- C10 (amended): when a finite run of BNC0 or BNC1 (N, A, B in [1, 65535],
T in [0, 65534]) exhausts its pulse budget, exactly one tick of the run clears
the active bit, tick T + 1 + N * (A + B); neither that tick nor any other, nor
the start itself, calls the event-send hook: the event log after any number of
ticks is the log from before the start. Completion shows in the cleared bit
of REG_BNCS_STATE only. -/
theorem c10_completion_silent (ch : Channel) (hch : ch = Channel.bnc0 ∨ ch = Channel.bnc1)
    (s : Device) (reg A B N T : Nat) (hreg : reg &&& state_bit ch ≠ 0)
    (hcfg : (view ch s).cfg = ⟨A, B, N, T⟩)
    (hA : 1 ≤ A) (hA2 : A ≤ 65535) (_hB : 1 ≤ B) (hB2 : B ≤ 65535)
    (hN : 1 ≤ N) (hN2 : N ≤ 65535) (hT : T ≤ 65534) :
    (∀ k, ((view ch (ticks k (app_write_REG_BNCS_STATE reg s).2)).active = true ∧
        (view ch (ticks (k + 1) (app_write_REG_BNCS_STATE reg s).2)).active = false) ↔
      k = T + N * (A + B)) ∧
    (∀ k, (ticks k (app_write_REG_BNCS_STATE reg s).2).events = s.events) ∧
    ∀ d, (core_callback_t_500us d).events = d.events := by
  have key := fun k => finite_trace_active (view ch s) A B N T hcfg hA hA2 hB2 hN hN2 hT k
  refine ⟨fun k => ?_, fun k => ?_, events_tick⟩
  · rw [view_start_ticks ch hch reg hreg, view_start_ticks ch hch reg hreg]
    have h1 := key k
    have h2 := key (k + 1)
    constructor
    · rintro ⟨a, b⟩
      have a' := h1.1 a
      have b' : ¬ k + 1 < T + 1 + N * (A + B) := fun h => by
        rw [h2.2 h] at b; cases b
      omega
    · intro h
      refine ⟨h1.2 (by omega), ?_⟩
      have b' : ¬ k + 1 < T + 1 + N * (A + B) := by omega
      have : ¬ (chan_ticks (k + 1) (chan_start (view ch s))).active = true := fun h' => b' (h2.1 h')
      simpa using this
  · rw [events_ticks, events_write_bncs]

theorem c10_completion_silent_witness :
    1 &&& state_bit Channel.bnc0 ≠ 0 ∧
    (∀ k, ((view Channel.bnc0 (ticks k (app_write_REG_BNCS_STATE 1
          (configure_bnc0 2 1 2 1 power_on)).2)).active = true ∧
        (view Channel.bnc0 (ticks (k + 1) (app_write_REG_BNCS_STATE 1
          (configure_bnc0 2 1 2 1 power_on)).2)).active = false) ↔
      k = 1 + 2 * (2 + 1)) ∧
    (∀ k, (ticks k (app_write_REG_BNCS_STATE 1
      (configure_bnc0 2 1 2 1 power_on)).2).events = (configure_bnc0 2 1 2 1 power_on).events) ∧
    ∀ d, (core_callback_t_500us d).events = d.events :=
  ⟨by decide, c10_completion_silent Channel.bnc0 (Or.inl rfl) (configure_bnc0 2 1 2 1 power_on)
    1 2 1 2 1 (by decide) rfl (by decide) (by decide) (by decide) (by decide) (by decide)
    (by decide) (by decide)⟩

/-! ## Inactive channels and repeated stops (C11, C12) -/

theorem tick_bnc0_inactive (s : Device) (h : (view Channel.bnc0 s).active = false) :
    tick_bnc0 s = s := by
  have h1 : ¬ s.app_regs.REG_BNCS_STATE &&& B_BNC0 ≠ 0 := of_decide_eq_false h
  unfold tick_bnc0
  rw [if_neg h1]

theorem tick_bnc1_inactive (s : Device) (h : (view Channel.bnc1 s).active = false) :
    tick_bnc1 s = s := by
  have h1 : ¬ s.app_regs.REG_BNCS_STATE &&& B_BNC1 ≠ 0 := of_decide_eq_false h
  unfold tick_bnc1
  rw [if_neg h1]

theorem tick_signal_a_inactive (s : Device) (h : (view Channel.signal_a s).active = false) :
    tick_signal_a s = s := by
  have h1 : ¬ s.app_regs.REG_SIGNAL_STATE &&& B_SIGNAL_A ≠ 0 := of_decide_eq_false h
  unfold tick_signal_a
  rw [if_neg h1]

theorem tick_signal_b_inactive (s : Device) (h : (view Channel.signal_b s).active = false) :
    tick_signal_b s = s := by
  have h1 : ¬ s.app_regs.REG_SIGNAL_STATE &&& B_SIGNAL_B ≠ 0 := of_decide_eq_false h
  unfold tick_signal_b
  rw [if_neg h1]

/-- C11: when the active bit of a channel is clear, core_callback_t_500us
leaves the four countdown counters, the descriptor, the output line and the
active bit of that channel unchanged, whatever the counters hold; when the bits
of all four channels are clear the tick returns the globals unchanged, logs
included. -/
theorem c11_inactive_tick_noop (ch : Channel) (s : Device)
    (h : (view ch s).active = false) :
    view ch (core_callback_t_500us s) = view ch s ∧
      ((∀ x, (view x s).active = false) → core_callback_t_500us s = s) := by
  constructor
  · rw [view_tick]
    exact chan_tick_idle _ h
  · intro hall
    unfold core_callback_t_500us
    rw [tick_bnc0_inactive s (hall Channel.bnc0), tick_bnc1_inactive s (hall Channel.bnc1),
      tick_signal_a_inactive s (hall Channel.signal_a),
      tick_signal_b_inactive s (hall Channel.signal_b)]

theorem c11_inactive_tick_noop_witness :
    (view Channel.signal_b (configure_bnc0 3 4 5 6 power_on)).active = false ∧
    (∀ x, (view x (configure_bnc0 3 4 5 6 power_on)).active = false) ∧
    view Channel.signal_b (core_callback_t_500us (configure_bnc0 3 4 5 6 power_on)) =
      view Channel.signal_b (configure_bnc0 3 4 5 6 power_on) ∧
    ((∀ x, (view x (configure_bnc0 3 4 5 6 power_on)).active = false) →
      core_callback_t_500us (configure_bnc0 3 4 5 6 power_on) =
        configure_bnc0 3 4 5 6 power_on) :=
  ⟨by decide, fun x => by cases x <;> decide,
    c11_inactive_tick_noop Channel.signal_b (configure_bnc0 3 4 5 6 power_on) (by decide)⟩

/-- C12: for BNC0 or BNC1 already idle (active bit clear, line deasserted), a
write of REG_BNCS_STATE with the channel's bit clear leaves the line, the four
counters, the descriptor and the active bit of the channel as they were; and
from any state a second such write changes none of them after the first. -/
theorem c12_stop_idempotent (ch : Channel) (hch : ch = Channel.bnc0 ∨ ch = Channel.bnc1)
    (s : Device) (reg reg2 : Nat) (hreg : reg &&& state_bit ch = 0)
    (hreg2 : reg2 &&& state_bit ch = 0)
    (hact : (view ch s).active = false) (hout : (view ch s).out = false) :
    view ch (app_write_REG_BNCS_STATE reg s).2 = view ch s ∧
      ∀ d, view ch (app_write_REG_BNCS_STATE reg2 (app_write_REG_BNCS_STATE reg d).2).2 =
        view ch (app_write_REG_BNCS_STATE reg d).2 := by
  constructor
  · rw [view_stop ch hch reg hreg]
    rcases hv : view ch s with ⟨act, tail, per, t, cnt, out, cfg, d⟩
    rw [hv] at hact hout
    simp only at hact hout
    subst hact hout
    rfl
  · intro d
    rw [view_stop ch hch reg2 hreg2, view_stop ch hch reg hreg]
    rfl

theorem c12_stop_idempotent_witness :
    (view Channel.bnc0 (ticks 3 (bnc0_run 1 1 1 0 1))).active = false ∧
    (view Channel.bnc0 (ticks 3 (bnc0_run 1 1 1 0 1))).out = false ∧
    view Channel.bnc0 (app_write_REG_BNCS_STATE 2 (ticks 3 (bnc0_run 1 1 1 0 1))).2 =
      view Channel.bnc0 (ticks 3 (bnc0_run 1 1 1 0 1)) ∧
    ∀ d, view Channel.bnc0
        (app_write_REG_BNCS_STATE 0 (app_write_REG_BNCS_STATE 2 d).2).2 =
      view Channel.bnc0 (app_write_REG_BNCS_STATE 2 d).2 :=
  ⟨by decide, by decide,
    c12_stop_idempotent Channel.bnc0 (Or.inl rfl) (ticks 3 (bnc0_run 1 1 1 0 1)) 2 0
      (by decide) (by decide) (by decide) (by decide)⟩

/-! ## The one-tick pulse and the reset at start (C14, C16) -/

/-- C14 (as stated) fails: with on = 1, off = 1, pulses = 1, tail = 0 on BNC0
the line BNC_SIG1_O is still high and bit B_BNC0 still set after the first
call of core_callback_t_500us. -/
theorem c14_one_tick_pulse_counterexample :
    (bnc0_run 1 1 1 0 1).ports.BNC_SIG1_O = true ∧
    (ticks 1 (bnc0_run 1 1 1 0 1)).ports.BNC_SIG1_O = true ∧
    (ticks 1 (bnc0_run 1 1 1 0 1)).app_regs.REG_BNCS_STATE &&& B_BNC0 ≠ 0 := by
  decide

/-- C14 (amended): for on = 1, off = 1, pulses = 1, tail = 0 on BNC0 started
from a deasserted line: the line is asserted at arming, is still asserted
after the first tick (which only brings the tail counter from 1 to 0), is
deasserted by the second tick, and the active bit is set after the first and
second ticks and clear after the third. -/
theorem c14_one_tick_pulse (s : Device) (reg : Nat) (hreg : reg &&& B_BNC0 ≠ 0)
    (hcfg : (view Channel.bnc0 s).cfg = ⟨1, 1, 1, 0⟩) (hidle : s.ports.BNC_SIG1_O = false) :
    (app_write_REG_BNCS_STATE reg s).2.ports.BNC_SIG1_O = true ∧
    (ticks 1 (app_write_REG_BNCS_STATE reg s).2).ports.BNC_SIG1_O = true ∧
    (ticks 2 (app_write_REG_BNCS_STATE reg s).2).ports.BNC_SIG1_O = false ∧
    (view Channel.bnc0 (ticks 1 (app_write_REG_BNCS_STATE reg s).2)).active = true ∧
    (view Channel.bnc0 (ticks 2 (app_write_REG_BNCS_STATE reg s).2)).active = true ∧
    (view Channel.bnc0 (ticks 3 (app_write_REG_BNCS_STATE reg s).2)).active = false := by
  have hidle2 : (view Channel.bnc0 s).out = false := hidle
  have ho := fun k => finite_trace_out (view Channel.bnc0 s) 1 1 1 0 hcfg hidle2
    (le_refl _) (by omega) (by omega) (le_refl _) (by omega) (by omega) k
  have ha := fun k => finite_trace_active (view Channel.bnc0 s) 1 1 1 0 hcfg
    (le_refl _) (by omega) (by omega) (le_refl _) (by omega) (by omega) k
  have hv := fun k => view_start_ticks Channel.bnc0 (Or.inl rfl) reg hreg s k
  have o0 : (view Channel.bnc0 (ticks 0 (app_write_REG_BNCS_STATE reg s).2)).out = true := by
    rw [hv 0]; exact (ho 0).2 (Or.inl ⟨rfl, rfl⟩)
  have o1 : (view Channel.bnc0 (ticks 1 (app_write_REG_BNCS_STATE reg s).2)).out = true := by
    rw [hv 1]; exact (ho 1).2 (Or.inr ⟨0, by omega, by omega, by omega⟩)
  have o2 : (view Channel.bnc0 (ticks 2 (app_write_REG_BNCS_STATE reg s).2)).out = false := by
    rw [hv 2]
    cases h : (chan_ticks 2 (chan_start (view Channel.bnc0 s))).out
    · rfl
    · rcases (ho 2).1 h with ⟨_, h0⟩ | ⟨j, h1, h2, h3⟩ <;> omega
  have a3 : (view Channel.bnc0 (ticks 3 (app_write_REG_BNCS_STATE reg s).2)).active = false := by
    rw [hv 3]
    cases h : (chan_ticks 3 (chan_start (view Channel.bnc0 s))).active
    · rfl
    · have := (ha 3).1 h; omega
  refine ⟨o0, o1, o2, ?_, ?_, a3⟩
  · rw [hv 1]; exact (ha 1).2 (by omega)
  · rw [hv 2]; exact (ha 2).2 (by omega)

theorem c14_one_tick_pulse_witness :
    (app_write_REG_BNCS_STATE 3 (configure_bnc0 1 1 1 0 power_on)).2.ports.BNC_SIG1_O = true ∧
    (ticks 1
      (app_write_REG_BNCS_STATE 3 (configure_bnc0 1 1 1 0 power_on)).2).ports.BNC_SIG1_O = true ∧
    (ticks 2
      (app_write_REG_BNCS_STATE 3 (configure_bnc0 1 1 1 0 power_on)).2).ports.BNC_SIG1_O = false ∧
    (view Channel.bnc0 (ticks 1
      (app_write_REG_BNCS_STATE 3 (configure_bnc0 1 1 1 0 power_on)).2)).active = true ∧
    (view Channel.bnc0 (ticks 2
      (app_write_REG_BNCS_STATE 3 (configure_bnc0 1 1 1 0 power_on)).2)).active = true ∧
    (view Channel.bnc0 (ticks 3
      (app_write_REG_BNCS_STATE 3 (configure_bnc0 1 1 1 0 power_on)).2)).active = false :=
  c14_one_tick_pulse (configure_bnc0 1 1 1 0 power_on) 3 (by decide) rfl rfl

/-- C16: after app_write_REG_BNCS_STATE with B_BNC0 set, the descriptor of
BNC0 is (REG_BNC0_ON, REG_BNC0_OFF, REG_BNC0_PULSES, REG_BNC0_TAIL), its phase
counter is ON, its period counter (ON + OFF) mod 2^16, its pulses counter
(PULSES + 1) mod 2^16, its tail counter (TAIL + 1) mod 2^16 and its active bit
is set, the four registers being the same before and after the call: nothing
of the earlier descriptor, counters or bit enters the result. -/
theorem c16_start_resets (s : Device) (reg : Nat) (hreg : reg &&& B_BNC0 ≠ 0) :
    (app_write_REG_BNCS_STATE reg s).2.s_bnc_0 =
      ⟨s.app_regs.REG_BNC0_ON, s.app_regs.REG_BNC0_OFF, s.app_regs.REG_BNC0_PULSES,
        s.app_regs.REG_BNC0_TAIL⟩ ∧
    (app_write_REG_BNCS_STATE reg s).2.pulse_countdown.t_bnc0 = s.app_regs.REG_BNC0_ON ∧
    (app_write_REG_BNCS_STATE reg s).2.pulse_countdown.period_bnc0 =
      (s.app_regs.REG_BNC0_ON + s.app_regs.REG_BNC0_OFF) % 2 ^ 16 ∧
    (app_write_REG_BNCS_STATE reg s).2.pulse_countdown.count_pulses_bnc0 =
      (s.app_regs.REG_BNC0_PULSES + 1) % 2 ^ 16 ∧
    (app_write_REG_BNCS_STATE reg s).2.pulse_countdown.tail_bnc0 =
      (s.app_regs.REG_BNC0_TAIL + 1) % 2 ^ 16 ∧
    (app_write_REG_BNCS_STATE reg s).2.app_regs.REG_BNCS_STATE &&& B_BNC0 ≠ 0 ∧
    (view Channel.bnc0 (app_write_REG_BNCS_STATE reg s).2).cfg = (view Channel.bnc0 s).cfg := by
  have h := view_write_bncs Channel.bnc0 (Or.inl rfl) reg s
  rw [if_pos (show reg &&& state_bit Channel.bnc0 ≠ 0 from hreg)] at h
  have hd := congrArg Chan.desc h
  have ht := congrArg Chan.t h
  have hp := congrArg Chan.period h
  have hc := congrArg Chan.count_pulses h
  have hl := congrArg Chan.tail h
  have hcfg := congrArg Chan.cfg h
  exact ⟨hd, ht, hp, hc, hl, hreg, hcfg⟩

theorem c16_start_resets_witness :
    (app_write_REG_BNCS_STATE 1
      (configure_bnc0 7 8 9 10 (ticks 2 (bnc0_run 2 1 2 1 1)))).2.s_bnc_0 = ⟨7, 8, 9, 10⟩ ∧
    (app_write_REG_BNCS_STATE 1
      (configure_bnc0 7 8 9 10 (ticks 2 (bnc0_run 2 1 2 1 1)))).2.pulse_countdown.tail_bnc0 =
      11 :=
  have h := c16_start_resets (configure_bnc0 7 8 9 10 (ticks 2 (bnc0_run 2 1 2 1 1))) 1
    (by decide)
  ⟨h.1, h.2.2.2.2.1⟩

/-! ## Units of the duration registers (C17) -/

set_option maxRecDepth 8192 in
/-- C17 (as stated) fails: with REG_BNC0_ON = 2, REG_BNC0_OFF = 3, two pulses
and TAIL = 1, the line BNC_SIG1_O sampled after arming and after each of the
first ten calls of core_callback_t_500us is high after calls 2-3 and 7-8 only:
an on-window spans 2 = ON calls of the callback and the off-time 3 = OFF
calls, not 2 * ON = 4 and 2 * OFF = 6 calls. -/
theorem c17_window_calls_counterexample :
    (List.range 11).map (fun k => (ticks k (bnc0_run 2 3 2 1 1)).ports.BNC_SIG1_O) =
      [false, false, true, true, false, false, false, true, true, false, false] := by
  decide

/-- C17 (amended): BNC0 armed from a low line with ON = A in [1, 65535],
OFF = B in [0, 65535], PULSES = N in [1, 65535] and TAIL = T in [0, 65534].
In period j < N, which begins with call T + 1 + j * (A + B) of
core_callback_t_500us, the line BNC_SIG1_O is high after each of the first A
calls and low after each of the next B calls: an on-window spans exactly A
calls of the callback and an off-time exactly B calls. -/
theorem c17_window_spans_on_calls (s : Device) (reg A B N T : Nat)
    (hreg : reg &&& B_BNC0 ≠ 0)
    (hcfg : (view Channel.bnc0 s).cfg = ⟨A, B, N, T⟩) (hidle : s.ports.BNC_SIG1_O = false)
    (hA : 1 ≤ A) (hA2 : A ≤ 65535) (hB : B ≤ 65535) (hN : 1 ≤ N) (hN2 : N ≤ 65535)
    (hT : T ≤ 65534) (j : Nat) (hj : j < N) (i : Nat) (hi : i < A + B) :
    (ticks (T + 1 + j * (A + B) + i) (app_write_REG_BNCS_STATE reg s).2).ports.BNC_SIG1_O =
      true ↔ i < A := by
  have hv := view_start_ticks Channel.bnc0 (Or.inl rfl) reg hreg s (T + 1 + j * (A + B) + i)
  have ho := finite_trace_out (view Channel.bnc0 s) A B N T hcfg hidle hA hA2 hB hN hN2 hT
    (T + 1 + j * (A + B) + i)
  rw [← hv] at ho
  have ho2 : (ticks (T + 1 + j * (A + B) + i)
      (app_write_REG_BNCS_STATE reg s).2).ports.BNC_SIG1_O = true ↔
      (T = 0 ∧ T + 1 + j * (A + B) + i = 0) ∨
        ∃ j', j' < N ∧ T + 1 + j' * (A + B) ≤ T + 1 + j * (A + B) + i ∧
          T + 1 + j * (A + B) + i < T + 1 + j' * (A + B) + A := ho
  have hw := window_iff A B N (j * (A + B) + i) hA
  have hmod : (j * (A + B) + i) % (A + B) = i := by
    rw [Nat.add_comm, Nat.add_mul_mod_self_right, Nat.mod_eq_of_lt hi]
  have hlt : j * (A + B) + i < N * (A + B) := by
    have h1 : (j + 1) * (A + B) ≤ N * (A + B) := Nat.mul_le_mul_right _ hj
    rw [Nat.add_mul, Nat.one_mul] at h1
    omega
  rw [ho2]
  constructor
  · rintro (⟨_, h0⟩ | ⟨j', hj', h1, h2⟩)
    · omega
    · have h3 := (hw.mpr ⟨j', hj', by omega, by omega⟩).2
      rw [hmod] at h3
      exact h3
  · intro h
    obtain ⟨j', hj', h1, h2⟩ := hw.mp ⟨hlt, by rw [hmod]; exact h⟩
    exact Or.inr ⟨j', hj', by omega, by omega⟩

theorem c17_window_spans_on_calls_witness :
    ((ticks (1 + 1 + 1 * (2 + 3) + 1)
      (app_write_REG_BNCS_STATE 1 (configure_bnc0 2 3 2 1 power_on)).2).ports.BNC_SIG1_O =
        true ↔ 1 < 2) ∧
    ((ticks (1 + 1 + 1 * (2 + 3) + 2)
      (app_write_REG_BNCS_STATE 1 (configure_bnc0 2 3 2 1 power_on)).2).ports.BNC_SIG1_O =
        true ↔ 2 < 2) :=
  ⟨c17_window_spans_on_calls (configure_bnc0 2 3 2 1 power_on) 1 2 3 2 1 (by decide) rfl rfl
      (by decide) (by decide) (by decide) (by decide) (by decide) (by decide) 1 (by decide) 1
      (by decide),
    c17_window_spans_on_calls (configure_bnc0 2 3 2 1 power_on) 1 2 3 2 1 (by decide) rfl rfl
      (by decide) (by decide) (by decide) (by decide) (by decide) (by decide) 1 (by decide) 2
      (by decide)⟩

/-! ## Tail delay 65535 (C20) -/

/-- C20 (code defect): with REG_BNC0_TAIL = 65535 (ON = 2, OFF = 1, two
pulses) the start stores (65535 + 1) mod 2^16 = 0 in the tail counter, so the
channel is not waiting: the first tick leaves the tail counter at 0 and
decrements the period counter from 3 to 2 and the phase counter from 2 to 1,
with the line still low. With TAIL = 65534 the first tick decrements the tail
counter only. -/
theorem c20_tail_65535_skips_wait :
    (bnc0_run 2 1 2 65535 1).ports.BNC_SIG1_O = false ∧
    (bnc0_run 2 1 2 65535 1).pulse_countdown.tail_bnc0 = 0 ∧
    (bnc0_run 2 1 2 65535 1).pulse_countdown.period_bnc0 = 3 ∧
    (bnc0_run 2 1 2 65535 1).pulse_countdown.t_bnc0 = 2 ∧
    (ticks 1 (bnc0_run 2 1 2 65535 1)).pulse_countdown.tail_bnc0 = 0 ∧
    (ticks 1 (bnc0_run 2 1 2 65535 1)).pulse_countdown.period_bnc0 = 2 ∧
    (ticks 1 (bnc0_run 2 1 2 65535 1)).pulse_countdown.t_bnc0 = 1 ∧
    (ticks 1 (bnc0_run 2 1 2 65535 1)).ports.BNC_SIG1_O = false ∧
    (bnc0_run 2 1 2 65534 1).pulse_countdown.tail_bnc0 = 65535 ∧
    (ticks 1 (bnc0_run 2 1 2 65534 1)).pulse_countdown.tail_bnc0 = 65534 ∧
    (ticks 1 (bnc0_run 2 1 2 65534 1)).pulse_countdown.period_bnc0 = 3 ∧
    (ticks 1 (bnc0_run 2 1 2 65534 1)).pulse_countdown.t_bnc0 = 2 := by
  decide

/-! ## Laser frequency select (C18) -/

/-- C18 (code defect): the handler lets through the values 0, 1, 2, 4 and 8
only, and B_CW is bit 3. A write of 7 to REG_LASER_FREQUENCY_SELECT is
accepted (the handler returns true) and changes nothing: from power-on the
lines F1, F2 and F3 stay low and the register stays 0. It is a write of 8 that
sets the three lines and stores the continuous-wave selection. -/
theorem c18_write_7_selects_nothing :
    (∀ s, app_write_REG_LASER_FREQUENCY_SELECT 7 s = (true, s)) ∧
    (app_write_REG_LASER_FREQUENCY_SELECT 7 power_on).2.ports.F1 = false ∧
    (app_write_REG_LASER_FREQUENCY_SELECT 7 power_on).2.ports.F2 = false ∧
    (app_write_REG_LASER_FREQUENCY_SELECT 7 power_on).2.ports.F3 = false ∧
    (app_write_REG_LASER_FREQUENCY_SELECT 7 power_on).2.app_regs.REG_LASER_FREQUENCY_SELECT = 0 ∧
    (app_write_REG_LASER_FREQUENCY_SELECT 8 power_on).2.ports.F1 = true ∧
    (app_write_REG_LASER_FREQUENCY_SELECT 8 power_on).2.ports.F2 = true ∧
    (app_write_REG_LASER_FREQUENCY_SELECT 8 power_on).2.ports.F3 = true ∧
    (app_write_REG_LASER_FREQUENCY_SELECT 8 power_on).2.app_regs.REG_LASER_FREQUENCY_SELECT =
      B_CW ∧
    B_CW = 8 := by
  refine ⟨fun s => ?_, by decide, by decide, by decide, by decide, by decide, by decide,
    by decide, by decide, rfl⟩
  unfold app_write_REG_LASER_FREQUENCY_SELECT
  rw [if_neg (by decide)]

/-! ## The register entry points of the host (C19) -/

theorem app_regs_type_length (a b : Nat) : (app_regs_type a b).length = 31 := rfl

theorem app_regs_n_elements_length : app_regs_n_elements.length = 31 := rfl

theorem app_func_wr_pointer_length : app_func_wr_pointer.length = 31 := rfl

theorem app_func_rd_pointer_length : app_func_rd_pointer.length = 31 := rfl

/-- Every write handler of the table returns true. -/
theorem wr_handler_returns_true (i : Nat) (hi : i < 31) (d : Nat → Device → Bool × Device)
    (content : Nat) (s : Device) :
    ((app_func_wr_pointer.getD i d) content s).1 = true := by
  interval_cases i <;> rfl

/-- C19: core_write_app_register returns false exactly when the address is
outside [0x20, 0x3E], or the type differs from app_regs_type[add - 0x20], or
n_elements differs from app_regs_n_elements[add - 0x20]; in that case no
handler runs and the globals are returned unchanged. Otherwise the index
add - 0x20 is inside the 31-entry tables and the result is that of the handler
at this index (app_write_REG_BNCS_STATE for address 44, app_write_REG_SIGNAL_STATE
for 45), which is true. core_read_app_register returns false exactly when the
address is out of range or the type differs, leaving the globals unchanged, and
otherwise runs the read handler at index add - 0x20 and returns true. -/
theorem c19_register_entry_points (U8 U16 add type content n : Nat) (s : Device) :
    ((core_write_app_register U8 U16 add type content n s).1 = false ↔
      (add < 0x20 ∨ add > 0x3E ∨ (app_regs_type U8 U16).getD (add - 0x20) 0 ≠ type ∨
        app_regs_n_elements.getD (add - 0x20) 0 ≠ n)) ∧
    ((add < 0x20 ∨ add > 0x3E ∨ (app_regs_type U8 U16).getD (add - 0x20) 0 ≠ type ∨
        app_regs_n_elements.getD (add - 0x20) 0 ≠ n) →
      core_write_app_register U8 U16 add type content n s = (false, s)) ∧
    (¬ (add < 0x20 ∨ add > 0x3E ∨ (app_regs_type U8 U16).getD (add - 0x20) 0 ≠ type ∨
        app_regs_n_elements.getD (add - 0x20) 0 ≠ n) →
      add - 0x20 < app_func_wr_pointer.length ∧
      core_write_app_register U8 U16 add type content n s =
        (app_func_wr_pointer.getD (add - 0x20) (fun _ d => (false, d))) content s) ∧
    app_func_wr_pointer.getD (ADD_REG_BNCS_STATE - 0x20) (fun _ d => (false, d)) =
      app_write_REG_BNCS_STATE ∧
    app_func_wr_pointer.getD (ADD_REG_SIGNAL_STATE - 0x20) (fun _ d => (false, d)) =
      app_write_REG_SIGNAL_STATE ∧
    ((core_read_app_register U8 U16 add type s).1 = false ↔
      (add < 0x20 ∨ add > 0x3E ∨ (app_regs_type U8 U16).getD (add - 0x20) 0 ≠ type)) ∧
    ((add < 0x20 ∨ add > 0x3E ∨ (app_regs_type U8 U16).getD (add - 0x20) 0 ≠ type) →
      core_read_app_register U8 U16 add type s = (false, s)) ∧
    (¬ (add < 0x20 ∨ add > 0x3E ∨ (app_regs_type U8 U16).getD (add - 0x20) 0 ≠ type) →
      core_read_app_register U8 U16 add type s =
        (true, (app_func_rd_pointer.getD (add - 0x20) (fun d => d)) s)) := by
  have emin : APP_REGS_ADD_MIN = 0x20 := rfl
  have emax : APP_REGS_ADD_MAX = 0x3E := rfl
  have wr : ∀ (h1 : ¬ (add < 0x20 ∨ add > 0x3E))
      (h2 : ¬ (app_regs_type U8 U16).getD (add - 0x20) 0 ≠ type)
      (h3 : ¬ app_regs_n_elements.getD (add - 0x20) 0 ≠ n),
      core_write_app_register U8 U16 add type content n s =
        (app_func_wr_pointer.getD (add - 0x20) (fun _ d => (false, d))) content s := by
    intro h1 h2 h3
    unfold core_write_app_register
    rw [emin, emax, if_neg h1, if_neg h2, if_neg h3]
  have wf : (add < 0x20 ∨ add > 0x3E ∨ (app_regs_type U8 U16).getD (add - 0x20) 0 ≠ type ∨
        app_regs_n_elements.getD (add - 0x20) 0 ≠ n) →
      core_write_app_register U8 U16 add type content n s = (false, s) := by
    intro h
    unfold core_write_app_register
    rw [emin, emax]
    by_cases h1 : add < 0x20 ∨ add > 0x3E
    · rw [if_pos h1]
    · rw [if_neg h1]
      by_cases h2 : (app_regs_type U8 U16).getD (add - 0x20) 0 ≠ type
      · rw [if_pos h2]
      · rw [if_neg h2]
        by_cases h3 : app_regs_n_elements.getD (add - 0x20) 0 ≠ n
        · rw [if_pos h3]
        · exfalso
          rcases h with h | h | h | h
          · exact h1 (Or.inl h)
          · exact h1 (Or.inr h)
          · exact h2 h
          · exact h3 h
  have wt : ¬ (add < 0x20 ∨ add > 0x3E ∨ (app_regs_type U8 U16).getD (add - 0x20) 0 ≠ type ∨
        app_regs_n_elements.getD (add - 0x20) 0 ≠ n) →
      add - 0x20 < app_func_wr_pointer.length ∧
      core_write_app_register U8 U16 add type content n s =
        (app_func_wr_pointer.getD (add - 0x20) (fun _ d => (false, d))) content s := by
    intro h
    have h1 : ¬ (add < 0x20 ∨ add > 0x3E) := fun h' =>
      h (h'.elim Or.inl (fun x => Or.inr (Or.inl x)))
    have h2 : ¬ (app_regs_type U8 U16).getD (add - 0x20) 0 ≠ type := fun h' =>
      h (Or.inr (Or.inr (Or.inl h')))
    have h3 : ¬ app_regs_n_elements.getD (add - 0x20) 0 ≠ n := fun h' =>
      h (Or.inr (Or.inr (Or.inr h')))
    refine ⟨?_, wr h1 h2 h3⟩
    rw [app_func_wr_pointer_length]
    omega
  have rf : (add < 0x20 ∨ add > 0x3E ∨ (app_regs_type U8 U16).getD (add - 0x20) 0 ≠ type) →
      core_read_app_register U8 U16 add type s = (false, s) := by
    intro h
    unfold core_read_app_register
    rw [emin, emax]
    by_cases h1 : add < 0x20 ∨ add > 0x3E
    · rw [if_pos h1]
    · rw [if_neg h1]
      by_cases h2 : (app_regs_type U8 U16).getD (add - 0x20) 0 ≠ type
      · rw [if_pos h2]
      · exfalso
        rcases h with h | h | h
        · exact h1 (Or.inl h)
        · exact h1 (Or.inr h)
        · exact h2 h
  have rt : ¬ (add < 0x20 ∨ add > 0x3E ∨ (app_regs_type U8 U16).getD (add - 0x20) 0 ≠ type) →
      core_read_app_register U8 U16 add type s =
        (true, (app_func_rd_pointer.getD (add - 0x20) (fun d => d)) s) := by
    intro h
    have h1 : ¬ (add < 0x20 ∨ add > 0x3E) := fun h' =>
      h (h'.elim Or.inl (fun x => Or.inr (Or.inl x)))
    have h2 : ¬ (app_regs_type U8 U16).getD (add - 0x20) 0 ≠ type := fun h' =>
      h (Or.inr (Or.inr h'))
    unfold core_read_app_register
    rw [emin, emax, if_neg h1, if_neg h2]
  refine ⟨⟨fun h => ?_, fun h => ?_⟩, wf, wt, rfl, rfl, ⟨fun h => ?_, fun h => ?_⟩, rf, rt⟩
  · by_contra hv
    obtain ⟨hlen, he⟩ := wt hv
    rw [he, wr_handler_returns_true _ (by rw [app_func_wr_pointer_length] at hlen; exact hlen)] at h
    cases h
  · rw [wf h]
  · by_contra hv
    rw [rt hv] at h
    cases h
  · rw [rf h]

/-! ## Assert events (C13) -/

theorem beq_clr_set (p q : Pin) : (IoCall.clr p == IoCall.set q) = false := by
  rw [beq_eq_false_iff_ne]
  intro h
  cases h

theorem set_calls_bnc0_tick_bnc0 (s : Device) :
    set_calls Channel.bnc0 (tick_bnc0 s) = set_calls Channel.bnc0 s + chan_tick_sets (view Channel.bnc0 s) := by
  rcases s with ⟨⟨r1, r2, r3, r4, r5, r6, r7, r8, r9, r10, r11, r12, r13, r14, r15, r16, r17, r18,
    r19, r20, r21, r22, r23, r24, r25, r26, r27, r28, r29, r30, r31⟩,
    ⟨c1, c2, c3, c4, c5, c6, c7, c8, c9, c10, c11, c12, c13, c14, c15, c16⟩, d0, d1, da, db,
    ⟨p1, p2, p3, p4, p5, p6, p7, p8, p9, p10, p11, p12, p13⟩, io, ev⟩
  simp only [chan_tick_sets, tick_bnc0, put_tail_bnc0, put_period_bnc0, put_t_bnc0,
    put_count_pulses_bnc0, put_REG_BNCS_STATE, set_BNC_SIG1_O, clr_BNC_SIG1_O,
    apply_ite (set_calls Channel.bnc0)]
  simp only [view, set_calls, pin_of, decide_eq_true_eq, List.count_append, List.count_cons,
    List.count_nil, beq_self_eq_true, if_true, Nat.zero_add, beq_clr_set,
    Bool.false_eq_true, if_false, add_ite, Nat.add_zero]

theorem set_calls_bnc1_tick_bnc0 (s : Device) :
    set_calls Channel.bnc1 (tick_bnc0 s) = set_calls Channel.bnc1 s := by
  rcases s with ⟨⟨r1, r2, r3, r4, r5, r6, r7, r8, r9, r10, r11, r12, r13, r14, r15, r16, r17, r18,
    r19, r20, r21, r22, r23, r24, r25, r26, r27, r28, r29, r30, r31⟩,
    ⟨c1, c2, c3, c4, c5, c6, c7, c8, c9, c10, c11, c12, c13, c14, c15, c16⟩, d0, d1, da, db,
    ⟨p1, p2, p3, p4, p5, p6, p7, p8, p9, p10, p11, p12, p13⟩, io, ev⟩
  simp only [tick_bnc0, put_tail_bnc0, put_period_bnc0, put_t_bnc0,
    put_count_pulses_bnc0, put_REG_BNCS_STATE, set_BNC_SIG1_O, clr_BNC_SIG1_O,
    apply_ite (set_calls Channel.bnc1)]
  simp [set_calls, pin_of]

theorem set_calls_signal_a_tick_bnc0 (s : Device) :
    set_calls Channel.signal_a (tick_bnc0 s) = set_calls Channel.signal_a s := by
  rcases s with ⟨⟨r1, r2, r3, r4, r5, r6, r7, r8, r9, r10, r11, r12, r13, r14, r15, r16, r17, r18,
    r19, r20, r21, r22, r23, r24, r25, r26, r27, r28, r29, r30, r31⟩,
    ⟨c1, c2, c3, c4, c5, c6, c7, c8, c9, c10, c11, c12, c13, c14, c15, c16⟩, d0, d1, da, db,
    ⟨p1, p2, p3, p4, p5, p6, p7, p8, p9, p10, p11, p12, p13⟩, io, ev⟩
  simp only [tick_bnc0, put_tail_bnc0, put_period_bnc0, put_t_bnc0,
    put_count_pulses_bnc0, put_REG_BNCS_STATE, set_BNC_SIG1_O, clr_BNC_SIG1_O,
    apply_ite (set_calls Channel.signal_a)]
  simp [set_calls, pin_of]

theorem set_calls_signal_b_tick_bnc0 (s : Device) :
    set_calls Channel.signal_b (tick_bnc0 s) = set_calls Channel.signal_b s := by
  rcases s with ⟨⟨r1, r2, r3, r4, r5, r6, r7, r8, r9, r10, r11, r12, r13, r14, r15, r16, r17, r18,
    r19, r20, r21, r22, r23, r24, r25, r26, r27, r28, r29, r30, r31⟩,
    ⟨c1, c2, c3, c4, c5, c6, c7, c8, c9, c10, c11, c12, c13, c14, c15, c16⟩, d0, d1, da, db,
    ⟨p1, p2, p3, p4, p5, p6, p7, p8, p9, p10, p11, p12, p13⟩, io, ev⟩
  simp only [tick_bnc0, put_tail_bnc0, put_period_bnc0, put_t_bnc0,
    put_count_pulses_bnc0, put_REG_BNCS_STATE, set_BNC_SIG1_O, clr_BNC_SIG1_O,
    apply_ite (set_calls Channel.signal_b)]
  simp [set_calls, pin_of]

theorem set_calls_bnc0_tick_bnc1 (s : Device) :
    set_calls Channel.bnc0 (tick_bnc1 s) = set_calls Channel.bnc0 s := by
  rcases s with ⟨⟨r1, r2, r3, r4, r5, r6, r7, r8, r9, r10, r11, r12, r13, r14, r15, r16, r17, r18,
    r19, r20, r21, r22, r23, r24, r25, r26, r27, r28, r29, r30, r31⟩,
    ⟨c1, c2, c3, c4, c5, c6, c7, c8, c9, c10, c11, c12, c13, c14, c15, c16⟩, d0, d1, da, db,
    ⟨p1, p2, p3, p4, p5, p6, p7, p8, p9, p10, p11, p12, p13⟩, io, ev⟩
  simp only [tick_bnc1, put_tail_bnc1, put_period_bnc1, put_t_bnc1,
    put_count_pulses_bnc1, put_REG_BNCS_STATE, set_BNC_SIG2_O, clr_BNC_SIG2_O,
    apply_ite (set_calls Channel.bnc0)]
  simp [set_calls, pin_of]

theorem set_calls_bnc1_tick_bnc1 (s : Device) :
    set_calls Channel.bnc1 (tick_bnc1 s) = set_calls Channel.bnc1 s + chan_tick_sets (view Channel.bnc1 s) := by
  rcases s with ⟨⟨r1, r2, r3, r4, r5, r6, r7, r8, r9, r10, r11, r12, r13, r14, r15, r16, r17, r18,
    r19, r20, r21, r22, r23, r24, r25, r26, r27, r28, r29, r30, r31⟩,
    ⟨c1, c2, c3, c4, c5, c6, c7, c8, c9, c10, c11, c12, c13, c14, c15, c16⟩, d0, d1, da, db,
    ⟨p1, p2, p3, p4, p5, p6, p7, p8, p9, p10, p11, p12, p13⟩, io, ev⟩
  simp only [chan_tick_sets, tick_bnc1, put_tail_bnc1, put_period_bnc1, put_t_bnc1,
    put_count_pulses_bnc1, put_REG_BNCS_STATE, set_BNC_SIG2_O, clr_BNC_SIG2_O,
    apply_ite (set_calls Channel.bnc1)]
  simp only [view, set_calls, pin_of, decide_eq_true_eq, List.count_append, List.count_cons,
    List.count_nil, beq_self_eq_true, if_true, Nat.zero_add, beq_clr_set,
    Bool.false_eq_true, if_false, add_ite, Nat.add_zero]

theorem set_calls_signal_a_tick_bnc1 (s : Device) :
    set_calls Channel.signal_a (tick_bnc1 s) = set_calls Channel.signal_a s := by
  rcases s with ⟨⟨r1, r2, r3, r4, r5, r6, r7, r8, r9, r10, r11, r12, r13, r14, r15, r16, r17, r18,
    r19, r20, r21, r22, r23, r24, r25, r26, r27, r28, r29, r30, r31⟩,
    ⟨c1, c2, c3, c4, c5, c6, c7, c8, c9, c10, c11, c12, c13, c14, c15, c16⟩, d0, d1, da, db,
    ⟨p1, p2, p3, p4, p5, p6, p7, p8, p9, p10, p11, p12, p13⟩, io, ev⟩
  simp only [tick_bnc1, put_tail_bnc1, put_period_bnc1, put_t_bnc1,
    put_count_pulses_bnc1, put_REG_BNCS_STATE, set_BNC_SIG2_O, clr_BNC_SIG2_O,
    apply_ite (set_calls Channel.signal_a)]
  simp [set_calls, pin_of]

theorem set_calls_signal_b_tick_bnc1 (s : Device) :
    set_calls Channel.signal_b (tick_bnc1 s) = set_calls Channel.signal_b s := by
  rcases s with ⟨⟨r1, r2, r3, r4, r5, r6, r7, r8, r9, r10, r11, r12, r13, r14, r15, r16, r17, r18,
    r19, r20, r21, r22, r23, r24, r25, r26, r27, r28, r29, r30, r31⟩,
    ⟨c1, c2, c3, c4, c5, c6, c7, c8, c9, c10, c11, c12, c13, c14, c15, c16⟩, d0, d1, da, db,
    ⟨p1, p2, p3, p4, p5, p6, p7, p8, p9, p10, p11, p12, p13⟩, io, ev⟩
  simp only [tick_bnc1, put_tail_bnc1, put_period_bnc1, put_t_bnc1,
    put_count_pulses_bnc1, put_REG_BNCS_STATE, set_BNC_SIG2_O, clr_BNC_SIG2_O,
    apply_ite (set_calls Channel.signal_b)]
  simp [set_calls, pin_of]

theorem set_calls_bnc0_tick_signal_a (s : Device) :
    set_calls Channel.bnc0 (tick_signal_a s) = set_calls Channel.bnc0 s := by
  rcases s with ⟨⟨r1, r2, r3, r4, r5, r6, r7, r8, r9, r10, r11, r12, r13, r14, r15, r16, r17, r18,
    r19, r20, r21, r22, r23, r24, r25, r26, r27, r28, r29, r30, r31⟩,
    ⟨c1, c2, c3, c4, c5, c6, c7, c8, c9, c10, c11, c12, c13, c14, c15, c16⟩, d0, d1, da, db,
    ⟨p1, p2, p3, p4, p5, p6, p7, p8, p9, p10, p11, p12, p13⟩, io, ev⟩
  simp only [tick_signal_a, put_tail_signal_a, put_period_signal_a, put_t_signal_a,
    put_count_pulses_signal_a, put_REG_SIGNAL_STATE, set_SIGNAL_A_O, clr_SIGNAL_A_O,
    apply_ite (set_calls Channel.bnc0)]
  simp [set_calls, pin_of]

theorem set_calls_bnc1_tick_signal_a (s : Device) :
    set_calls Channel.bnc1 (tick_signal_a s) = set_calls Channel.bnc1 s := by
  rcases s with ⟨⟨r1, r2, r3, r4, r5, r6, r7, r8, r9, r10, r11, r12, r13, r14, r15, r16, r17, r18,
    r19, r20, r21, r22, r23, r24, r25, r26, r27, r28, r29, r30, r31⟩,
    ⟨c1, c2, c3, c4, c5, c6, c7, c8, c9, c10, c11, c12, c13, c14, c15, c16⟩, d0, d1, da, db,
    ⟨p1, p2, p3, p4, p5, p6, p7, p8, p9, p10, p11, p12, p13⟩, io, ev⟩
  simp only [tick_signal_a, put_tail_signal_a, put_period_signal_a, put_t_signal_a,
    put_count_pulses_signal_a, put_REG_SIGNAL_STATE, set_SIGNAL_A_O, clr_SIGNAL_A_O,
    apply_ite (set_calls Channel.bnc1)]
  simp [set_calls, pin_of]

theorem set_calls_signal_a_tick_signal_a (s : Device) :
    set_calls Channel.signal_a (tick_signal_a s) = set_calls Channel.signal_a s + chan_tick_sets (view Channel.signal_a s) := by
  rcases s with ⟨⟨r1, r2, r3, r4, r5, r6, r7, r8, r9, r10, r11, r12, r13, r14, r15, r16, r17, r18,
    r19, r20, r21, r22, r23, r24, r25, r26, r27, r28, r29, r30, r31⟩,
    ⟨c1, c2, c3, c4, c5, c6, c7, c8, c9, c10, c11, c12, c13, c14, c15, c16⟩, d0, d1, da, db,
    ⟨p1, p2, p3, p4, p5, p6, p7, p8, p9, p10, p11, p12, p13⟩, io, ev⟩
  simp only [chan_tick_sets, tick_signal_a, put_tail_signal_a, put_period_signal_a, put_t_signal_a,
    put_count_pulses_signal_a, put_REG_SIGNAL_STATE, set_SIGNAL_A_O, clr_SIGNAL_A_O,
    apply_ite (set_calls Channel.signal_a)]
  simp only [view, set_calls, pin_of, decide_eq_true_eq, List.count_append, List.count_cons,
    List.count_nil, beq_self_eq_true, if_true, Nat.zero_add, beq_clr_set,
    Bool.false_eq_true, if_false, add_ite, Nat.add_zero]

theorem set_calls_signal_b_tick_signal_a (s : Device) :
    set_calls Channel.signal_b (tick_signal_a s) = set_calls Channel.signal_b s := by
  rcases s with ⟨⟨r1, r2, r3, r4, r5, r6, r7, r8, r9, r10, r11, r12, r13, r14, r15, r16, r17, r18,
    r19, r20, r21, r22, r23, r24, r25, r26, r27, r28, r29, r30, r31⟩,
    ⟨c1, c2, c3, c4, c5, c6, c7, c8, c9, c10, c11, c12, c13, c14, c15, c16⟩, d0, d1, da, db,
    ⟨p1, p2, p3, p4, p5, p6, p7, p8, p9, p10, p11, p12, p13⟩, io, ev⟩
  simp only [tick_signal_a, put_tail_signal_a, put_period_signal_a, put_t_signal_a,
    put_count_pulses_signal_a, put_REG_SIGNAL_STATE, set_SIGNAL_A_O, clr_SIGNAL_A_O,
    apply_ite (set_calls Channel.signal_b)]
  simp [set_calls, pin_of]

theorem set_calls_bnc0_tick_signal_b (s : Device) :
    set_calls Channel.bnc0 (tick_signal_b s) = set_calls Channel.bnc0 s := by
  rcases s with ⟨⟨r1, r2, r3, r4, r5, r6, r7, r8, r9, r10, r11, r12, r13, r14, r15, r16, r17, r18,
    r19, r20, r21, r22, r23, r24, r25, r26, r27, r28, r29, r30, r31⟩,
    ⟨c1, c2, c3, c4, c5, c6, c7, c8, c9, c10, c11, c12, c13, c14, c15, c16⟩, d0, d1, da, db,
    ⟨p1, p2, p3, p4, p5, p6, p7, p8, p9, p10, p11, p12, p13⟩, io, ev⟩
  simp only [tick_signal_b, put_tail_signal_b, put_period_signal_b, put_t_signal_b,
    put_count_pulses_signal_b, put_REG_SIGNAL_STATE, set_SIGNAL_B_O, clr_SIGNAL_B_O,
    apply_ite (set_calls Channel.bnc0)]
  simp [set_calls, pin_of]

theorem set_calls_bnc1_tick_signal_b (s : Device) :
    set_calls Channel.bnc1 (tick_signal_b s) = set_calls Channel.bnc1 s := by
  rcases s with ⟨⟨r1, r2, r3, r4, r5, r6, r7, r8, r9, r10, r11, r12, r13, r14, r15, r16, r17, r18,
    r19, r20, r21, r22, r23, r24, r25, r26, r27, r28, r29, r30, r31⟩,
    ⟨c1, c2, c3, c4, c5, c6, c7, c8, c9, c10, c11, c12, c13, c14, c15, c16⟩, d0, d1, da, db,
    ⟨p1, p2, p3, p4, p5, p6, p7, p8, p9, p10, p11, p12, p13⟩, io, ev⟩
  simp only [tick_signal_b, put_tail_signal_b, put_period_signal_b, put_t_signal_b,
    put_count_pulses_signal_b, put_REG_SIGNAL_STATE, set_SIGNAL_B_O, clr_SIGNAL_B_O,
    apply_ite (set_calls Channel.bnc1)]
  simp [set_calls, pin_of]

theorem set_calls_signal_a_tick_signal_b (s : Device) :
    set_calls Channel.signal_a (tick_signal_b s) = set_calls Channel.signal_a s := by
  rcases s with ⟨⟨r1, r2, r3, r4, r5, r6, r7, r8, r9, r10, r11, r12, r13, r14, r15, r16, r17, r18,
    r19, r20, r21, r22, r23, r24, r25, r26, r27, r28, r29, r30, r31⟩,
    ⟨c1, c2, c3, c4, c5, c6, c7, c8, c9, c10, c11, c12, c13, c14, c15, c16⟩, d0, d1, da, db,
    ⟨p1, p2, p3, p4, p5, p6, p7, p8, p9, p10, p11, p12, p13⟩, io, ev⟩
  simp only [tick_signal_b, put_tail_signal_b, put_period_signal_b, put_t_signal_b,
    put_count_pulses_signal_b, put_REG_SIGNAL_STATE, set_SIGNAL_B_O, clr_SIGNAL_B_O,
    apply_ite (set_calls Channel.signal_a)]
  simp [set_calls, pin_of]

theorem set_calls_signal_b_tick_signal_b (s : Device) :
    set_calls Channel.signal_b (tick_signal_b s) = set_calls Channel.signal_b s + chan_tick_sets (view Channel.signal_b s) := by
  rcases s with ⟨⟨r1, r2, r3, r4, r5, r6, r7, r8, r9, r10, r11, r12, r13, r14, r15, r16, r17, r18,
    r19, r20, r21, r22, r23, r24, r25, r26, r27, r28, r29, r30, r31⟩,
    ⟨c1, c2, c3, c4, c5, c6, c7, c8, c9, c10, c11, c12, c13, c14, c15, c16⟩, d0, d1, da, db,
    ⟨p1, p2, p3, p4, p5, p6, p7, p8, p9, p10, p11, p12, p13⟩, io, ev⟩
  simp only [chan_tick_sets, tick_signal_b, put_tail_signal_b, put_period_signal_b, put_t_signal_b,
    put_count_pulses_signal_b, put_REG_SIGNAL_STATE, set_SIGNAL_B_O, clr_SIGNAL_B_O,
    apply_ite (set_calls Channel.signal_b)]
  simp only [view, set_calls, pin_of, decide_eq_true_eq, List.count_append, List.count_cons,
    List.count_nil, beq_self_eq_true, if_true, Nat.zero_add, beq_clr_set,
    Bool.false_eq_true, if_false, add_ite, Nat.add_zero]

theorem set_calls_tick (ch : Channel) (s : Device) :
    set_calls ch (core_callback_t_500us s) = set_calls ch s + chan_tick_sets (view ch s) := by
  unfold core_callback_t_500us
  cases ch
  · rw [set_calls_bnc0_tick_signal_b, set_calls_bnc0_tick_signal_a, set_calls_bnc0_tick_bnc1,
      set_calls_bnc0_tick_bnc0]
  · rw [set_calls_bnc1_tick_signal_b, set_calls_bnc1_tick_signal_a, set_calls_bnc1_tick_bnc1,
      set_calls_bnc1_tick_bnc0, view_bnc1_tick_bnc0]
  · rw [set_calls_signal_a_tick_signal_b, set_calls_signal_a_tick_signal_a,
      set_calls_signal_a_tick_bnc1, set_calls_signal_a_tick_bnc0, view_signal_a_tick_bnc1,
      view_signal_a_tick_bnc0]
  · rw [set_calls_signal_b_tick_signal_b, set_calls_signal_b_tick_signal_a,
      set_calls_signal_b_tick_bnc1, set_calls_signal_b_tick_bnc0, view_signal_b_tick_signal_a,
      view_signal_b_tick_bnc1, view_signal_b_tick_bnc0]

theorem set_calls_ticks (ch : Channel) (n : Nat) (s : Device) :
    set_calls ch (ticks n s) = set_calls ch s + chan_sets n (view ch s) := by
  induction n generalizing s with
  | zero => rfl
  | succ n ih => rw [ticks, ih, set_calls_tick, view_tick, chan_sets, Nat.add_assoc]

theorem set_calls_write_bncs (ch : Channel) (hch : ch = Channel.bnc0 ∨ ch = Channel.bnc1)
    (reg : Nat) (s : Device) :
    set_calls ch (app_write_REG_BNCS_STATE reg s).2 =
      set_calls ch s +
        if reg &&& state_bit ch ≠ 0 ∧ add16 (view ch s).cfg.tail_ms 1 = 1 then 1 else 0 := by
  rcases s with ⟨⟨r1, r2, r3, r4, r5, r6, r7, r8, r9, r10, r11, r12, r13, r14, r15, r16, r17, r18,
    r19, r20, r21, r22, r23, r24, r25, r26, r27, r28, r29, r30, r31⟩,
    ⟨c1, c2, c3, c4, c5, c6, c7, c8, c9, c10, c11, c12, c13, c14, c15, c16⟩, d0, d1, da, db,
    ⟨p1, p2, p3, p4, p5, p6, p7, p8, p9, p10, p11, p12, p13⟩, io, ev⟩
  rcases hch with h | h <;> subst h
  · simp only [app_write_REG_BNCS_STATE, write_bncs_bnc0, write_bncs_bnc1, put_tail_bnc0,
      put_period_bnc0, put_t_bnc0, put_count_pulses_bnc0, put_tail_bnc1, put_period_bnc1,
      put_t_bnc1, put_count_pulses_bnc1, put_REG_BNCS_STATE, set_BNC_SIG1_O, clr_BNC_SIG1_O,
      set_BNC_SIG2_O, clr_BNC_SIG2_O, state_bit, view]
    by_cases h1 : reg &&& B_BNC0 ≠ 0 <;>
      by_cases h2 : reg &&& B_BNC1 ≠ 0 <;> by_cases h3 : add16 r18 1 = 1 <;>
      by_cases h4 : add16 r22 1 = 1 <;>
      simp [set_calls, pin_of, h1, h2, h3, h4, beq_clr_set]
  · simp only [app_write_REG_BNCS_STATE, write_bncs_bnc0, write_bncs_bnc1, put_tail_bnc0,
      put_period_bnc0, put_t_bnc0, put_count_pulses_bnc0, put_tail_bnc1, put_period_bnc1,
      put_t_bnc1, put_count_pulses_bnc1, put_REG_BNCS_STATE, set_BNC_SIG1_O, clr_BNC_SIG1_O,
      set_BNC_SIG2_O, clr_BNC_SIG2_O, state_bit, view]
    by_cases h1 : reg &&& B_BNC0 ≠ 0 <;>
      by_cases h2 : reg &&& B_BNC1 ≠ 0 <;> by_cases h3 : add16 r18 1 = 1 <;>
      by_cases h4 : add16 r22 1 = 1 <;>
      simp [set_calls, pin_of, h1, h2, h3, h4, beq_clr_set]

theorem chan_sets_add (m n : Nat) (c : Chan) :
    chan_sets (m + n) c = chan_sets m c + chan_sets n (chan_ticks m c) := by
  induction m generalizing c with
  | zero => simp [chan_sets, chan_ticks]
  | succ m ih => rw [Nat.succ_add, chan_sets, chan_sets, chan_ticks, ih, Nat.add_assoc]

theorem chan_sets_succ (n : Nat) (c : Chan) :
    chan_sets (n + 1) c = chan_sets n c + chan_tick_sets (chan_ticks n c) := by
  rw [chan_sets_add]
  simp [chan_sets]

theorem chan_tick_sets_idle (c : Chan) (h : c.active = false) : chan_tick_sets c = 0 := by
  unfold chan_tick_sets; simp [h]

theorem chan_sets_idle (n : Nat) (c : Chan) (h : c.active = false) : chan_sets n c = 0 := by
  induction n with
  | zero => rfl
  | succ n ih => rw [chan_sets, chan_tick_sets_idle c h, chan_tick_idle c h, ih]

/-- No set call is made inside a period, before its last tick. -/
theorem in_cycle_sets (c : Chan) (ha : c.active = true) (htail : c.tail = 0)
    (hA : 1 ≤ c.desc.on_ms) (hA2 : c.desc.on_ms ≤ 65535) (hB : c.desc.off_ms ≤ 65535)
    (i : Nat) (hi : i + 1 < c.desc.on_ms + c.desc.off_ms) :
    chan_tick_sets (in_cycle c i) = 0 := by
  rcases c with ⟨act, tail, per, t, cnt, out, cfg, ⟨A, B, N, T⟩⟩
  simp only at ha htail hA hA2 hB hi
  subst ha htail
  simp only [in_cycle, chan_tick_sets, dec16]
  by_cases h1 : i < A
  · by_cases h2 : i + 1 < A
    · have e1 : (A - i + 65535) % 65536 ≠ 0 := by omega
      simp [h1, e1]
    · have e2 : ((A + B - i) % 65536 + 65535) % 65536 ≠ 0 := by omega
      have e3 : (A + B - i + 65535) % 65536 ≠ 0 := by omega
      simp [h1, e2, e3]
  · have e1 : (A + B - i + 65535) % 65536 ≠ 0 := by omega
    simp [h1, e1]

/-- The last tick of a period makes one set call unless it ends the run. -/
theorem cycle_last_sets (cfg d : interval_t) (cnt : Nat) (o : Bool)
    (hA : 1 ≤ d.on_ms) (hA2 : d.on_ms ≤ 65535) (hB : d.off_ms ≤ 65535) :
    chan_tick_sets (in_cycle (on_state cfg d cnt o) (d.on_ms + d.off_ms - 1)) =
      if dec16 cnt = 1 then 0 else 1 := by
  rcases d with ⟨A, B, N, T⟩
  simp only at hA hA2 hB
  simp only [in_cycle, on_state, chan_tick_sets]
  have e0 : (if A + B - 1 < A then A - (A + B - 1) else A + B - (A + B - 1)) = 1 := by
    split_ifs <;> omega
  have e1 : (A + B - (A + B - 1)) % 65536 = 1 := by omega
  have e2 : dec16 1 = 0 := by decide
  rw [e0, e1, e2]
  by_cases h1 : dec16 cnt > 1
  · have h2 : dec16 cnt ≠ 1 := by omega
    simp [h1, h2]
  · by_cases h2 : dec16 cnt = 1
    · simp [h2]
    · simp [h1, h2]

theorem cycle_sets_run (cfg d : interval_t) (cnt : Nat) (o : Bool)
    (hA : 1 ≤ d.on_ms) (hA2 : d.on_ms ≤ 65535) (hB : d.off_ms ≤ 65535)
    (i : Nat) (hi : i < d.on_ms + d.off_ms) :
    chan_sets i (on_state cfg d cnt o) = 0 := by
  induction i with
  | zero => rfl
  | succ i ih =>
    rw [chan_sets_succ, ih (by omega), cycle_run cfg d cnt o hA hA2 hB i (by omega),
      in_cycle_sets _ rfl rfl hA hA2 hB i hi]

/-- A whole period makes one set call, at its last tick, unless it ends the
run. -/
theorem cycle_sets (cfg d : interval_t) (cnt : Nat) (o : Bool)
    (hA : 1 ≤ d.on_ms) (hA2 : d.on_ms ≤ 65535) (hB : d.off_ms ≤ 65535) :
    chan_sets (d.on_ms + d.off_ms) (on_state cfg d cnt o) = if dec16 cnt = 1 then 0 else 1 := by
  have h : d.on_ms + d.off_ms = (d.on_ms + d.off_ms - 1) + 1 := by omega
  rw [h, chan_sets_succ, cycle_sets_run cfg d cnt o hA hA2 hB _ (by omega),
    cycle_run cfg d cnt o hA hA2 hB _ (by omega), Nat.zero_add]
  exact cycle_last_sets cfg d cnt o hA hA2 hB

/-- The set calls of the first j periods of a finite run. -/
theorem finite_periods_sets (cfg d : interval_t) (N : Nat)
    (hA : 1 ≤ d.on_ms) (hA2 : d.on_ms ≤ 65535) (hB : d.off_ms ≤ 65535)
    (hN2 : N ≤ 65535) (j : Nat) (hj : j < N) :
    chan_sets (j * (d.on_ms + d.off_ms)) (on_state cfg d (add16 N 1) true) = j := by
  induction j with
  | zero => simp [chan_sets]
  | succ j ih =>
    have e : (j + 1) * (d.on_ms + d.off_ms) = j * (d.on_ms + d.off_ms) + (d.on_ms + d.off_ms) := by
      rw [Nat.succ_mul]
    rw [e, chan_sets_add, ih (by omega), finite_periods cfg d N hA hA2 hB hN2 j (by omega),
      cycle_sets cfg d _ true hA hA2 hB]
    have e1 : dec16 ((N + 1 - j) % 65536) ≠ 1 := by
      unfold dec16; omega
    rw [if_neg e1]

/-- A finite run of N pulses makes N - 1 set calls after its first assertion,
all of them made when the run ends. -/
theorem finite_run_sets (cfg d : interval_t) (N : Nat)
    (hA : 1 ≤ d.on_ms) (hA2 : d.on_ms ≤ 65535) (hB : d.off_ms ≤ 65535)
    (hN : 1 ≤ N) (hN2 : N ≤ 65535) (m : Nat) (hm : N * (d.on_ms + d.off_ms) ≤ m) :
    chan_sets m (on_state cfg d (add16 N 1) true) = N - 1 := by
  obtain ⟨r, rfl⟩ : ∃ r, m = N * (d.on_ms + d.off_ms) + r :=
    ⟨m - N * (d.on_ms + d.off_ms), by omega⟩
  rw [chan_sets_add, finite_end cfg d N hA hA2 hB hN hN2, chan_sets_idle r _ rfl, Nat.add_zero]
  obtain ⟨j, rfl⟩ : ∃ j, N = j + 1 := ⟨N - 1, by omega⟩
  have e : (j + 1) * (d.on_ms + d.off_ms) = j * (d.on_ms + d.off_ms) + (d.on_ms + d.off_ms) := by
    rw [Nat.succ_mul]
  rw [e, chan_sets_add, finite_periods_sets cfg d (j + 1) hA hA2 hB hN2 j (by omega),
    finite_periods cfg d (j + 1) hA hA2 hB hN2 j (by omega), cycle_sets cfg d _ true hA hA2 hB]
  have e1 : dec16 ((j + 1 + 1 - j) % 65536) = 1 := by
    unfold dec16; omega
  rw [if_pos e1]
  omega

/-- The tail wait makes one set call, at its last tick. -/
theorem tail_sets (c : Chan) (ha : c.active = true) (hon : c.cfg.on_ms ≠ 0)
    (ht : c.tail ≤ 65535) (i : Nat) (hi : i ≤ c.tail) (hpos : 0 < c.tail) :
    chan_sets i c = if i = c.tail then 1 else 0 := by
  induction i with
  | zero =>
    have : ¬ 0 = c.tail := by omega
    rw [if_neg this]; rfl
  | succ i ih =>
    have hr := tail_run c ha hon ht i (by omega)
    have h0 : ¬ i = c.tail := by omega
    rw [chan_sets_succ, ih (by omega), if_neg h0, hr.1, Nat.zero_add]
    rcases c with ⟨act, tail, per, t, cnt, out, cfg, d⟩
    simp only at ha hon ht hi hpos h0
    subst ha
    have e1 : dec16 (tail - i) = tail - (i + 1) := by unfold dec16; omega
    have e2 : 0 < tail - i := by omega
    by_cases h : i + 1 = tail
    · have e3 : tail - (i + 1) = 0 := by omega
      simp [chan_tick_sets, e1, e2, e3, h, hon]
    · have e3 : tail - (i + 1) ≠ 0 := by omega
      simp [chan_tick_sets, e1, e2, e3, h, hon]

/-- The set calls from a start to any point after the end of a finite run:
one for each pulse, and one more at arming when the tail is 0. -/
theorem start_run_sets (ch : Channel) (hch : ch = Channel.bnc0 ∨ ch = Channel.bnc1)
    (s : Device) (reg A B N T : Nat) (hreg : reg &&& state_bit ch ≠ 0)
    (hcfg : (view ch s).cfg = ⟨A, B, N, T⟩)
    (hA : 1 ≤ A) (hA2 : A ≤ 65535) (hB2 : B ≤ 65535) (hN : 1 ≤ N) (hN2 : N ≤ 65535)
    (hT : T ≤ 65534) (k : Nat) (hk : T + 1 + N * (A + B) ≤ k) :
    set_calls ch (ticks k (app_write_REG_BNCS_STATE reg s).2) =
      set_calls ch s + N + if T = 0 then 1 else 0 := by
  have c1 : (view ch s).cfg.on_ms = A := by rw [hcfg]
  have c2 : (view ch s).cfg.off_ms = B := by rw [hcfg]
  have c3 : (view ch s).cfg.pulses = N := by rw [hcfg]
  have c4 : (view ch s).cfg.tail_ms = T := by rw [hcfg]
  have hv : view ch (app_write_REG_BNCS_STATE reg s).2 = chan_start (view ch s) :=
    view_start_ticks ch hch reg hreg s 0
  have etail : (chan_start (view ch s)).tail = T + 1 := by
    simp only [chan_start, add16, c4]; omega
  have hs := start_tail (view ch s) (by omega) (by omega)
  rw [c4, c3] at hs
  obtain ⟨m, rfl⟩ : ∃ m, k = T + 1 + m := ⟨k - (T + 1), by omega⟩
  rw [set_calls_ticks, set_calls_write_bncs ch hch, hv, chan_sets_add, hs.2, c4]
  have hon : (chan_start (view ch s)).cfg.on_ms ≠ 0 := by
    show (view ch s).cfg.on_ms ≠ 0
    rw [c1]; omega
  have h1 := tail_sets (chan_start (view ch s)) rfl hon (by omega) (T + 1) (by omega) (by omega)
  rw [etail, if_pos rfl] at h1
  have h2 := finite_run_sets (view ch s).cfg (view ch s).cfg N (by omega) (by omega) (by omega)
    hN hN2 m (by rw [c1, c2]; omega)
  rw [h1, h2]
  have e : add16 T 1 = 1 ↔ T = 0 := by unfold add16; omega
  by_cases h0 : T = 0
  · have : reg &&& state_bit ch ≠ 0 ∧ add16 T 1 = 1 := ⟨hreg, e.2 h0⟩
    rw [if_pos this, if_pos h0]; omega
  · have : ¬ (reg &&& state_bit ch ≠ 0 ∧ add16 T 1 = 1) := fun h => h0 (e.1 h.2)
    rw [if_neg this, if_neg h0]; omega


set_option maxRecDepth 100000 in
/-- C13 (as stated) fails at its own example on = 5, off = 0, pulses = 3,
tail = 0 on BNC0: from arming to Idle (16 ticks) the firmware makes four set
calls on BNC_SIG1_O, not three: one at arming, one at the first tick, which
brings the tail counter from 1 to 0, and one at each of the two period
boundaries that begin a further pulse. -/
theorem c13_assert_events_counterexample :
    set_calls Channel.bnc0 (configure_bnc0 5 0 3 0 power_on) = 0 ∧
    set_calls Channel.bnc0 (bnc0_run 5 0 3 0 1) = 1 ∧
    set_calls Channel.bnc0 (ticks 1 (bnc0_run 5 0 3 0 1)) = 2 ∧
    set_calls Channel.bnc0 (ticks 16 (bnc0_run 5 0 3 0 1)) = 4 ∧
    (ticks 16 (bnc0_run 5 0 3 0 1)).app_regs.REG_BNCS_STATE &&& B_BNC0 = 0 := by
  decide

/-- C13 (amended): for off-time 0, on-time A in [1, 65535], pulse count N in
[1, 65535] and tail T in [0, 65534] on BNC0 or BNC1, over the run from arming
to Idle (and at any later tick) the firmware has made on the line of the
channel exactly N set calls when T >= 1, one for each pulse, and exactly N + 1
when T = 0, where the first pulse is asserted at arming and again by the first
tick; by then the active bit is clear. -/
theorem c13_assert_events (ch : Channel) (hch : ch = Channel.bnc0 ∨ ch = Channel.bnc1)
    (s : Device) (reg A N T : Nat) (hreg : reg &&& state_bit ch ≠ 0)
    (hcfg : (view ch s).cfg = ⟨A, 0, N, T⟩)
    (hA : 1 ≤ A) (hA2 : A ≤ 65535) (hN : 1 ≤ N) (hN2 : N ≤ 65535) (hT : T ≤ 65534)
    (k : Nat) (hk : T + 1 + N * A ≤ k) :
    set_calls ch (ticks k (app_write_REG_BNCS_STATE reg s).2) =
        set_calls ch s + N + (if T = 0 then 1 else 0) ∧
      (view ch (ticks k (app_write_REG_BNCS_STATE reg s).2)).active = false := by
  constructor
  · exact start_run_sets ch hch s reg A 0 N T hreg hcfg hA hA2 (by omega) hN hN2 hT k
      (by rw [Nat.add_zero]; exact hk)
  · rw [view_start_ticks ch hch reg hreg]
    have h := finite_trace_active (view ch s) A 0 N T hcfg hA hA2 (by omega) hN hN2 hT k
    cases hact : (chan_ticks k (chan_start (view ch s))).active
    · rfl
    · have := h.1 hact
      simp only [Nat.add_zero] at this
      omega

theorem c13_assert_events_witness :
    set_calls Channel.bnc0 (ticks 20
        (app_write_REG_BNCS_STATE 1 (configure_bnc0 5 0 3 2 power_on)).2) =
        set_calls Channel.bnc0 (configure_bnc0 5 0 3 2 power_on) + 3 + (if 2 = 0 then 1 else 0) ∧
      (view Channel.bnc0 (ticks 20
        (app_write_REG_BNCS_STATE 1 (configure_bnc0 5 0 3 2 power_on)).2)).active = false :=
  c13_assert_events Channel.bnc0 (Or.inl rfl) (configure_bnc0 5 0 3 2 power_on) 1 5 3 2
    (by decide) rfl (by decide) (by decide) (by decide) (by decide) (by decide) 20 (by decide)

/-! ## Configuration writes during a run (C15) -/

/-- A tick reads the configuration registers of a channel only to test
whether the ON register is zero. -/
theorem engine_chan_tick (c c2 : Chan) (he : engine c = engine c2)
    (hz : c.cfg.on_ms = 0 ↔ c2.cfg.on_ms = 0) :
    engine (chan_tick c) = engine (chan_tick c2) := by
  rcases c with ⟨act, tail, per, t, cnt, out, cfg, d⟩
  rcases c2 with ⟨act2, tail2, per2, t2, cnt2, out2, cfg2, d2⟩
  simp only [engine, Prod.mk.injEq] at he
  obtain ⟨rfl, rfl, rfl, rfl, rfl, rfl, rfl⟩ := he
  simp only at hz
  by_cases h : cfg.on_ms = 0
  · have h2 : cfg2.on_ms = 0 := hz.1 h
    simp only [chan_tick, h, h2]
    split_ifs <;> rfl
  · have h2 : ¬ cfg2.on_ms = 0 := fun h' => h (hz.2 h')
    simp only [chan_tick, ne_eq, h, h2, not_false_eq_true, and_true]
    split_ifs <;> rfl

theorem view_write_BNC0_ON (v : Nat) (s : Device) :
    view Channel.bnc0 (app_write_REG_BNC0_ON v s).2 =
      { view Channel.bnc0 s with cfg := { (view Channel.bnc0 s).cfg with on_ms := v } } := rfl

theorem view_write_BNC0_OFF (v : Nat) (s : Device) :
    view Channel.bnc0 (app_write_REG_BNC0_OFF v s).2 =
      { view Channel.bnc0 s with cfg := { (view Channel.bnc0 s).cfg with off_ms := v } } := rfl

theorem view_write_BNC0_PULSES (v : Nat) (s : Device) :
    view Channel.bnc0 (app_write_REG_BNC0_PULSES v s).2 =
      { view Channel.bnc0 s with cfg := { (view Channel.bnc0 s).cfg with pulses := v } } := rfl

theorem view_write_BNC0_TAIL (v : Nat) (s : Device) :
    view Channel.bnc0 (app_write_REG_BNC0_TAIL v s).2 =
      { view Channel.bnc0 s with cfg := { (view Channel.bnc0 s).cfg with tail_ms := v } } := rfl

/-- One step of host activity keeps two devices in agreement on the engine
side of BNC0 and on whether REG_BNC0_ON is zero. -/
theorem engine_run_op (op op2 : HostOp) (h : same_step_on_zero op op2) (s s2 : Device)
    (he : engine (view Channel.bnc0 s) = engine (view Channel.bnc0 s2))
    (hz : s.app_regs.REG_BNC0_ON = 0 ↔ s2.app_regs.REG_BNC0_ON = 0) :
    engine (view Channel.bnc0 (run_op op s)) = engine (view Channel.bnc0 (run_op op2 s2)) ∧
      ((run_op op s).app_regs.REG_BNC0_ON = 0 ↔ (run_op op2 s2).app_regs.REG_BNC0_ON = 0) := by
  have hcfg : ∀ d : Device, d.app_regs.REG_BNC0_ON = (view Channel.bnc0 d).cfg.on_ms :=
    fun _ => rfl
  cases op <;> cases op2 <;> simp only [same_step_on_zero] at h
  · simp only [run_op]
    rw [hcfg, hcfg, view_tick, view_tick]
    refine ⟨engine_chan_tick _ _ he (by rw [← hcfg, ← hcfg]; exact hz), ?_⟩
    have e1 : ∀ c : Chan, (chan_tick c).cfg = c.cfg := by
      intro c
      unfold chan_tick
      split_ifs <;> rfl
    rw [e1, e1, ← hcfg, ← hcfg]
    exact hz
  · exact ⟨he, h⟩
  · exact ⟨he, hz⟩
  · exact ⟨he, hz⟩
  · exact ⟨he, hz⟩

theorem engine_run_ops (ops ops2 : List HostOp) (h : List.Forall₂ same_step_on_zero ops ops2)
    (s s2 : Device)
    (he : engine (view Channel.bnc0 s) = engine (view Channel.bnc0 s2))
    (hz : s.app_regs.REG_BNC0_ON = 0 ↔ s2.app_regs.REG_BNC0_ON = 0) :
    engine (view Channel.bnc0 (run_ops ops s)) = engine (view Channel.bnc0 (run_ops ops2 s2)) := by
  induction h generalizing s s2 with
  | nil => exact he
  | cons hop _ ih =>
    obtain ⟨he2, hz2⟩ := engine_run_op _ _ hop s s2 he hz
    exact ih _ _ he2 hz2

/-- C15 (as stated) fails: BNC0 is one tick into a tail wait of 3 (ON = 2,
OFF = 2, one pulse) when the host writes REG_BNC0_ON; the two runs differ only
in the value written, 0 or 2. After the next tick the run that wrote 0 has
left the tail counter at 3 and counted the period and the phase down, the
other has counted the tail down. -/
theorem c15_config_write_counterexample :
    List.Forall₂ same_step [HostOp.write_on 0, HostOp.tick] [HostOp.write_on 2, HostOp.tick] ∧
    (view Channel.bnc0 (ticks 1 (bnc0_run 2 2 1 3 1))).active = true ∧
    engine (view Channel.bnc0
        (run_ops [HostOp.write_on 0, HostOp.tick] (ticks 1 (bnc0_run 2 2 1 3 1)))) =
      (true, 3, 3, 1, 2, false, ⟨2, 2, 1, 3⟩) ∧
    engine (view Channel.bnc0
        (run_ops [HostOp.write_on 2, HostOp.tick] (ticks 1 (bnc0_run 2 2 1 3 1)))) =
      (true, 2, 4, 2, 2, false, ⟨2, 2, 1, 3⟩) := by
  refine ⟨?_, by decide, by decide, by decide⟩
  exact List.Forall₂.cons trivial (List.Forall₂.cons trivial List.Forall₂.nil)

/-- C15 (amended): the descriptor is never written by a tick, and the effect
of a tick on the counters, line and active bit of BNC0 is determined by the
countdown state, the descriptor captured at start and whether REG_BNC0_ON is
zero (the tail-wait test reads that register). Two runs from the same state,
made of the same ticks and configuration writes, that differ only in the
values written to REG_BNC0_OFF, REG_BNC0_PULSES or REG_BNC0_TAIL, or in values
written to REG_BNC0_ON that are both zero or both non-zero, have identical
counters, line, active bit and descriptor after every step. -/
theorem c15_config_writes (ops ops2 : List HostOp)
    (h : List.Forall₂ same_step_on_zero ops ops2) (s : Device) :
    engine (view Channel.bnc0 (run_ops ops s)) = engine (view Channel.bnc0 (run_ops ops2 s)) ∧
    (∀ d d2 : Device, engine (view Channel.bnc0 d) = engine (view Channel.bnc0 d2) →
      (d.app_regs.REG_BNC0_ON = 0 ↔ d2.app_regs.REG_BNC0_ON = 0) →
      engine (view Channel.bnc0 (core_callback_t_500us d)) =
        engine (view Channel.bnc0 (core_callback_t_500us d2))) ∧
    (∀ d : Device, (core_callback_t_500us d).s_bnc_0 = d.s_bnc_0) := by
  refine ⟨engine_run_ops ops ops2 h s s rfl Iff.rfl, fun d d2 he hz => ?_, fun d => ?_⟩
  · exact (engine_run_op HostOp.tick HostOp.tick trivial d d2 he hz).1
  · have e1 : ∀ c : Chan, (chan_tick c).desc = c.desc := by
      intro c
      unfold chan_tick
      split_ifs <;> rfl
    have := e1 (view Channel.bnc0 d)
    rw [← view_tick] at this
    exact this

theorem c15_config_writes_witness :
    List.Forall₂ same_step_on_zero
      [HostOp.write_on 7, HostOp.tick, HostOp.write_off 9, HostOp.write_tail 0, HostOp.tick]
      [HostOp.write_on 1, HostOp.tick, HostOp.write_off 0, HostOp.write_tail 5, HostOp.tick] ∧
    engine (view Channel.bnc0 (run_ops
      [HostOp.write_on 7, HostOp.tick, HostOp.write_off 9, HostOp.write_tail 0, HostOp.tick]
      (ticks 1 (bnc0_run 2 2 1 3 1)))) =
    engine (view Channel.bnc0 (run_ops
      [HostOp.write_on 1, HostOp.tick, HostOp.write_off 0, HostOp.write_tail 5, HostOp.tick]
      (ticks 1 (bnc0_run 2 2 1 3 1)))) :=
  have h : List.Forall₂ same_step_on_zero
      [HostOp.write_on 7, HostOp.tick, HostOp.write_off 9, HostOp.write_tail 0, HostOp.tick]
      [HostOp.write_on 1, HostOp.tick, HostOp.write_off 0, HostOp.write_tail 5, HostOp.tick] :=
    List.Forall₂.cons (by simp [same_step_on_zero]) (List.Forall₂.cons trivial
      (List.Forall₂.cons trivial (List.Forall₂.cons trivial
        (List.Forall₂.cons trivial List.Forall₂.nil))))
  ⟨h, (c15_config_writes _ _ h (ticks 1 (bnc0_run 2 2 1 3 1))).1⟩

/-! ## Single transitions of a channel (C21 to C26) -/

theorem dec16_pos (x : Nat) (h : 0 < x) (hb : x ≤ 65535) : dec16 x = x - 1 := by
  unfold dec16; omega

theorem chan_tick_tail_step (c : Chan) (ha : c.active = true) (hon : c.cfg.on_ms ≠ 0)
    (ht : 0 < c.tail) (hb : c.tail ≤ 65535) :
    chan_tick c = { c with tail := c.tail - 1, out := if c.tail = 1 then true else c.out } := by
  have hd := dec16_pos c.tail ht hb
  have hc : c.tail > 0 ∧ c.cfg.on_ms ≠ 0 := ⟨ht, hon⟩
  unfold chan_tick
  rw [if_pos ha, if_pos hc, hd]
  by_cases h1 : c.tail = 1
  · rw [if_pos (show c.tail - 1 = 0 by omega), if_pos h1]
  · rw [if_neg (show ¬ c.tail - 1 = 0 by omega), if_neg h1]

theorem chan_tick_count_step (c : Chan) (ha : c.active = true)
    (hp : ¬ (c.tail > 0 ∧ c.cfg.on_ms ≠ 0)) (ht : 0 < c.t) (hb : c.t ≤ 65535)
    (h1 : c.t ≠ 1) :
    chan_tick c = { c with period := dec16 c.period, t := c.t - 1 } := by
  have hd := dec16_pos c.t ht hb
  unfold chan_tick
  rw [if_pos ha, if_neg hp, if_pos (show c.t > 0 from ht), hd,
    if_neg (show ¬ c.t - 1 = 0 by omega)]

theorem chan_tick_off_step (c : Chan) (ha : c.active = true)
    (hp : ¬ (c.tail > 0 ∧ c.cfg.on_ms ≠ 0)) (h1 : c.t = 1) (hper : dec16 c.period ≠ 0) :
    chan_tick c = { c with period := dec16 c.period, t := c.desc.off_ms, out := false } := by
  have hd : dec16 c.t = 0 := by rw [h1]; rfl
  unfold chan_tick
  rw [if_pos ha, if_neg hp, if_pos (show c.t > 0 by omega), if_pos hd, if_neg hper]

theorem chan_tick_repeat_step (c : Chan) (ha : c.active = true)
    (hp : ¬ (c.tail > 0 ∧ c.cfg.on_ms ≠ 0)) (h1 : c.t = 1) (hper : c.period = 1)
    (hn : dec16 c.count_pulses > 1) :
    chan_tick c = { c with count_pulses := dec16 c.count_pulses
                           period := add16 c.desc.on_ms c.desc.off_ms
                           t := c.desc.on_ms
                           out := true } := by
  have hd : dec16 c.t = 0 := by rw [h1]; rfl
  have hd2 : dec16 c.period = 0 := by rw [hper]; rfl
  unfold chan_tick
  rw [if_pos ha, if_neg hp, if_pos (show c.t > 0 by omega), if_pos hd, if_pos hd2, if_pos hn]

theorem chan_tick_infinite_step (c : Chan) (ha : c.active = true)
    (hp : ¬ (c.tail > 0 ∧ c.cfg.on_ms ≠ 0)) (h1 : c.t = 1) (hper : c.period = 1)
    (hn : dec16 c.count_pulses = 0) :
    chan_tick c = { c with count_pulses := 1
                           period := add16 c.desc.on_ms c.desc.off_ms
                           t := c.desc.on_ms
                           out := true } := by
  have hd : dec16 c.t = 0 := by rw [h1]; rfl
  have hd2 : dec16 c.period = 0 := by rw [hper]; rfl
  unfold chan_tick
  rw [if_pos ha, if_neg hp, if_pos (show c.t > 0 by omega), if_pos hd, if_pos hd2,
    if_neg (show ¬ dec16 c.count_pulses > 1 by omega),
    if_neg (show ¬ dec16 c.count_pulses = 1 by omega)]

theorem chan_tick_exclusive (c : Chan) :
    (chan_tick c).tail = c.tail ∨
      ((chan_tick c).period = c.period ∧ (chan_tick c).t = c.t) := by
  unfold chan_tick
  split_ifs <;> simp

theorem active_of_bit (ch : Channel) (s : Device) :
    (view ch s).active = true ↔
      (match ch with
        | Channel.bnc0 => s.app_regs.REG_BNCS_STATE &&& B_BNC0 ≠ 0
        | Channel.bnc1 => s.app_regs.REG_BNCS_STATE &&& B_BNC1 ≠ 0
        | Channel.signal_a => s.app_regs.REG_SIGNAL_STATE &&& B_SIGNAL_A ≠ 0
        | Channel.signal_b => s.app_regs.REG_SIGNAL_STATE &&& B_SIGNAL_B ≠ 0) := by
  cases ch <;> simp [view]

/-- C21: app_write_REG_BNCS_STATE with B_BNC0 set leaves the phase counter of
BNC0 at REG_BNC0_ON and its period counter at (ON + OFF) mod 2^16; when
REG_BNC0_TAIL = 0 the call itself asserts BNC_SIG1_O (one more set call, line
high on return); when REG_BNC0_TAIL is in [1, 65534] the call makes no set
call and leaves the line at the level it had, low when the channel was idle. -/
theorem c21_start_with_zero_tail (reg : Nat) (hreg : reg &&& B_BNC0 ≠ 0) (s : Device) :
    (app_write_REG_BNCS_STATE reg s).2.pulse_countdown.t_bnc0 = s.app_regs.REG_BNC0_ON ∧
    (app_write_REG_BNCS_STATE reg s).2.pulse_countdown.period_bnc0 =
      (s.app_regs.REG_BNC0_ON + s.app_regs.REG_BNC0_OFF) % 2 ^ 16 ∧
    (s.app_regs.REG_BNC0_TAIL = 0 →
      (app_write_REG_BNCS_STATE reg s).2.ports.BNC_SIG1_O = true ∧
      set_calls Channel.bnc0 (app_write_REG_BNCS_STATE reg s).2 =
        set_calls Channel.bnc0 s + 1) ∧
    (1 ≤ s.app_regs.REG_BNC0_TAIL → s.app_regs.REG_BNC0_TAIL ≤ 65534 →
      (app_write_REG_BNCS_STATE reg s).2.ports.BNC_SIG1_O = s.ports.BNC_SIG1_O ∧
      set_calls Channel.bnc0 (app_write_REG_BNCS_STATE reg s).2 =
        set_calls Channel.bnc0 s) := by
  have h := view_write_bncs Channel.bnc0 (Or.inl rfl) reg s
  rw [if_pos (show reg &&& state_bit Channel.bnc0 ≠ 0 from hreg)] at h
  have ht := congrArg Chan.t h
  have hp := congrArg Chan.period h
  have ho : (app_write_REG_BNCS_STATE reg s).2.ports.BNC_SIG1_O =
      if add16 s.app_regs.REG_BNC0_TAIL 1 = 1 then true else s.ports.BNC_SIG1_O :=
    congrArg Chan.out h
  have hs := set_calls_write_bncs Channel.bnc0 (Or.inl rfl) reg s
  have hs2 : set_calls Channel.bnc0 (app_write_REG_BNCS_STATE reg s).2 =
      set_calls Channel.bnc0 s +
        if reg &&& B_BNC0 ≠ 0 ∧ add16 s.app_regs.REG_BNC0_TAIL 1 = 1 then 1 else 0 := hs
  refine ⟨ht, hp, ?_, ?_⟩
  · intro h0
    have h1 : add16 s.app_regs.REG_BNC0_TAIL 1 = 1 := by rw [h0]; rfl
    rw [ho, hs2, if_pos h1, if_pos ⟨hreg, h1⟩]
    exact ⟨rfl, rfl⟩
  · intro h1 h2
    have h3 : ¬ add16 s.app_regs.REG_BNC0_TAIL 1 = 1 := by unfold add16; omega
    rw [ho, hs2, if_neg h3, if_neg (fun hh => h3 hh.2)]
    exact ⟨rfl, rfl⟩

theorem c21_start_with_zero_tail_witness :
    (app_write_REG_BNCS_STATE 1 (configure_bnc0 3 2 2 0 power_on)).2.ports.BNC_SIG1_O = true ∧
    (app_write_REG_BNCS_STATE 1 (configure_bnc0 3 2 2 0 power_on)).2.pulse_countdown.t_bnc0 = 3 ∧
    (app_write_REG_BNCS_STATE 1 (configure_bnc0 3 2 2 4 power_on)).2.ports.BNC_SIG1_O = false :=
  ⟨((c21_start_with_zero_tail 1 (by decide) (configure_bnc0 3 2 2 0 power_on)).2.2.1 rfl).1,
    (c21_start_with_zero_tail 1 (by decide) (configure_bnc0 3 2 2 0 power_on)).1,
    ((c21_start_with_zero_tail 1 (by decide) (configure_bnc0 3 2 2 4 power_on)).2.2.2
      (by decide) (by decide)).1⟩

/-- C22: for an active BNC0 with REG_BNC0_ON non-zero and a tail counter in
[1, 65535], a tick lowers the tail counter by exactly 1 and changes no other
object of the channel, except that BNC_SIG1_O is asserted when the counter
reaches 0. In a run armed with ON non-zero and TAIL in [0, 65534] the ticks of
the wait leave the phase and period counters as the start set them, so at the
tick that brings the tail counter to 0 the line is asserted, the phase counter
equals ON and the period counter equals (ON + OFF) mod 2^16. -/
theorem c22_tail_wait (s : Device) (hact : s.app_regs.REG_BNCS_STATE &&& B_BNC0 ≠ 0)
    (hon : s.app_regs.REG_BNC0_ON ≠ 0) (ht : 0 < s.pulse_countdown.tail_bnc0)
    (hb : s.pulse_countdown.tail_bnc0 ≤ 65535)
    (d : Device) (reg : Nat) (hreg : reg &&& B_BNC0 ≠ 0)
    (hon2 : d.app_regs.REG_BNC0_ON ≠ 0) (hT : d.app_regs.REG_BNC0_TAIL ≤ 65534) :
    view Channel.bnc0 (core_callback_t_500us s) =
      { view Channel.bnc0 s with
          tail := s.pulse_countdown.tail_bnc0 - 1
          out := if s.pulse_countdown.tail_bnc0 = 1 then true else s.ports.BNC_SIG1_O } ∧
    (∀ k, k ≤ d.app_regs.REG_BNC0_TAIL →
      (ticks k (app_write_REG_BNCS_STATE reg d).2).pulse_countdown.tail_bnc0 =
        d.app_regs.REG_BNC0_TAIL + 1 - k ∧
      (ticks k (app_write_REG_BNCS_STATE reg d).2).pulse_countdown.t_bnc0 =
        d.app_regs.REG_BNC0_ON ∧
      (ticks k (app_write_REG_BNCS_STATE reg d).2).pulse_countdown.period_bnc0 =
        (d.app_regs.REG_BNC0_ON + d.app_regs.REG_BNC0_OFF) % 2 ^ 16) ∧
    (ticks (d.app_regs.REG_BNC0_TAIL + 1)
        (app_write_REG_BNCS_STATE reg d).2).pulse_countdown.tail_bnc0 = 0 ∧
    (ticks (d.app_regs.REG_BNC0_TAIL + 1)
        (app_write_REG_BNCS_STATE reg d).2).ports.BNC_SIG1_O = true ∧
    (ticks (d.app_regs.REG_BNC0_TAIL + 1)
        (app_write_REG_BNCS_STATE reg d).2).pulse_countdown.t_bnc0 = d.app_regs.REG_BNC0_ON ∧
    (ticks (d.app_regs.REG_BNC0_TAIL + 1)
        (app_write_REG_BNCS_STATE reg d).2).pulse_countdown.period_bnc0 =
      (d.app_regs.REG_BNC0_ON + d.app_regs.REG_BNC0_OFF) % 2 ^ 16 := by
  have hst := start_tail (view Channel.bnc0 d) hT hon2
  refine ⟨?_, ?_, ?_⟩
  · rw [view_tick]
    exact chan_tick_tail_step (view Channel.bnc0 s) (decide_eq_true hact) hon ht hb
  · intro k hk
    have h := view_start_ticks Channel.bnc0 (Or.inl rfl) reg hreg d k
    rw [hst.1 k hk] at h
    exact ⟨congrArg Chan.tail h, congrArg Chan.t h, congrArg Chan.period h⟩
  · have h := view_start_ticks Channel.bnc0 (Or.inl rfl) reg hreg d
      (d.app_regs.REG_BNC0_TAIL + 1)
    have h2 : chan_ticks (d.app_regs.REG_BNC0_TAIL + 1) (chan_start (view Channel.bnc0 d)) =
        on_state (view Channel.bnc0 d).cfg (view Channel.bnc0 d).cfg
          (add16 (view Channel.bnc0 d).cfg.pulses 1) true := hst.2
    rw [h2] at h
    exact ⟨congrArg Chan.tail h, congrArg Chan.out h, congrArg Chan.t h,
      congrArg Chan.period h⟩

theorem c22_tail_wait_witness :
    view Channel.bnc0 (core_callback_t_500us (bnc0_run 3 2 2 1 1)) =
      { view Channel.bnc0 (bnc0_run 3 2 2 1 1) with tail := 1, out := false } ∧
    (ticks 2 (app_write_REG_BNCS_STATE 1 (configure_bnc0 3 2 2 1 power_on)).2).ports.BNC_SIG1_O =
      true :=
  have h := c22_tail_wait (bnc0_run 3 2 2 1 1) (by decide) (by decide) (by decide) (by decide)
    (configure_bnc0 3 2 2 1 power_on) 1 (by decide) (by decide) (by decide)
  ⟨h.1, h.2.2.2.1⟩

/-- C23: for an active BNC0 whose tail counter is 0 and whose phase counter is
in [1, 65535], a tick applies the 16-bit decrement to the period counter
(one less when it is positive) and lowers the phase counter by 1. When the
phase counter was above 1 nothing else of the channel changes. When it was 1
and the decremented period counter is non-zero, BNC_SIG1_O is deasserted and
the phase counter is loaded with off_ms of the descriptor, the pulses counter
and the active bit staying as they were. -/
theorem c23_on_to_off (s : Device) (hact : s.app_regs.REG_BNCS_STATE &&& B_BNC0 ≠ 0)
    (htail : s.pulse_countdown.tail_bnc0 = 0) (ht : 0 < s.pulse_countdown.t_bnc0)
    (hb : s.pulse_countdown.t_bnc0 ≤ 65535) :
    (s.pulse_countdown.t_bnc0 ≠ 1 →
      view Channel.bnc0 (core_callback_t_500us s) =
        { view Channel.bnc0 s with
            period := dec16 s.pulse_countdown.period_bnc0
            t := s.pulse_countdown.t_bnc0 - 1 }) ∧
    (s.pulse_countdown.t_bnc0 = 1 → dec16 s.pulse_countdown.period_bnc0 ≠ 0 →
      view Channel.bnc0 (core_callback_t_500us s) =
        { view Channel.bnc0 s with
            period := dec16 s.pulse_countdown.period_bnc0
            t := s.s_bnc_0.off_ms
            out := false } ∧
      (core_callback_t_500us s).pulse_countdown.count_pulses_bnc0 =
        s.pulse_countdown.count_pulses_bnc0 ∧
      (core_callback_t_500us s).app_regs.REG_BNCS_STATE &&& B_BNC0 ≠ 0) ∧
    (0 < s.pulse_countdown.period_bnc0 → s.pulse_countdown.period_bnc0 ≤ 65535 →
      dec16 s.pulse_countdown.period_bnc0 = s.pulse_countdown.period_bnc0 - 1) := by
  have ha : (view Channel.bnc0 s).active = true := decide_eq_true hact
  have hp : ¬ ((view Channel.bnc0 s).tail > 0 ∧ (view Channel.bnc0 s).cfg.on_ms ≠ 0) := by
    intro h
    have h1 : s.pulse_countdown.tail_bnc0 > 0 := h.1
    omega
  refine ⟨?_, ?_, ?_⟩
  · intro h1
    rw [view_tick]
    exact chan_tick_count_step (view Channel.bnc0 s) ha hp ht hb h1
  · intro h1 h2
    have h := view_tick Channel.bnc0 s
    rw [chan_tick_off_step (view Channel.bnc0 s) ha hp h1 h2] at h
    refine ⟨h, congrArg Chan.count_pulses h, ?_⟩
    have h3 : (view Channel.bnc0 (core_callback_t_500us s)).active = true := by
      rw [h]; exact ha
    exact of_decide_eq_true h3
  · intro h1 h2
    exact dec16_pos _ h1 h2

theorem c23_on_to_off_witness :
    view Channel.bnc0 (core_callback_t_500us (ticks 2 (bnc0_run 2 3 2 0 1))) =
        { view Channel.bnc0 (ticks 2 (bnc0_run 2 3 2 0 1)) with
            period := dec16 4, t := 3, out := false } ∧
    view Channel.bnc0 (core_callback_t_500us (ticks 1 (bnc0_run 2 3 2 0 1))) =
        { view Channel.bnc0 (ticks 1 (bnc0_run 2 3 2 0 1)) with period := dec16 5, t := 1 } :=
  ⟨((c23_on_to_off (ticks 2 (bnc0_run 2 3 2 0 1)) (by decide) (by decide) (by decide)
      (by decide)).2.1 (by decide) (by decide)).1,
    (c23_on_to_off (ticks 1 (bnc0_run 2 3 2 0 1)) (by decide) (by decide) (by decide)
      (by decide)).1 (by decide)⟩

/-- C24: when a tick of an active BNC0 in its counting branch brings both its
phase counter and its period counter from 1 to 0, the pulses counter is
decremented (16-bit). If the result is above 1, the period counter is loaded
with (on_ms + off_ms) mod 2^16 of the descriptor, the phase counter with
on_ms, BNC_SIG1_O is asserted and the decremented pulses counter is kept. If
the result is 0, the same loads and the assert are made and the pulses counter
is set to 1. In both cases the active bit stays set. -/
theorem c24_period_boundary (s : Device) (hact : s.app_regs.REG_BNCS_STATE &&& B_BNC0 ≠ 0)
    (hp : ¬ (s.pulse_countdown.tail_bnc0 > 0 ∧ s.app_regs.REG_BNC0_ON ≠ 0))
    (ht : s.pulse_countdown.t_bnc0 = 1) (hper : s.pulse_countdown.period_bnc0 = 1) :
    (dec16 s.pulse_countdown.count_pulses_bnc0 > 1 →
      view Channel.bnc0 (core_callback_t_500us s) =
        { view Channel.bnc0 s with
            count_pulses := dec16 s.pulse_countdown.count_pulses_bnc0
            period := (s.s_bnc_0.on_ms + s.s_bnc_0.off_ms) % 2 ^ 16
            t := s.s_bnc_0.on_ms
            out := true } ∧
      (core_callback_t_500us s).app_regs.REG_BNCS_STATE &&& B_BNC0 ≠ 0) ∧
    (dec16 s.pulse_countdown.count_pulses_bnc0 = 0 →
      view Channel.bnc0 (core_callback_t_500us s) =
        { view Channel.bnc0 s with
            count_pulses := 1
            period := (s.s_bnc_0.on_ms + s.s_bnc_0.off_ms) % 2 ^ 16
            t := s.s_bnc_0.on_ms
            out := true } ∧
      (core_callback_t_500us s).app_regs.REG_BNCS_STATE &&& B_BNC0 ≠ 0) := by
  have ha : (view Channel.bnc0 s).active = true := decide_eq_true hact
  have hv := view_tick Channel.bnc0 s
  constructor
  · intro hn
    rw [chan_tick_repeat_step (view Channel.bnc0 s) ha hp ht hper hn] at hv
    refine ⟨hv, ?_⟩
    have h3 : (view Channel.bnc0 (core_callback_t_500us s)).active = true := by
      rw [hv]; exact ha
    exact of_decide_eq_true h3
  · intro hn
    rw [chan_tick_infinite_step (view Channel.bnc0 s) ha hp ht hper hn] at hv
    refine ⟨hv, ?_⟩
    have h3 : (view Channel.bnc0 (core_callback_t_500us s)).active = true := by
      rw [hv]; exact ha
    exact of_decide_eq_true h3

theorem c24_period_boundary_witness :
    view Channel.bnc0 (core_callback_t_500us (ticks 3 (bnc0_run 2 1 2 0 1))) =
        { view Channel.bnc0 (ticks 3 (bnc0_run 2 1 2 0 1)) with
            count_pulses := 2, period := 3, t := 2, out := true } ∧
    view Channel.bnc0 (core_callback_t_500us (ticks 3 (bnc0_run 2 1 0 0 1))) =
        { view Channel.bnc0 (ticks 3 (bnc0_run 2 1 0 0 1)) with
            count_pulses := 1, period := 3, t := 2, out := true } :=
  ⟨((c24_period_boundary (ticks 3 (bnc0_run 2 1 2 0 1)) (by decide) (by decide) (by decide)
      (by decide)).1 (by decide)).1,
    ((c24_period_boundary (ticks 3 (bnc0_run 2 1 0 0 1)) (by decide) (by decide) (by decide)
      (by decide)).2 (by decide)).1⟩

/-! ## The state byte across a tick (C25) -/

/-- C26: for every state and each of the four channels, a call of
core_callback_t_500us leaves the channel's tail counter as it was, or leaves
both its period counter and its phase counter as they were: no call counts on
the tail and on the period or phase of the same channel. -/
theorem c26_tail_and_period_exclusive (ch : Channel) (s : Device) :
    (view ch (core_callback_t_500us s)).tail = (view ch s).tail ∨
      ((view ch (core_callback_t_500us s)).period = (view ch s).period ∧
        (view ch (core_callback_t_500us s)).t = (view ch s).t) := by
  rw [view_tick]
  exact chan_tick_exclusive (view ch s)

/-! ## Counters at zero (C27, C28) -/

/-- A tail counter at 0 is left at 0 by the tick: the decrement of the tail
counter is under the test tail > 0. -/
theorem chan_tick_tail_zero (c : Chan) (h : c.tail = 0) : (chan_tick c).tail = 0 := by
  unfold chan_tick
  split_ifs <;> (try simp only []) <;> omega

/-- A phase counter at 0 is left at 0 by the tick, and the period counter is
then left as it is: both decrements are under the test t > 0. -/
theorem chan_tick_t_zero (c : Chan) (h : c.t = 0) :
    (chan_tick c).t = 0 ∧ (chan_tick c).period = c.period := by
  unfold chan_tick
  split_ifs <;> simp only [and_true, true_and] <;> omega

/-- With on_ms + off_ms of the descriptor below 2^16, the period counter stays
equal to the phase counter or to the phase counter plus off_ms. -/
theorem period_phase_tick (c : Chan) (hd : c.desc.on_ms + c.desc.off_ms ≤ 65535)
    (hb : c.period ≤ 65535)
    (h : c.period = c.t + c.desc.off_ms ∨ c.period = c.t) :
    (chan_tick c).desc = c.desc ∧ (chan_tick c).period ≤ 65535 ∧
      ((chan_tick c).period = (chan_tick c).t + c.desc.off_ms ∨
        (chan_tick c).period = (chan_tick c).t) := by
  unfold chan_tick
  split_ifs <;> refine ⟨rfl, ?_, ?_⟩ <;> simp only [dec16, add16] at * <;> omega

theorem period_phase_ticks (k : Nat) (c : Chan) (hd : c.desc.on_ms + c.desc.off_ms ≤ 65535)
    (hb : c.period ≤ 65535)
    (h : c.period = c.t + c.desc.off_ms ∨ c.period = c.t) :
    (chan_ticks k c).period = (chan_ticks k c).t + c.desc.off_ms ∨
      (chan_ticks k c).period = (chan_ticks k c).t := by
  induction k generalizing c with
  | zero => exact h
  | succ n ih =>
    have h1 := period_phase_tick c hd hb h
    have h2 := ih (chan_tick c) (by rw [h1.1]; exact hd) h1.2.1 (by rw [h1.1]; exact h1.2.2)
    rw [h1.1] at h2
    exact h2

theorem count_pulses_tick_ne_zero (c : Chan) (h : c.count_pulses ≠ 0) :
    (chan_tick c).count_pulses ≠ 0 := by
  unfold chan_tick
  split_ifs <;> (try simp only []) <;> omega

theorem count_pulses_ticks_ne_zero (k : Nat) (c : Chan) (h : c.count_pulses ≠ 0) :
    (chan_ticks k c).count_pulses ≠ 0 := by
  induction k generalizing c with
  | zero => exact h
  | succ n ih => exact ih (chan_tick c) (count_pulses_tick_ne_zero c h)

theorem count_pulses_tick_one (c : Chan) (h : c.count_pulses = 1) :
    (chan_tick c).count_pulses = 1 := by
  unfold chan_tick
  have h0 : dec16 c.count_pulses = 0 := by rw [h]; rfl
  split_ifs <;> (try simp only []) <;> omega

theorem count_pulses_ticks_one (k : Nat) (c : Chan) (h : c.count_pulses = 1) :
    (chan_ticks k c).count_pulses = 1 := by
  induction k generalizing c with
  | zero => exact h
  | succ n ih => exact ih (chan_tick c) (count_pulses_tick_one c h)

/-- C27 (as stated) fails for the period counter. With REG_BNC0_ON = 65535,
REG_BNC0_OFF = 1, one pulse and TAIL = 0, the start loads the period counter
with (65535 + 1) mod 2^16 = 0; after the first tick BNC0 is active with tail
counter 0, phase counter 65535 and period counter 0, and the second tick
decrements the period counter from 0 to 65535. -/
theorem c27_period_wraps_counterexample :
    (ticks 1 (bnc0_run 65535 1 1 0 1)).app_regs.REG_BNCS_STATE &&& B_BNC0 ≠ 0 ∧
    (ticks 1 (bnc0_run 65535 1 1 0 1)).pulse_countdown.tail_bnc0 = 0 ∧
    (ticks 1 (bnc0_run 65535 1 1 0 1)).pulse_countdown.t_bnc0 = 65535 ∧
    (ticks 1 (bnc0_run 65535 1 1 0 1)).pulse_countdown.period_bnc0 = 0 ∧
    (core_callback_t_500us (ticks 1 (bnc0_run 65535 1 1 0 1))).pulse_countdown.period_bnc0 =
      65535 := by
  decide

/-- With ON + OFF of the started configuration at 65536 or more, the period
counter of the run passes through 0 while the phase counter is positive, and
the next tick decrements it to 65535. -/
theorem period_wraps_in_run (v : Chan) (A B : Nat) (hon : v.cfg.on_ms = A)
    (hoff : v.cfg.off_ms = B) (hA2 : A ≤ 65535) (hB : B ≤ 65535) (hsum : 65536 ≤ A + B)
    (hT : v.cfg.tail_ms ≤ 65535) :
    ∃ k0, (chan_ticks k0 (chan_start v)).period = 0 ∧
      (chan_tick (chan_ticks k0 (chan_start v))).period = 65535 := by
  have hst : ∃ k1 o, chan_ticks k1 (chan_start v) =
      on_state v.cfg v.cfg (add16 v.cfg.pulses 1) o := by
    by_cases h : v.cfg.tail_ms ≤ 65534
    · exact ⟨v.cfg.tail_ms + 1, true, (start_tail v h (by omega)).2⟩
    · have hT2 : v.cfg.tail_ms = 65535 := by omega
      have h1 : add16 v.cfg.tail_ms 1 = 0 := by rw [hT2]; rfl
      refine ⟨0, v.out, ?_⟩
      show chan_start v = _
      unfold chan_start on_state
      rw [start_signal_cfg, h1]
      simp
  obtain ⟨k1, o, hk1⟩ := hst
  have hi : A + B - 65536 + 1 < v.cfg.on_ms + v.cfg.off_ms := by rw [hon, hoff]; omega
  have hrun := cycle_run v.cfg v.cfg (add16 v.cfg.pulses 1) o (by omega) (by omega) (by omega)
    (A + B - 65536) (by omega)
  have hstep := in_cycle_step (on_state v.cfg v.cfg (add16 v.cfg.pulses 1) o) rfl rfl
    (show 1 ≤ v.cfg.on_ms by omega) (show v.cfg.on_ms ≤ 65535 by omega)
    (show v.cfg.off_ms ≤ 65535 by omega) (A + B - 65536) hi
  refine ⟨k1 + (A + B - 65536), ?_, ?_⟩
  · rw [chan_ticks_add, hk1, hrun]
    show (v.cfg.on_ms + v.cfg.off_ms - (A + B - 65536)) % 65536 = 0
    rw [hon, hoff]
    omega
  · rw [chan_ticks_add, hk1, hrun, hstep]
    show (v.cfg.on_ms + v.cfg.off_ms - (A + B - 65536 + 1)) % 65536 = 65535
    rw [hon, hoff]
    omega

/-- C27 (amended): in every state reached from a start of a BNC channel
followed by ticks, a tail counter at 0 and a phase counter at 0 are left at 0
by the next tick, their decrements being under the tests tail > 0 and t > 0;
the decrement of the period counter has no test of its own, and a period
counter at 0 is left at 0 by the next tick whenever ON + OFF of the started
configuration is at most 65535. When ON + OFF is 65536 or more, with ON, OFF
and TAIL at most 65535, the period counter is at 0 after some number of ticks
of the run and the next tick decrements it to 65535. -/
theorem c27_guarded_decrements (ch : Channel) (hch : ch = Channel.bnc0 ∨ ch = Channel.bnc1)
    (reg : Nat) (hreg : reg &&& state_bit ch ≠ 0) (s : Device) (k : Nat) :
    ((view ch (ticks k (app_write_REG_BNCS_STATE reg s).2)).tail = 0 →
      (view ch (core_callback_t_500us (ticks k (app_write_REG_BNCS_STATE reg s).2))).tail = 0) ∧
    ((view ch (ticks k (app_write_REG_BNCS_STATE reg s).2)).t = 0 →
      (view ch (core_callback_t_500us (ticks k (app_write_REG_BNCS_STATE reg s).2))).t = 0) ∧
    ((view ch s).cfg.on_ms + (view ch s).cfg.off_ms ≤ 65535 →
      (view ch (ticks k (app_write_REG_BNCS_STATE reg s).2)).period = 0 →
      (view ch (core_callback_t_500us (ticks k (app_write_REG_BNCS_STATE reg s).2))).period =
        0) ∧
    ((view ch s).cfg.on_ms ≤ 65535 → (view ch s).cfg.off_ms ≤ 65535 →
      (view ch s).cfg.tail_ms ≤ 65535 →
      65536 ≤ (view ch s).cfg.on_ms + (view ch s).cfg.off_ms →
      ∃ k0, (view ch (ticks k0 (app_write_REG_BNCS_STATE reg s).2)).period = 0 ∧
        (view ch (core_callback_t_500us
          (ticks k0 (app_write_REG_BNCS_STATE reg s).2))).period = 65535) := by
  refine ⟨?_, ?_, ?_, ?_⟩
  · rw [view_tick, view_start_ticks ch hch reg hreg]
    exact chan_tick_tail_zero _
  · rw [view_tick, view_start_ticks ch hch reg hreg]
    exact fun h => (chan_tick_t_zero _ h).1
  · rw [view_tick, view_start_ticks ch hch reg hreg]
    intro hd hz
    have hsum : add16 (view ch s).cfg.on_ms (view ch s).cfg.off_ms =
        (view ch s).cfg.on_ms + (view ch s).cfg.off_ms := by
      unfold add16; omega
    have hinv := period_phase_ticks k (chan_start (view ch s)) hd
      (by show add16 _ _ ≤ 65535; omega) (Or.inl hsum)
    have ht : (chan_ticks k (chan_start (view ch s))).t = 0 := by omega
    rw [(chan_tick_t_zero _ ht).2]
    exact hz
  · intro h1 h2 h3 h4
    obtain ⟨k0, e1, e2⟩ := period_wraps_in_run (view ch s) _ _ rfl rfl h1 h2 h4 h3
    refine ⟨k0, ?_, ?_⟩
    · rw [view_start_ticks ch hch reg hreg]; exact e1
    · rw [view_tick, view_start_ticks ch hch reg hreg]; exact e2

theorem c27_guarded_decrements_witness :
    (view Channel.bnc0 (ticks 5
        (app_write_REG_BNCS_STATE 1 (configure_bnc0 1 1 1 0 power_on)).2)).period = 0 ∧
    (view Channel.bnc0 (core_callback_t_500us (ticks 5
        (app_write_REG_BNCS_STATE 1 (configure_bnc0 1 1 1 0 power_on)).2))).period = 0 :=
  ⟨by decide,
    (c27_guarded_decrements Channel.bnc0 (Or.inl rfl) 1 (by decide)
      (configure_bnc0 1 1 1 0 power_on) 5).2.2.1 (by decide) (by decide)⟩

/-- C28 (as stated) fails for N = 65535: with REG_BNC0_PULSES = 65535 the
pulses counter of BNC0 right after the start is (65535 + 1) mod 2^16 = 0, not
N + 1. -/
theorem c28_pulse_counter_counterexample :
    (bnc0_run 1 1 65535 0 1).app_regs.REG_BNC0_PULSES = 65535 ∧
    (bnc0_run 1 1 65535 0 1).pulse_countdown.count_pulses_bnc0 = 0 := by
  decide

/-- C28 (amended): after a start of a BNC channel with PULSES = N, for N in
[1, 65534] the pulses counter equals N + 1 right after the start and is
non-zero after every later tick; for N = 0 it equals 1 right after the start
and after every later tick, the 0 of the infinite case being overwritten
inside the tick; for N = 65535 it is 0 right after the start. -/
theorem c28_pulse_counter (ch : Channel) (hch : ch = Channel.bnc0 ∨ ch = Channel.bnc1)
    (reg : Nat) (hreg : reg &&& state_bit ch ≠ 0) (s : Device) (N : Nat)
    (hN : (view ch s).cfg.pulses = N) :
    (1 ≤ N → N ≤ 65534 →
      (view ch (app_write_REG_BNCS_STATE reg s).2).count_pulses = N + 1 ∧
      ∀ k, (view ch (ticks k (app_write_REG_BNCS_STATE reg s).2)).count_pulses ≠ 0) ∧
    (N = 0 →
      ∀ k, (view ch (ticks k (app_write_REG_BNCS_STATE reg s).2)).count_pulses = 1) ∧
    (N = 65535 → (view ch (app_write_REG_BNCS_STATE reg s).2).count_pulses = 0) := by
  have h0 : view ch (app_write_REG_BNCS_STATE reg s).2 = chan_start (view ch s) := by
    rw [view_write_bncs ch hch, if_pos hreg]
  have hc : (chan_start (view ch s)).count_pulses = add16 N 1 := by
    rw [← hN]; rfl
  refine ⟨?_, ?_, ?_⟩
  · intro h1 h2
    have h3 : add16 N 1 = N + 1 := by unfold add16; omega
    constructor
    · rw [h0, hc, h3]
    · intro k
      rw [view_start_ticks ch hch reg hreg]
      exact count_pulses_ticks_ne_zero k _ (by rw [hc, h3]; omega)
  · intro h1 k
    rw [view_start_ticks ch hch reg hreg]
    exact count_pulses_ticks_one k _ (by rw [hc, h1]; rfl)
  · intro h1
    rw [h0, hc, h1]; rfl

theorem c28_pulse_counter_witness :
    (view Channel.bnc0
      (app_write_REG_BNCS_STATE 1 (configure_bnc0 2 1 3 0 power_on)).2).count_pulses = 3 + 1 ∧
    (view Channel.bnc0 (ticks 4
      (app_write_REG_BNCS_STATE 1 (configure_bnc0 2 1 3 0 power_on)).2)).count_pulses ≠ 0 :=
  have h := (c28_pulse_counter Channel.bnc0 (Or.inl rfl) 1 (by decide)
    (configure_bnc0 2 1 3 0 power_on) 3 rfl).1 (by decide) (by decide)
  ⟨h.1, h.2 4⟩

/-! ## Closed form of a finite run (C30) -/

/-- C30: BNC0 armed from a low line with ON = A in [1, 65535], OFF = B in
[0, 65535], PULSES = N in [1, 65535] and TAIL = T in [0, 65534]. After tick k
(k = 0 being the state right after arming) BNC_SIG1_O is high exactly when
T + 1 ≤ k < T + 1 + N * (A + B) and (k - (T + 1)) mod (A + B) < A, or when
T = 0 and k = 0; equivalently k lies in one of N windows of A ticks that
begin at T + 1 + j * (A + B), j < N, so that N = 65535 gives 65535 pulses.
The active bit is set after tick k exactly when k < T + 1 + N * (A + B). -/
theorem c30_finite_run_closed_form (s : Device) (reg A B N T : Nat)
    (hreg : reg &&& B_BNC0 ≠ 0)
    (hcfg : (view Channel.bnc0 s).cfg = ⟨A, B, N, T⟩) (hidle : s.ports.BNC_SIG1_O = false)
    (hA : 1 ≤ A) (hA2 : A ≤ 65535) (hB : B ≤ 65535) (hN : 1 ≤ N) (hN2 : N ≤ 65535)
    (hT : T ≤ 65534) (k : Nat) :
    ((ticks k (app_write_REG_BNCS_STATE reg s).2).ports.BNC_SIG1_O = true ↔
      (T = 0 ∧ k = 0) ∨
        (T + 1 ≤ k ∧ k < T + 1 + N * (A + B) ∧ (k - (T + 1)) % (A + B) < A)) ∧
    ((ticks k (app_write_REG_BNCS_STATE reg s).2).ports.BNC_SIG1_O = true ↔
      (T = 0 ∧ k = 0) ∨
        ∃ j, j < N ∧ T + 1 + j * (A + B) ≤ k ∧ k < T + 1 + j * (A + B) + A) ∧
    ((ticks k (app_write_REG_BNCS_STATE reg s).2).app_regs.REG_BNCS_STATE &&& B_BNC0 ≠ 0 ↔
      k < T + 1 + N * (A + B)) := by
  have hv := view_start_ticks Channel.bnc0 (Or.inl rfl) reg hreg s k
  have ho := finite_trace_out (view Channel.bnc0 s) A B N T hcfg hidle hA hA2 hB hN hN2 hT k
  have ha := finite_trace_active (view Channel.bnc0 s) A B N T hcfg hA hA2 hB hN hN2 hT k
  rw [← hv] at ho ha
  have ho2 : (ticks k (app_write_REG_BNCS_STATE reg s).2).ports.BNC_SIG1_O = true ↔
      (T = 0 ∧ k = 0) ∨
        ∃ j, j < N ∧ T + 1 + j * (A + B) ≤ k ∧ k < T + 1 + j * (A + B) + A := ho
  have hw := window_iff A B N (k - (T + 1)) hA
  refine ⟨ho2.trans (or_congr Iff.rfl ?_), ho2, ?_⟩
  · constructor
    · rintro ⟨j, hj, h1, h2⟩
      have h3 := hw.mpr ⟨j, hj, by omega, by omega⟩
      exact ⟨by omega, by omega, h3.2⟩
    · rintro ⟨h1, h2, h3⟩
      obtain ⟨j, hj, h4, h5⟩ := hw.mp ⟨by omega, h3⟩
      exact ⟨j, hj, by omega, by omega⟩
  · have ha2 : decide ((ticks k (app_write_REG_BNCS_STATE reg s).2).app_regs.REG_BNCS_STATE
        &&& B_BNC0 ≠ 0) = true ↔ k < T + 1 + N * (A + B) := ha
    rw [decide_eq_true_iff] at ha2
    exact ha2

theorem c30_finite_run_closed_form_witness :
    (ticks 131069
      (app_write_REG_BNCS_STATE 1 (configure_bnc0 1 1 65535 0 power_on)).2).ports.BNC_SIG1_O =
        true ∧
    ¬ ((ticks 131071
      (app_write_REG_BNCS_STATE 1
        (configure_bnc0 1 1 65535 0 power_on)).2).app_regs.REG_BNCS_STATE &&& B_BNC0 ≠ 0) :=
  ⟨(c30_finite_run_closed_form (configure_bnc0 1 1 65535 0 power_on) 1 1 1 65535 0 (by decide)
      rfl rfl (by decide) (by decide) (by decide) (by decide) (by decide) (by decide)
      131069).1.mpr (Or.inr ⟨by decide, by decide, by decide⟩),
    fun h => absurd ((c30_finite_run_closed_form (configure_bnc0 1 1 65535 0 power_on) 1 1 1
      65535 0 (by decide) rfl rfl (by decide) (by decide) (by decide) (by decide) (by decide)
      (by decide) 131071).2.2.mp h) (by decide)⟩

/-! ## Idle channels and their lines (C29) -/

theorem idle_deasserted_iff (s : Device) :
    idle_deasserted s ↔
      ((view Channel.bnc0 s).active = false → (view Channel.bnc0 s).out = false) ∧
      ((view Channel.bnc1 s).active = false → (view Channel.bnc1 s).out = false) := by
  simp [idle_deasserted, view]

theorem chan_tick_idle_low (c : Chan) (h : c.active = false → c.out = false) :
    (chan_tick c).active = false → (chan_tick c).out = false := by
  cases ha : c.active
  · rw [chan_tick_idle c ha]
    exact h
  · unfold chan_tick
    split_ifs <;> simp [ha]

theorem view_update_digipot_bit (ch : Channel) (data i : Nat) (s : Device) :
    view ch (update_digipot_bit data i s) = view ch s := by
  unfold update_digipot_bit
  split_ifs <;> cases ch <;> rfl

theorem view_update_digipot_bits (ch : Channel) (data : Nat) (l : List Nat) (s : Device) :
    view ch (l.foldl (fun d i => update_digipot_bit data i d) s) = view ch s := by
  induction l generalizing s with
  | nil => rfl
  | cons i l ih =>
    rw [List.foldl_cons, ih, view_update_digipot_bit]

theorem view_update_digipot (ch : Channel) (data : Nat) (s : Device) :
    view ch (update_digipot data s) = view ch s := by
  unfold update_digipot
  have h1 : ∀ d, view ch (set_POT_CS d) = view ch d := fun d => by cases ch <;> rfl
  have h2 : ∀ d, view ch (clr_POT_CS d) = view ch d := fun d => by cases ch <;> rfl
  have h3 : ∀ d, view ch (set_POT_SDI d) = view ch d := fun d => by cases ch <;> rfl
  have h4 : ∀ d, view ch (clr_POT_SDI d) = view ch d := fun d => by cases ch <;> rfl
  have h5 : ∀ d, view ch (set_POT_CLK d) = view ch d := fun d => by cases ch <;> rfl
  have h6 : ∀ d, view ch (clr_POT_CLK d) = view ch d := fun d => by cases ch <;> rfl
  simp only [h1, h2, h3, h4, h5, h6, view_update_digipot_bits]

theorem view_spad_switch_events (ch : Channel) (state : Nat) (s : Device) :
    view ch (spad_switch_events state s) = view ch s := by
  unfold spad_switch_events
  simp only [set_MCU_TO_RELAY, clr_MCU_TO_RELAY, core_func_send_event]
  split_ifs <;> cases ch <;> rfl

theorem view_app_write_REG_SPAD_SWITCH (ch : Channel) (reg : Nat) (s : Device) :
    view ch (app_write_REG_SPAD_SWITCH reg s).2 = view ch s := by
  unfold app_write_REG_SPAD_SWITCH
  show view ch (if reg = 0 ∨ reg = 1 then spad_switch_events reg s else s) = view ch s
  split_ifs
  · exact view_spad_switch_events ch reg s
  · rfl

theorem view_app_write_REG_LASER_INTENSITY (ch : Channel) (reg : Nat) (s : Device) :
    view ch (app_write_REG_LASER_INTENSITY reg s).2 = view ch s := by
  unfold app_write_REG_LASER_INTENSITY
  show view ch (if reg ≥ 0 ∧ reg ≤ 255 then update_digipot reg (put_REG_LASER_INTENSITY reg s)
    else s) = view ch s
  split_ifs
  · rw [view_update_digipot]
    cases ch <;> rfl
  · rfl

/-- The standby callback stops both BNC channels. -/
theorem view_standby (ch : Channel) (hch : ch = Channel.bnc0 ∨ ch = Channel.bnc1)
    (b : Nat) (s : Device) :
    view ch (core_callback_device_to_standby b s) = chan_stop (view ch s) := by
  unfold core_callback_device_to_standby
  simp only []
  rw [view_app_write_REG_SPAD_SWITCH, view_app_write_REG_LASER_INTENSITY]
  have h1 : ∀ v d, view ch (put_REG_LASER_INTENSITY v d) = view ch d :=
    fun v d => by cases ch <;> rfl
  have h2 : ∀ v d, view ch (app_write_REG_SIGNAL_STATE v d).2 = view ch d :=
    fun v d => by rcases hch with h | h <;> subst h <;> rfl
  have h3 : ∀ v d, view ch (put_REG_SIGNAL_STATE v d) = view ch d :=
    fun v d => by rcases hch with h | h <;> subst h <;> rfl
  rw [h1, h2, h3, view_write_bncs ch hch]
  have h4 : (put_REG_BNCS_STATE 0 s).app_regs.REG_BNCS_STATE = 0 := rfl
  rw [h4, if_neg (by simp)]
  rcases hch with h | h <;> subst h <;> rfl

theorem idle_deasserted_boot_op (op : BootOp) (hop : is_reset op = false)
    (s : Device) (h : idle_deasserted s) : idle_deasserted (boot_op op s) := by
  rw [idle_deasserted_iff] at h ⊢
  cases op with
  | write_bncs reg =>
    simp only [boot_op]
    rw [view_write_bncs Channel.bnc0 (Or.inl rfl), view_write_bncs Channel.bnc1 (Or.inr rfl)]
    constructor <;> split_ifs <;> simp [chan_start, chan_stop]
  | tick =>
    simp only [boot_op]
    rw [view_tick, view_tick]
    exact ⟨chan_tick_idle_low _ h.1, chan_tick_idle_low _ h.2⟩
  | standby b =>
    simp only [boot_op]
    rw [view_standby Channel.bnc0 (Or.inl rfl), view_standby Channel.bnc1 (Or.inr rfl)]
    exact ⟨fun _ => rfl, fun _ => rfl⟩
  | reset sw key => exact absurd hop (by simp [is_reset])

theorem idle_deasserted_boot_ops (ops : List BootOp) (hops : no_reset ops)
    (s : Device) (h : idle_deasserted s) : idle_deasserted (boot_ops ops s) := by
  induction ops generalizing s with
  | nil => exact h
  | cons op ops ih =>
    show idle_deasserted (boot_ops ops (boot_op op s))
    exact ih (fun o ho => hops o (List.mem_cons_of_mem op ho)) _
      (idle_deasserted_boot_op op (hops op (List.mem_cons_self op ops)) s h)

theorem idle_deasserted_boot (sw key : Nat) : idle_deasserted (boot sw key) := by
  unfold idle_deasserted
  exact ⟨fun _ => rfl, fun _ => rfl⟩

/-- C29 (as stated) fails on a register reset after boot: a write of 1 to
REG_BNCS_STATE asserts BNC_SIG1_O within the call (all configuration registers
are 0 after boot, so TAIL = 0); core_callback_reset_registers then stores 0 in
REG_BNCS_STATE and leaves the pin as it is, so BNC0 has its active bit clear
and its line high. -/
theorem c29_reset_counterexample :
    (boot_ops [BootOp.write_bncs 1, BootOp.reset 0 0]
      (boot 0 0)).app_regs.REG_BNCS_STATE &&& B_BNC0 = 0 ∧
    (boot_ops [BootOp.write_bncs 1, BootOp.reset 0 0] (boot 0 0)).ports.BNC_SIG1_O = true ∧
    ¬ idle_deasserted (boot_ops [BootOp.write_bncs 1, BootOp.reset 0 0] (boot 0 0)) := by
  refine ⟨by decide, by decide, ?_⟩
  unfold idle_deasserted
  decide

/-! ## One period with a wrapped period counter (C31) -/

/-- The objects of BNC0 at the first tick of an on-time, read off the
globals. -/
theorem view_bnc0_on_state (s : Device) (hact : s.app_regs.REG_BNCS_STATE &&& B_BNC0 ≠ 0)
    (htail : s.pulse_countdown.tail_bnc0 = 0)
    (ht : s.pulse_countdown.t_bnc0 = s.s_bnc_0.on_ms)
    (hper : s.pulse_countdown.period_bnc0 = add16 s.s_bnc_0.on_ms s.s_bnc_0.off_ms) :
    view Channel.bnc0 s =
      on_state (view Channel.bnc0 s).cfg s.s_bnc_0 s.pulse_countdown.count_pulses_bnc0
        s.ports.BNC_SIG1_O := by
  simp only [view, on_state, htail, ht, hper, hact, ne_eq, not_false_eq_true, decide_True]

/-- C31: a period of BNC0 that starts with the phase counter at A = on_ms of
the descriptor and the period counter at (A + B) mod 2^16, B = off_ms, with
A and B in [1, 65535] (so also when A + B ≥ 65536). For i < A ticks the
channel is in its on-phase with phase counter A - i > 0 and
(period - phase) mod 2^16 = B; after exactly A ticks the line is low and the
phase counter is B; for A ≤ i < A + B the phase counter is A + B - i > 0 and
equals the period counter; after A + B - 1 ticks both are 1, and the tick
number A + B takes the period boundary. The pulses counter and the active bit
do not change before that tick. -/
theorem c31_period_overflow_harmless (s : Device) (A B : Nat)
    (hact : s.app_regs.REG_BNCS_STATE &&& B_BNC0 ≠ 0)
    (htail : s.pulse_countdown.tail_bnc0 = 0)
    (hon : s.s_bnc_0.on_ms = A) (hoff : s.s_bnc_0.off_ms = B)
    (ht : s.pulse_countdown.t_bnc0 = A)
    (hper : s.pulse_countdown.period_bnc0 = (A + B) % 2 ^ 16)
    (hA : 1 ≤ A) (hA2 : A ≤ 65535) (hB : 1 ≤ B) (hB2 : B ≤ 65535) :
    (∀ i, i < A →
      (ticks i s).pulse_countdown.t_bnc0 = A - i ∧
      ((ticks i s).pulse_countdown.period_bnc0 + 2 ^ 16 -
        (ticks i s).pulse_countdown.t_bnc0) % 2 ^ 16 = B ∧
      (ticks i s).ports.BNC_SIG1_O = s.ports.BNC_SIG1_O) ∧
    ((ticks A s).ports.BNC_SIG1_O = false ∧ (ticks A s).pulse_countdown.t_bnc0 = B) ∧
    (∀ i, A ≤ i → i < A + B →
      (ticks i s).pulse_countdown.t_bnc0 = A + B - i ∧
      (ticks i s).pulse_countdown.period_bnc0 = (ticks i s).pulse_countdown.t_bnc0 ∧
      (ticks i s).ports.BNC_SIG1_O = false) ∧
    (∀ i, i < A + B →
      0 < (ticks i s).pulse_countdown.t_bnc0 ∧
      (ticks i s).pulse_countdown.count_pulses_bnc0 = s.pulse_countdown.count_pulses_bnc0 ∧
      (ticks i s).app_regs.REG_BNCS_STATE &&& B_BNC0 ≠ 0) ∧
    ((ticks (A + B - 1) s).pulse_countdown.t_bnc0 = 1 ∧
      (ticks (A + B - 1) s).pulse_countdown.period_bnc0 = 1) ∧
    view Channel.bnc0 (ticks (A + B) s) =
      (if dec16 s.pulse_countdown.count_pulses_bnc0 > 1 then
        on_state (view Channel.bnc0 s).cfg s.s_bnc_0
          (dec16 s.pulse_countdown.count_pulses_bnc0) true
      else if dec16 s.pulse_countdown.count_pulses_bnc0 = 1 then
        end_state (view Channel.bnc0 s).cfg s.s_bnc_0
      else on_state (view Channel.bnc0 s).cfg s.s_bnc_0 1 true) := by
  have hv := view_bnc0_on_state s hact htail (by rw [ht, hon])
    (by rw [hper, hon, hoff]; rfl)
  have hrun : ∀ i, i < A + B → view Channel.bnc0 (ticks i s) =
      in_cycle (on_state (view Channel.bnc0 s).cfg s.s_bnc_0
        s.pulse_countdown.count_pulses_bnc0 s.ports.BNC_SIG1_O) i := by
    intro i hi
    rw [view_ticks, hv]
    exact cycle_run _ s.s_bnc_0 _ _ (by omega) (by omega) (by omega) i (by omega)
  have ht' : ∀ i, i < A + B → (ticks i s).pulse_countdown.t_bnc0 =
      if i < A then A - i else A + B - i := by
    intro i hi
    have h := congrArg Chan.t (hrun i hi)
    simp only [in_cycle, on_state, hon, hoff] at h
    exact h
  have hp' : ∀ i, i < A + B → (ticks i s).pulse_countdown.period_bnc0 =
      (A + B - i) % 65536 := by
    intro i hi
    have h := congrArg Chan.period (hrun i hi)
    simp only [in_cycle, on_state, hon, hoff] at h
    exact h
  have ho' : ∀ i, i < A + B → (ticks i s).ports.BNC_SIG1_O =
      if i < A then s.ports.BNC_SIG1_O else false := by
    intro i hi
    have h := congrArg Chan.out (hrun i hi)
    simp only [in_cycle, on_state, hon] at h
    exact h
  refine ⟨?_, ?_, ?_, ?_, ?_, ?_⟩
  · intro i hi
    rw [ht' i (by omega), hp' i (by omega), ho' i (by omega), if_pos hi, if_pos hi]
    refine ⟨rfl, ?_, rfl⟩
    omega
  · rw [ht' A (by omega), ho' A (by omega), if_neg (by omega), if_neg (by omega)]
    exact ⟨rfl, by omega⟩
  · intro i h1 h2
    rw [ht' i h2, hp' i h2, ho' i h2, if_neg (by omega), if_neg (by omega)]
    refine ⟨rfl, ?_, rfl⟩
    omega
  · intro i hi
    refine ⟨?_, ?_, ?_⟩
    · rw [ht' i hi]; split_ifs <;> omega
    · exact congrArg Chan.count_pulses (hrun i hi)
    · have h := congrArg Chan.active (hrun i hi)
      have h2 : decide ((ticks i s).app_regs.REG_BNCS_STATE &&& B_BNC0 ≠ 0) = true := h
      exact of_decide_eq_true h2
  · rw [ht' _ (by omega), hp' _ (by omega), if_neg (by omega)]
    constructor <;> omega
  · rw [view_ticks, hv]
    have h := cycle_end (view Channel.bnc0 s).cfg s.s_bnc_0
      s.pulse_countdown.count_pulses_bnc0 s.ports.BNC_SIG1_O (by omega) (by omega) (by omega)
    rw [hon, hoff] at h
    exact h

theorem c31_period_overflow_harmless_witness :
    (ticks 65535 (ticks 1 (bnc0_run 65535 1 2 0 1))).ports.BNC_SIG1_O = false ∧
    (ticks 65535 (ticks 1 (bnc0_run 65535 1 2 0 1))).pulse_countdown.t_bnc0 = 1 ∧
    (ticks 1 (bnc0_run 65535 1 2 0 1)).pulse_countdown.period_bnc0 = (65535 + 1) % 2 ^ 16 :=
  have h := c31_period_overflow_harmless (ticks 1 (bnc0_run 65535 1 2 0 1)) 65535 1
    (by decide) (by decide) (by decide) (by decide) (by decide) (by decide) (by decide)
    (by decide) (by decide) (by decide)
  ⟨h.2.1.1, h.2.1.2, by decide⟩

/-! ## A tail delay of 65535 (C32) -/

/-- A start with TAIL = 65535 leaves the channel at the first tick of an
on-time with its line as it was. -/
theorem start_wrapped_tail (v : Chan) (hT : v.cfg.tail_ms = 65535) :
    chan_start v = on_state v.cfg v.cfg (add16 v.cfg.pulses 1) v.out := by
  have h1 : add16 v.cfg.tail_ms 1 = 0 := by rw [hT]; rfl
  unfold chan_start on_state
  rw [start_signal_cfg, h1]
  simp

/-- The objects of a channel k ticks after a start with TAIL = 65535 and a
finite pulse count. -/
theorem wrapped_tail_trace (v : Chan) (A B N : Nat) (hcfg : v.cfg = ⟨A, B, N, 65535⟩)
    (hA : 1 ≤ A) (hA2 : A ≤ 65535) (hB : B ≤ 65535) (hN : 1 ≤ N) (hN2 : N ≤ 65535)
    (k : Nat) :
    chan_ticks k (chan_start v) =
      if k < A + B then in_cycle (on_state v.cfg v.cfg (add16 N 1) v.out) k
      else if k < N * (A + B) then
        in_cycle (on_state v.cfg v.cfg ((N + 1 - k / (A + B)) % 65536) true) (k % (A + B))
      else end_state v.cfg v.cfg := by
  have c1 : v.cfg.on_ms = A := by rw [hcfg]
  have c2 : v.cfg.off_ms = B := by rw [hcfg]
  have c3 : v.cfg.pulses = N := by rw [hcfg]
  have c4 : v.cfg.tail_ms = 65535 := by rw [hcfg]
  have hP : 0 < A + B := by omega
  rw [start_wrapped_tail v c4, c3]
  by_cases h : k < A + B
  · rw [if_pos h]
    exact cycle_run v.cfg v.cfg _ _ (by omega) (by omega) (by omega) k (by omega)
  · rw [if_neg h]
    obtain ⟨m, rfl⟩ : ∃ m, k = (A + B) + m := ⟨k - (A + B), by omega⟩
    have hend := cycle_end v.cfg v.cfg (add16 N 1) v.out (by omega) (by omega) (by omega)
    rw [c1, c2] at hend
    rw [chan_ticks_add, hend]
    have hdiv : (A + B + m) / (A + B) = m / (A + B) + 1 := by
      rw [Nat.add_comm, Nat.add_div_right m hP]
    have hmod : (A + B + m) % (A + B) = m % (A + B) := by
      rw [Nat.add_comm, Nat.add_mod_right]
    rw [hdiv, hmod]
    by_cases h1 : N = 1
    · subst h1
      have e1 : ¬ dec16 (add16 1 1) > 1 := by decide
      have e2 : dec16 (add16 1 1) = 1 := by decide
      rw [if_neg e1, if_pos e2, end_state_ticks, if_neg (by omega)]
    · have e1 : dec16 (add16 N 1) = add16 (N - 1) 1 := by unfold dec16 add16; omega
      have e2 : add16 (N - 1) 1 > 1 := by unfold add16; omega
      rw [e1, if_pos e2]
      have hr := finite_run v.cfg v.cfg (N - 1) (by omega) (by omega) (by omega) (by omega)
        (by omega) m
      rw [c1, c2] at hr
      rw [hr]
      have hmul : N * (A + B) = (N - 1) * (A + B) + (A + B) := by
        conv_lhs => rw [show N = N - 1 + 1 by omega]
        rw [Nat.add_mul, Nat.one_mul]
      by_cases h2 : m < (N - 1) * (A + B)
      · have hq : m / (A + B) < N - 1 := (Nat.div_lt_iff_lt_mul hP).2 h2
        rw [if_pos h2, if_pos (by omega)]
        have e3 : N - 1 + 1 - m / (A + B) = N + 1 - (m / (A + B) + 1) := by omega
        rw [e3]
      · rw [if_neg h2, if_neg (by omega)]

/-- C32: BNC0 armed from a low line with TAIL = 65535, ON = A in [1, 65535],
OFF = B in [0, 65535] and PULSES = N in [1, 65535]. The start leaves the tail
counter at 0 and the line low; the first tick already counts on the period
counter; the line is high after tick k exactly when k lies in one of the
N - 1 windows of A ticks that begin at j * (A + B), 1 ≤ j < N (none for
N = 1), so the first on-time passes with the line low; the active bit is set
after tick k exactly when k < N * (A + B). -/
theorem c32_tail_65535_run (s : Device) (reg A B N : Nat) (hreg : reg &&& B_BNC0 ≠ 0)
    (hcfg : (view Channel.bnc0 s).cfg = ⟨A, B, N, 65535⟩)
    (hidle : s.ports.BNC_SIG1_O = false)
    (hA : 1 ≤ A) (hA2 : A ≤ 65535) (hB : B ≤ 65535) (hN : 1 ≤ N) (hN2 : N ≤ 65535) :
    (app_write_REG_BNCS_STATE reg s).2.pulse_countdown.tail_bnc0 = 0 ∧
    (app_write_REG_BNCS_STATE reg s).2.ports.BNC_SIG1_O = false ∧
    (1 < A + B →
      (ticks 1 (app_write_REG_BNCS_STATE reg s).2).pulse_countdown.tail_bnc0 = 0 ∧
      (ticks 1 (app_write_REG_BNCS_STATE reg s).2).pulse_countdown.period_bnc0 =
        (A + B - 1) % 2 ^ 16 ∧
      (ticks 1 (app_write_REG_BNCS_STATE reg s).2).pulse_countdown.t_bnc0 =
        if 1 < A then A - 1 else B) ∧
    (∀ k, (ticks k (app_write_REG_BNCS_STATE reg s).2).ports.BNC_SIG1_O = true ↔
      ∃ j, 1 ≤ j ∧ j < N ∧ j * (A + B) ≤ k ∧ k < j * (A + B) + A) ∧
    (∀ k, (ticks k (app_write_REG_BNCS_STATE reg s).2).app_regs.REG_BNCS_STATE &&& B_BNC0 ≠ 0 ↔
      k < N * (A + B)) := by
  have hP : 0 < A + B := by omega
  have hv : ∀ k, view Channel.bnc0 (ticks k (app_write_REG_BNCS_STATE reg s).2) = _ :=
    fun k => (view_start_ticks Channel.bnc0 (Or.inl rfl) reg hreg s k).trans
      (wrapped_tail_trace (view Channel.bnc0 s) A B N hcfg hA hA2 hB hN hN2 k)
  have c1 : (view Channel.bnc0 s).cfg.on_ms = A := by rw [hcfg]
  have c2 : (view Channel.bnc0 s).cfg.off_ms = B := by rw [hcfg]
  have ho : (view Channel.bnc0 s).out = false := hidle
  have h0 := hv 0
  rw [if_pos hP] at h0
  refine ⟨?_, ?_, ?_, ?_, ?_⟩
  · exact congrArg Chan.tail h0
  · have h := congrArg Chan.out h0
    simp only [in_cycle, on_state, ho, ite_self] at h
    exact h
  · intro h1
    have h := hv 1
    rw [if_pos h1] at h
    refine ⟨congrArg Chan.tail h, ?_, ?_⟩
    · have h2 := congrArg Chan.period h
      simp only [in_cycle, on_state, c1, c2] at h2
      exact h2
    · have h2 := congrArg Chan.t h
      simp only [in_cycle, on_state, c1, c2] at h2
      have h3 : (ticks 1 (app_write_REG_BNCS_STATE reg s).2).pulse_countdown.t_bnc0 = _ := h2
      rw [h3]
      split_ifs <;> omega
  · intro k
    have h := congrArg Chan.out (hv k)
    have h' : (ticks k (app_write_REG_BNCS_STATE reg s).2).ports.BNC_SIG1_O = _ := h
    rw [h']
    by_cases hk : k < A + B
    · rw [if_pos hk]
      simp only [in_cycle, on_state, ho, ite_self]
      constructor
      · intro hf; exact absurd hf (by decide)
      · rintro ⟨j, hj1, _, hj3, _⟩
        have : 1 * (A + B) ≤ j * (A + B) := Nat.mul_le_mul_right _ hj1
        omega
    · rw [if_neg hk]
      have hw := window_iff A B N k hA
      by_cases hk2 : k < N * (A + B)
      · rw [if_pos hk2]
        simp only [in_cycle, on_state, c1]
        constructor
        · intro hf
          have hm : k % (A + B) < A := by
            by_contra hc
            rw [if_neg hc] at hf
            exact absurd hf (by decide)
          obtain ⟨j, hj, h1, h2⟩ := hw.mp ⟨hk2, hm⟩
          refine ⟨j, ?_, hj, h1, h2⟩
          by_contra hc
          have : j = 0 := by omega
          subst this
          omega
        · rintro ⟨j, _, hj, h1, h2⟩
          have hm := (hw.mpr ⟨j, hj, h1, h2⟩).2
          rw [if_pos hm]
      · rw [if_neg hk2]
        constructor
        · intro hf; exact absurd hf (by simp [end_state])
        · rintro ⟨j, _, hj, h1, h2⟩
          exact absurd (hw.mpr ⟨j, hj, h1, h2⟩).1 hk2
  · intro k
    have hd : ((ticks k (app_write_REG_BNCS_STATE reg s).2).app_regs.REG_BNCS_STATE
        &&& B_BNC0 ≠ 0) ↔
        (view Channel.bnc0 (ticks k (app_write_REG_BNCS_STATE reg s).2)).active = true :=
      decide_eq_true_iff.symm
    rw [hd, hv k]
    by_cases hk : k < A + B
    · rw [if_pos hk]
      have : 1 * (A + B) ≤ N * (A + B) := Nat.mul_le_mul_right _ hN
      simp only [in_cycle, on_state, true_iff]
      omega
    · rw [if_neg hk]
      by_cases hk2 : k < N * (A + B)
      · rw [if_pos hk2]
        simp only [in_cycle, on_state, true_iff]
        exact hk2
      · rw [if_neg hk2]
        simp only [end_state, false_iff]
        simpa using hk2

theorem c32_tail_65535_run_witness :
    (ticks 6 (app_write_REG_BNCS_STATE 1
      (configure_bnc0 2 3 3 65535 power_on)).2).ports.BNC_SIG1_O = true ∧
    ¬ ((ticks 15 (app_write_REG_BNCS_STATE 1
      (configure_bnc0 2 3 3 65535 power_on)).2).app_regs.REG_BNCS_STATE &&& B_BNC0 ≠ 0) :=
  have h := c32_tail_65535_run (configure_bnc0 2 3 3 65535 power_on) 1 2 3 3 (by decide)
    rfl rfl (by decide) (by decide) (by decide) (by decide) (by decide)
  ⟨(h.2.2.2.1 6).mpr ⟨1, by decide, by decide, by decide, by decide⟩,
    fun hh => absurd ((h.2.2.2.2 15).mp hh) (by decide)⟩

/-! ## An on-time of zero (C33) -/

/-- C33: a start of BNC0 with REG_BNC0_ON = 0 is accepted (the handler
returns true and sets the active bit) whatever OFF, PULSES and TAIL hold.
After it every tick leaves the counters, the descriptor, the line and the
active bit of BNC0 as the start left them, so the active bit stays set after
any number of ticks; with TAIL = 0 the line asserted by the start is high
after any number of ticks; a write of REG_BNCS_STATE with B_BNC0 clear lowers
the line. -/
theorem c33_zero_on_time_stalls (s : Device) (reg : Nat) (hreg : reg &&& B_BNC0 ≠ 0)
    (hon : s.app_regs.REG_BNC0_ON = 0) :
    (app_write_REG_BNCS_STATE reg s).1 = true ∧
    (∀ k, view Channel.bnc0 (ticks k (app_write_REG_BNCS_STATE reg s).2) =
      view Channel.bnc0 (app_write_REG_BNCS_STATE reg s).2) ∧
    (∀ k, (ticks k (app_write_REG_BNCS_STATE reg s).2).app_regs.REG_BNCS_STATE &&& B_BNC0 ≠ 0) ∧
    (s.app_regs.REG_BNC0_TAIL = 0 →
      ∀ k, (ticks k (app_write_REG_BNCS_STATE reg s).2).ports.BNC_SIG1_O = true) ∧
    (∀ k reg2, reg2 &&& B_BNC0 = 0 →
      (app_write_REG_BNCS_STATE reg2
        (ticks k (app_write_REG_BNCS_STATE reg s).2)).2.ports.BNC_SIG1_O = false) := by
  have h0 : view Channel.bnc0 (app_write_REG_BNCS_STATE reg s).2 =
      chan_start (view Channel.bnc0 s) := by
    rw [view_write_bncs Channel.bnc0 (Or.inl rfl),
      if_pos (show reg &&& state_bit Channel.bnc0 ≠ 0 from hreg)]
  have hk : ∀ k, view Channel.bnc0 (ticks k (app_write_REG_BNCS_STATE reg s).2) =
      chan_start (view Channel.bnc0 s) := by
    intro k
    rw [view_ticks, h0]
    exact chan_ticks_hold k _ hon hon
  refine ⟨rfl, fun k => by rw [hk k, h0], fun k => ?_, fun hT k => ?_, fun k reg2 h2 => ?_⟩
  · have h := congrArg Chan.active (hk k)
    have h2 : decide ((ticks k (app_write_REG_BNCS_STATE reg s).2).app_regs.REG_BNCS_STATE
        &&& B_BNC0 ≠ 0) = true := h
    exact of_decide_eq_true h2
  · have h := congrArg Chan.out (hk k)
    have h1 : add16 s.app_regs.REG_BNC0_TAIL 1 = 1 := by rw [hT]; rfl
    have h2 : (ticks k (app_write_REG_BNCS_STATE reg s).2).ports.BNC_SIG1_O =
        if add16 s.app_regs.REG_BNC0_TAIL 1 = 1 then true else s.ports.BNC_SIG1_O := h
    rw [h2, if_pos h1]
  · have h := view_stop Channel.bnc0 (Or.inl rfl) reg2 h2
      (ticks k (app_write_REG_BNCS_STATE reg s).2)
    exact congrArg Chan.out h

theorem c33_zero_on_time_stalls_witness :
    (ticks 7 (app_write_REG_BNCS_STATE 1
      (configure_bnc0 0 3 2 0 power_on)).2).ports.BNC_SIG1_O = true ∧
    (ticks 7 (app_write_REG_BNCS_STATE 1
      (configure_bnc0 0 3 2 0 power_on)).2).app_regs.REG_BNCS_STATE &&& B_BNC0 ≠ 0 :=
  have h := c33_zero_on_time_stalls (configure_bnc0 0 3 2 0 power_on) 1 (by decide) rfl
  ⟨h.2.2.2.1 rfl 7, h.2.2.1 7⟩

/-! ## Standby (C34) -/

theorem app_regs_update_digipot_bit (data i : Nat) (s : Device) :
    (update_digipot_bit data i s).app_regs = s.app_regs := by
  unfold update_digipot_bit
  split_ifs <;> rfl

theorem app_regs_update_digipot_bits (data : Nat) (l : List Nat) (s : Device) :
    (l.foldl (fun d i => update_digipot_bit data i d) s).app_regs = s.app_regs := by
  induction l generalizing s with
  | nil => rfl
  | cons i l ih => rw [List.foldl_cons, ih, app_regs_update_digipot_bit]

theorem app_regs_update_digipot (data : Nat) (s : Device) :
    (update_digipot data s).app_regs = s.app_regs := by
  unfold update_digipot
  have h1 : ∀ d, (set_POT_CS d).app_regs = d.app_regs := fun d => rfl
  have h2 : ∀ d, (clr_POT_CS d).app_regs = d.app_regs := fun d => rfl
  have h3 : ∀ d, (set_POT_SDI d).app_regs = d.app_regs := fun d => rfl
  have h4 : ∀ d, (clr_POT_SDI d).app_regs = d.app_regs := fun d => rfl
  have h5 : ∀ d, (set_POT_CLK d).app_regs = d.app_regs := fun d => rfl
  have h6 : ∀ d, (clr_POT_CLK d).app_regs = d.app_regs := fun d => rfl
  simp only [h1, h2, h3, h4, h5, h6, app_regs_update_digipot_bits]

theorem app_regs_spad_switch_events (state : Nat) (s : Device) :
    (spad_switch_events state s).app_regs.REG_BNCS_STATE = s.app_regs.REG_BNCS_STATE ∧
    (spad_switch_events state s).app_regs.REG_SIGNAL_STATE = s.app_regs.REG_SIGNAL_STATE ∧
    (spad_switch_events state s).app_regs.REG_LASER_INTENSITY =
      s.app_regs.REG_LASER_INTENSITY := by
  unfold spad_switch_events
  simp only [set_MCU_TO_RELAY, clr_MCU_TO_RELAY, core_func_send_event]
  split_ifs <;> exact ⟨rfl, rfl, rfl⟩

theorem app_regs_app_write_REG_SPAD_SWITCH (reg : Nat) (s : Device) :
    (app_write_REG_SPAD_SWITCH reg s).2.app_regs.REG_BNCS_STATE = s.app_regs.REG_BNCS_STATE ∧
    (app_write_REG_SPAD_SWITCH reg s).2.app_regs.REG_SIGNAL_STATE =
      s.app_regs.REG_SIGNAL_STATE ∧
    (app_write_REG_SPAD_SWITCH reg s).2.app_regs.REG_LASER_INTENSITY =
      s.app_regs.REG_LASER_INTENSITY := by
  unfold app_write_REG_SPAD_SWITCH
  show (if reg = 0 ∨ reg = 1 then spad_switch_events reg s else s).app_regs.REG_BNCS_STATE = _ ∧
    (if reg = 0 ∨ reg = 1 then spad_switch_events reg s else s).app_regs.REG_SIGNAL_STATE = _ ∧
    (if reg = 0 ∨ reg = 1 then spad_switch_events reg s else s).app_regs.REG_LASER_INTENSITY = _
  split_ifs
  · exact app_regs_spad_switch_events reg s
  · exact ⟨rfl, rfl, rfl⟩

theorem app_regs_app_write_REG_LASER_INTENSITY (reg : Nat) (h : reg ≤ 255) (s : Device) :
    (app_write_REG_LASER_INTENSITY reg s).2.app_regs =
      (put_REG_LASER_INTENSITY reg s).app_regs := by
  unfold app_write_REG_LASER_INTENSITY
  show (if reg ≥ 0 ∧ reg ≤ 255 then update_digipot reg (put_REG_LASER_INTENSITY reg s)
    else s).app_regs = _
  rw [if_pos ⟨Nat.zero_le reg, h⟩, app_regs_update_digipot]

theorem app_regs_standby (b : Nat) (s : Device) :
    (core_callback_device_to_standby b s).app_regs.REG_BNCS_STATE = 0 ∧
    (core_callback_device_to_standby b s).app_regs.REG_SIGNAL_STATE = 0 ∧
    (core_callback_device_to_standby b s).app_regs.REG_LASER_INTENSITY = 0 := by
  have e1 : (put_REG_BNCS_STATE 0 s).app_regs.REG_BNCS_STATE = 0 := rfl
  have e3 : ∀ d, (put_REG_SIGNAL_STATE 0 d).app_regs.REG_SIGNAL_STATE = 0 := fun _ => rfl
  have e5 : ∀ d, (put_REG_LASER_INTENSITY 0 d).app_regs.REG_LASER_INTENSITY = 0 := fun _ => rfl
  unfold core_callback_device_to_standby
  simp only [e1, e3, e5]
  have h := app_regs_app_write_REG_SPAD_SWITCH b
    (app_write_REG_LASER_INTENSITY 0 (put_REG_LASER_INTENSITY 0
      (app_write_REG_SIGNAL_STATE 0 (put_REG_SIGNAL_STATE 0
        (app_write_REG_BNCS_STATE 0 (put_REG_BNCS_STATE 0 s)).2)).2)).2
  rw [h.1, h.2.1, h.2.2, app_regs_app_write_REG_LASER_INTENSITY 0 (by decide)]
  exact ⟨rfl, rfl, rfl⟩

theorem ticks_all_idle (k : Nat) (s : Device) (h : ∀ x, (view x s).active = false) :
    ticks k s = s := by
  have h1 : core_callback_t_500us s = s := by
    unfold core_callback_t_500us
    rw [tick_bnc0_inactive s (h Channel.bnc0), tick_bnc1_inactive s (h Channel.bnc1),
      tick_signal_a_inactive s (h Channel.signal_a),
      tick_signal_b_inactive s (h Channel.signal_b)]
  induction k with
  | zero => rfl
  | succ n ih =>
    show ticks n (core_callback_t_500us s) = s
    rw [h1, ih]

/-- C34: after core_callback_device_to_standby, whatever byte the last call
reads through its null pointer, REG_BNCS_STATE = 0, REG_SIGNAL_STATE = 0,
REG_LASER_INTENSITY = 0, BNC_SIG1_O and BNC_SIG2_O are low, and any number of
ticks returns the globals unchanged, the counters and lines of all four
channels included. -/
theorem c34_standby_stops_engine (b : Nat) (s : Device) :
    (core_callback_device_to_standby b s).app_regs.REG_BNCS_STATE = 0 ∧
    (core_callback_device_to_standby b s).app_regs.REG_SIGNAL_STATE = 0 ∧
    (core_callback_device_to_standby b s).ports.BNC_SIG1_O = false ∧
    (core_callback_device_to_standby b s).ports.BNC_SIG2_O = false ∧
    (core_callback_device_to_standby b s).app_regs.REG_LASER_INTENSITY = 0 ∧
    (∀ k, ticks k (core_callback_device_to_standby b s) =
      core_callback_device_to_standby b s) ∧
    (∀ k ch, view ch (ticks k (core_callback_device_to_standby b s)) =
      view ch (core_callback_device_to_standby b s)) := by
  have hr := app_regs_standby b s
  have h0 := view_standby Channel.bnc0 (Or.inl rfl) b s
  have h1 := view_standby Channel.bnc1 (Or.inr rfl) b s
  have hidle : ∀ x, (view x (core_callback_device_to_standby b s)).active = false := by
    intro x
    cases x <;> simp [view, hr.1, hr.2.1]
  have ht := fun k => ticks_all_idle k _ hidle
  refine ⟨hr.1, hr.2.1, congrArg Chan.out h0, congrArg Chan.out h1, hr.2.2, ht, ?_⟩
  intro k ch
  rw [ht k]

/-! ## Laser frequency select and SPAD switch (C35, C36) -/

/-- C35: app_write_REG_LASER_FREQUENCY_SELECT returns true for every value;
for 0, 1, 2, 4 and 8 it leaves REG_LASER_FREQUENCY_SELECT at the value written
and the lines (F1, F2, F3) at (0,0,0), (1,0,0), (0,1,0), (0,0,1) and (1,1,1);
for every other value it returns the globals unchanged. -/
theorem c35_laser_frequency_select (v : Nat) (s : Device) :
    (app_write_REG_LASER_FREQUENCY_SELECT v s).1 = true ∧
    (v = 0 →
      (app_write_REG_LASER_FREQUENCY_SELECT v s).2.app_regs.REG_LASER_FREQUENCY_SELECT = 0 ∧
      (app_write_REG_LASER_FREQUENCY_SELECT v s).2.ports.F1 = false ∧
      (app_write_REG_LASER_FREQUENCY_SELECT v s).2.ports.F2 = false ∧
      (app_write_REG_LASER_FREQUENCY_SELECT v s).2.ports.F3 = false) ∧
    (v = 1 →
      (app_write_REG_LASER_FREQUENCY_SELECT v s).2.app_regs.REG_LASER_FREQUENCY_SELECT = 1 ∧
      (app_write_REG_LASER_FREQUENCY_SELECT v s).2.ports.F1 = true ∧
      (app_write_REG_LASER_FREQUENCY_SELECT v s).2.ports.F2 = false ∧
      (app_write_REG_LASER_FREQUENCY_SELECT v s).2.ports.F3 = false) ∧
    (v = 2 →
      (app_write_REG_LASER_FREQUENCY_SELECT v s).2.app_regs.REG_LASER_FREQUENCY_SELECT = 2 ∧
      (app_write_REG_LASER_FREQUENCY_SELECT v s).2.ports.F1 = false ∧
      (app_write_REG_LASER_FREQUENCY_SELECT v s).2.ports.F2 = true ∧
      (app_write_REG_LASER_FREQUENCY_SELECT v s).2.ports.F3 = false) ∧
    (v = 4 →
      (app_write_REG_LASER_FREQUENCY_SELECT v s).2.app_regs.REG_LASER_FREQUENCY_SELECT = 4 ∧
      (app_write_REG_LASER_FREQUENCY_SELECT v s).2.ports.F1 = false ∧
      (app_write_REG_LASER_FREQUENCY_SELECT v s).2.ports.F2 = false ∧
      (app_write_REG_LASER_FREQUENCY_SELECT v s).2.ports.F3 = true) ∧
    (v = 8 →
      (app_write_REG_LASER_FREQUENCY_SELECT v s).2.app_regs.REG_LASER_FREQUENCY_SELECT = 8 ∧
      (app_write_REG_LASER_FREQUENCY_SELECT v s).2.ports.F1 = true ∧
      (app_write_REG_LASER_FREQUENCY_SELECT v s).2.ports.F2 = true ∧
      (app_write_REG_LASER_FREQUENCY_SELECT v s).2.ports.F3 = true) ∧
    (v ≠ 0 → v ≠ 1 → v ≠ 2 → v ≠ 4 → v ≠ 8 →
      (app_write_REG_LASER_FREQUENCY_SELECT v s).2 = s) := by
  have e0 : set_laser_freq 0 s =
      put_REG_LASER_FREQUENCY_SELECT 0 (clr_F3 (clr_F2 (clr_F1 s))) := by
    unfold set_laser_freq
    simp only []
    rw [if_neg (show ¬ (0 &&& B_CW ≠ 0) by decide), if_neg (show ¬ (0 &&& B_F3 ≠ 0) by decide), if_neg (show ¬ (0 &&& B_F2 ≠ 0) by decide), if_neg (show ¬ (0 &&& B_F1 ≠ 0) by decide)]
    simp
  have e1 : set_laser_freq 1 s =
      put_REG_LASER_FREQUENCY_SELECT B_F1 (clr_F3 (clr_F2 (set_F1 s))) := by
    unfold set_laser_freq
    simp only []
    rw [if_neg (show ¬ (1 &&& B_CW ≠ 0) by decide), if_neg (show ¬ (1 &&& B_F3 ≠ 0) by decide), if_neg (show ¬ (1 &&& B_F2 ≠ 0) by decide), if_pos (show 1 &&& B_F1 ≠ 0 by decide)]
    simp
  have e2 : set_laser_freq 2 s =
      put_REG_LASER_FREQUENCY_SELECT B_F2 (clr_F3 (set_F2 (clr_F1 s))) := by
    unfold set_laser_freq
    simp only []
    rw [if_neg (show ¬ (2 &&& B_CW ≠ 0) by decide), if_neg (show ¬ (2 &&& B_F3 ≠ 0) by decide), if_pos (show 2 &&& B_F2 ≠ 0 by decide), if_neg (show ¬ (2 &&& B_F1 ≠ 0) by decide)]
    simp
  have e4 : set_laser_freq 4 s =
      put_REG_LASER_FREQUENCY_SELECT B_F3 (set_F3 (clr_F2 (clr_F1 s))) := by
    unfold set_laser_freq
    simp only []
    rw [if_neg (show ¬ (4 &&& B_CW ≠ 0) by decide), if_pos (show 4 &&& B_F3 ≠ 0 by decide), if_neg (show ¬ (4 &&& B_F2 ≠ 0) by decide), if_neg (show ¬ (4 &&& B_F1 ≠ 0) by decide)]
    simp
  have e8 : set_laser_freq 8 s =
      put_REG_LASER_FREQUENCY_SELECT B_CW (set_F3 (set_F2 (set_F1 s))) := by
    unfold set_laser_freq
    simp only []
    rw [if_pos (show 8 &&& B_CW ≠ 0 by decide), if_neg (show ¬ (8 &&& B_F3 ≠ 0) by decide), if_neg (show ¬ (8 &&& B_F2 ≠ 0) by decide), if_neg (show ¬ (8 &&& B_F1 ≠ 0) by decide)]
    simp
  have hw : ∀ x, x = 0 ∨ x = 1 ∨ x = 2 ∨ x = 4 ∨ x = 8 →
      (app_write_REG_LASER_FREQUENCY_SELECT x s).2 = set_laser_freq x s := by
    intro x hx
    unfold app_write_REG_LASER_FREQUENCY_SELECT
    show (if x = 0 ∨ x = 1 ∨ x = 2 ∨ x = 4 ∨ x = 8 then set_laser_freq x s else s) = _
    rw [if_pos hx]
  refine ⟨rfl, ?_, ?_, ?_, ?_, ?_, ?_⟩
  · intro h; subst h
    rw [hw 0 (by decide), e0]
    exact ⟨rfl, rfl, rfl, rfl⟩
  · intro h; subst h
    rw [hw 1 (by decide), e1]
    exact ⟨rfl, rfl, rfl, rfl⟩
  · intro h; subst h
    rw [hw 2 (by decide), e2]
    exact ⟨rfl, rfl, rfl, rfl⟩
  · intro h; subst h
    rw [hw 4 (by decide), e4]
    exact ⟨rfl, rfl, rfl, rfl⟩
  · intro h; subst h
    rw [hw 8 (by decide), e8]
    exact ⟨rfl, rfl, rfl, rfl⟩
  · intro h0 h1 h2 h4 h8
    unfold app_write_REG_LASER_FREQUENCY_SELECT
    show (if v = 0 ∨ v = 1 ∨ v = 2 ∨ v = 4 ∨ v = 8 then set_laser_freq v s else s) = _
    rw [if_neg (by rintro (h | h | h | h | h) <;> contradiction)]

/-- C36: for state 0 or 1 and bit B_EVT_SPAD_SWITCH set in REG_EVNT_ENABLE,
spad_switch_events leaves REG_SPAD_SWITCH = state and the line MCU_TO_RELAY
high exactly when state = 1, and appends one event ADD_REG_SPAD_SWITCH to the
event log when REG_SPAD_SWITCH held another value before, and none otherwise;
with the bit clear it returns the globals unchanged. app_write_REG_SPAD_SWITCH
returns true for every value, calls spad_switch_events for 0 and 1 and returns
the globals unchanged for every other value. -/
theorem c36_spad_switch (state : Nat) (s : Device) :
    (state = 0 ∨ state = 1 → s.app_regs.REG_EVNT_ENABLE &&& B_EVT_SPAD_SWITCH ≠ 0 →
      (spad_switch_events state s).app_regs.REG_SPAD_SWITCH = state ∧
      (spad_switch_events state s).ports.MCU_TO_RELAY = decide (state = 1) ∧
      (spad_switch_events state s).events =
        s.events ++ (if s.app_regs.REG_SPAD_SWITCH ≠ state then [ADD_REG_SPAD_SWITCH]
          else [])) ∧
    (s.app_regs.REG_EVNT_ENABLE &&& B_EVT_SPAD_SWITCH = 0 →
      spad_switch_events state s = s) ∧
    (∀ reg, (app_write_REG_SPAD_SWITCH reg s).1 = true) ∧
    (∀ reg, reg = 0 ∨ reg = 1 →
      (app_write_REG_SPAD_SWITCH reg s).2 = spad_switch_events reg s) ∧
    (∀ reg, reg ≠ 0 → reg ≠ 1 → (app_write_REG_SPAD_SWITCH reg s).2 = s) := by
  refine ⟨?_, ?_, fun _ => rfl, ?_, ?_⟩
  · intro hs he
    unfold spad_switch_events
    simp only [set_MCU_TO_RELAY, clr_MCU_TO_RELAY, core_func_send_event]
    rcases hs with h | h <;> subst h
    · rw [if_neg (by decide), if_pos he]
      split_ifs <;> exact ⟨rfl, rfl, by simp⟩
    · rw [if_pos rfl, if_pos he]
      split_ifs <;> exact ⟨rfl, rfl, by simp⟩
  · intro he
    unfold spad_switch_events
    simp only []
    rw [if_neg (not_not.mpr he), if_neg (not_not.mpr he), ite_self]
  · intro reg h
    unfold app_write_REG_SPAD_SWITCH
    show (if reg = 0 ∨ reg = 1 then spad_switch_events reg s else s) = _
    rw [if_pos h]
  · intro reg h0 h1
    unfold app_write_REG_SPAD_SWITCH
    show (if reg = 0 ∨ reg = 1 then spad_switch_events reg s else s) = _
    rw [if_neg (by rintro (h | h) <;> contradiction)]

/-! ## The digital-output mirror (C37) -/

theorem land_two_pow_ne_zero (x i : Nat) : x &&& 2 ^ i ≠ 0 ↔ x.testBit i = true := by
  rw [Nat.and_two_pow]
  have h : 2 ^ i ≠ 0 := by positivity
  cases x.testBit i <;> simp [h]

theorem land_B_DOUT1 (x : Nat) : x &&& B_DOUT1 ≠ 0 ↔ x.testBit 0 = true :=
  land_two_pow_ne_zero x 0

theorem land_B_DOUT2 (x : Nat) : x &&& B_DOUT2 ≠ 0 ↔ x.testBit 1 = true :=
  land_two_pow_ne_zero x 1

theorem testBit_not8 (r i : Nat) (hi : i < 8) : (not8 r).testBit i = !r.testBit i := by
  unfold not8
  rw [Nat.testBit_xor]
  have h : Nat.testBit 255 i = true := by
    interval_cases i <;> decide
  rw [h]
  cases r.testBit i <;> rfl

theorem output_mirror_iff (s : Device) :
    output_mirror s ↔
      s.app_regs.REG_OUTPUT_STATE.testBit 0 = s.ports.DO1 ∧
      s.app_regs.REG_OUTPUT_STATE.testBit 1 = s.ports.DO2 := by
  unfold output_mirror
  rw [land_B_DOUT1, land_B_DOUT2]
  cases s.app_regs.REG_OUTPUT_STATE.testBit 0 <;> cases s.ports.DO1 <;>
    cases s.app_regs.REG_OUTPUT_STATE.testBit 1 <;> cases s.ports.DO2 <;> simp

theorem decide_land_B_DOUT1 (x : Nat) : decide (x &&& B_DOUT1 ≠ 0) = x.testBit 0 := by
  have h := land_B_DOUT1 x
  cases hb : x.testBit 0
  · rw [hb] at h
    exact decide_eq_false (fun hc => absurd (h.mp hc) (by decide))
  · rw [hb] at h
    exact decide_eq_true (h.mpr rfl)

theorem decide_land_B_DOUT2 (x : Nat) : decide (x &&& B_DOUT2 ≠ 0) = x.testBit 1 := by
  have h := land_B_DOUT2 x
  cases hb : x.testBit 1
  · rw [hb] at h
    exact decide_eq_false (fun hc => absurd (h.mp hc) (by decide))
  · rw [hb] at h
    exact decide_eq_true (h.mpr rfl)

/-- What app_write_REG_OUTPUT_SET does to the two pins and the mirror
register. -/
theorem output_set_effect (reg : Nat) (s : Device) :
    (app_write_REG_OUTPUT_SET reg s).2.ports.DO1 = (reg.testBit 0 || s.ports.DO1) ∧
    (app_write_REG_OUTPUT_SET reg s).2.ports.DO2 = (reg.testBit 1 || s.ports.DO2) ∧
    (app_write_REG_OUTPUT_SET reg s).2.app_regs.REG_OUTPUT_STATE =
      s.app_regs.REG_OUTPUT_STATE ||| reg := by
  rw [← decide_land_B_DOUT1, ← decide_land_B_DOUT2]
  by_cases h1 : reg &&& B_DOUT1 ≠ 0 <;> by_cases h2 : reg &&& B_DOUT2 ≠ 0 <;>
    simp [app_write_REG_OUTPUT_SET, put_REG_OUTPUT_STATE, put_REG_OUTPUT_SET, set_DO1,
      set_DO2, h1, h2]

/-- What app_write_REG_OUTPUT_CLEAR does to the two pins and the mirror
register. -/
theorem output_clear_effect (reg : Nat) (s : Device) :
    (app_write_REG_OUTPUT_CLEAR reg s).2.ports.DO1 = (!reg.testBit 0 && s.ports.DO1) ∧
    (app_write_REG_OUTPUT_CLEAR reg s).2.ports.DO2 = (!reg.testBit 1 && s.ports.DO2) ∧
    (app_write_REG_OUTPUT_CLEAR reg s).2.app_regs.REG_OUTPUT_STATE =
      s.app_regs.REG_OUTPUT_STATE &&& not8 reg := by
  rw [← decide_land_B_DOUT1, ← decide_land_B_DOUT2]
  by_cases h1 : reg &&& B_DOUT1 ≠ 0 <;> by_cases h2 : reg &&& B_DOUT2 ≠ 0 <;>
    simp [app_write_REG_OUTPUT_CLEAR, put_REG_OUTPUT_STATE, put_REG_OUTPUT_CLEAR, clr_DO1,
      clr_DO2, h1, h2]

/-- What app_write_REG_OUTPUT_TOGGLE does to the two pins and the mirror
register. -/
theorem output_toggle_effect (reg : Nat) (s : Device) :
    (app_write_REG_OUTPUT_TOGGLE reg s).2.ports.DO1 = (reg.testBit 0 ^^ s.ports.DO1) ∧
    (app_write_REG_OUTPUT_TOGGLE reg s).2.ports.DO2 = (reg.testBit 1 ^^ s.ports.DO2) ∧
    (app_write_REG_OUTPUT_TOGGLE reg s).2.app_regs.REG_OUTPUT_STATE =
      s.app_regs.REG_OUTPUT_STATE ^^^ reg := by
  rw [← decide_land_B_DOUT1, ← decide_land_B_DOUT2]
  by_cases h1 : reg &&& B_DOUT1 ≠ 0 <;> by_cases h2 : reg &&& B_DOUT2 ≠ 0 <;>
    cases hd1 : s.ports.DO1 <;> cases hd2 : s.ports.DO2 <;>
    simp [app_write_REG_OUTPUT_TOGGLE, put_REG_OUTPUT_STATE, put_REG_OUTPUT_TOGGLE, tgl_DO1,
      tgl_DO2, set_DO1, set_DO2, h1, h2, hd1, hd2]

/-- What app_write_REG_OUTPUT_STATE does to the two pins and the mirror
register. -/
theorem output_state_effect (reg : Nat) (s : Device) :
    (app_write_REG_OUTPUT_STATE reg s).2.ports.DO1 = reg.testBit 0 ∧
    (app_write_REG_OUTPUT_STATE reg s).2.ports.DO2 = reg.testBit 1 ∧
    (app_write_REG_OUTPUT_STATE reg s).2.app_regs.REG_OUTPUT_STATE = reg := by
  rw [← decide_land_B_DOUT1, ← decide_land_B_DOUT2]
  by_cases h1 : reg &&& B_DOUT1 ≠ 0 <;> by_cases h2 : reg &&& B_DOUT2 ≠ 0 <;>
    simp [app_write_REG_OUTPUT_STATE, put_REG_OUTPUT_STATE, set_DO1, set_DO2, clr_DO1,
      clr_DO2, h1, h2]

/-- What app_read_REG_OUTPUT_STATE does to the two pins and the mirror
register. -/
theorem output_read_effect (s : Device) :
    (app_read_REG_OUTPUT_STATE s).ports.DO1 = s.ports.DO1 ∧
    (app_read_REG_OUTPUT_STATE s).ports.DO2 = s.ports.DO2 ∧
    (app_read_REG_OUTPUT_STATE s).app_regs.REG_OUTPUT_STATE =
      (s.app_regs.REG_OUTPUT_STATE ||| (if s.ports.DO1 = true then B_DOUT1 else 0)) |||
        (if s.ports.DO2 = true then B_DOUT2 else 0) :=
  ⟨rfl, rfl, rfl⟩

theorem output_mirror_set (reg : Nat) (s : Device) (h : output_mirror s) :
    output_mirror (app_write_REG_OUTPUT_SET reg s).2 := by
  rw [output_mirror_iff] at h ⊢
  obtain ⟨e1, e2, e3⟩ := output_set_effect reg s
  rw [e1, e2, e3, Nat.testBit_or, Nat.testBit_or, h.1, h.2, Bool.or_comm,
    Bool.or_comm s.ports.DO2]
  exact ⟨rfl, rfl⟩

theorem output_mirror_clear (reg : Nat) (s : Device) (h : output_mirror s) :
    output_mirror (app_write_REG_OUTPUT_CLEAR reg s).2 := by
  rw [output_mirror_iff] at h ⊢
  obtain ⟨e1, e2, e3⟩ := output_clear_effect reg s
  rw [e1, e2, e3, Nat.testBit_and, Nat.testBit_and, h.1, h.2,
    testBit_not8 reg 0 (by decide), testBit_not8 reg 1 (by decide), Bool.and_comm,
    Bool.and_comm s.ports.DO2]
  exact ⟨rfl, rfl⟩

theorem output_mirror_toggle (reg : Nat) (s : Device) (h : output_mirror s) :
    output_mirror (app_write_REG_OUTPUT_TOGGLE reg s).2 := by
  rw [output_mirror_iff] at h ⊢
  obtain ⟨e1, e2, e3⟩ := output_toggle_effect reg s
  rw [e1, e2, e3, Nat.testBit_xor, Nat.testBit_xor, h.1, h.2]
  constructor
  · cases s.ports.DO1 <;> cases reg.testBit 0 <;> rfl
  · cases s.ports.DO2 <;> cases reg.testBit 1 <;> rfl

theorem output_mirror_state (reg : Nat) (s : Device) :
    output_mirror (app_write_REG_OUTPUT_STATE reg s).2 := by
  rw [output_mirror_iff]
  obtain ⟨e1, e2, e3⟩ := output_state_effect reg s
  rw [e1, e2, e3]
  exact ⟨rfl, rfl⟩

theorem output_mirror_read (s : Device) (h : output_mirror s) :
    output_mirror (app_read_REG_OUTPUT_STATE s) := by
  rw [output_mirror_iff] at h ⊢
  obtain ⟨e1, e2, e3⟩ := output_read_effect s
  rw [e1, e2, e3, Nat.testBit_or, Nat.testBit_or, Nat.testBit_or, Nat.testBit_or, h.1, h.2]
  constructor
  · cases s.ports.DO1 <;> cases s.ports.DO2 <;> decide
  · cases s.ports.DO1 <;> cases s.ports.DO2 <;> decide

theorem toggle_twice (reg : Nat) (s : Device) :
    (app_write_REG_OUTPUT_TOGGLE reg (app_write_REG_OUTPUT_TOGGLE reg s).2).2.ports.DO1 =
      s.ports.DO1 ∧
    (app_write_REG_OUTPUT_TOGGLE reg (app_write_REG_OUTPUT_TOGGLE reg s).2).2.ports.DO2 =
      s.ports.DO2 ∧
    (app_write_REG_OUTPUT_TOGGLE reg
      (app_write_REG_OUTPUT_TOGGLE reg s).2).2.app_regs.REG_OUTPUT_STATE =
      s.app_regs.REG_OUTPUT_STATE := by
  obtain ⟨e1, e2, e3⟩ := output_toggle_effect reg s
  obtain ⟨f1, f2, f3⟩ := output_toggle_effect reg (app_write_REG_OUTPUT_TOGGLE reg s).2
  rw [f1, f2, f3, e1, e2, e3]
  refine ⟨?_, ?_, ?_⟩
  · cases s.ports.DO1 <;> cases reg.testBit 0 <;> rfl
  · cases s.ports.DO2 <;> cases reg.testBit 1 <;> rfl
  · rw [Nat.xor_assoc, Nat.xor_self, Nat.xor_zero]

/-- C37: the mirror predicate (bit B_DOUT1 of REG_OUTPUT_STATE set exactly
when DO1 is high, bit B_DOUT2 exactly when DO2 is high) is preserved by
app_write_REG_OUTPUT_SET, app_write_REG_OUTPUT_CLEAR,
app_write_REG_OUTPUT_TOGGLE, app_write_REG_OUTPUT_STATE and
app_read_REG_OUTPUT_STATE for every written mask; and writing the same mask to
REG_OUTPUT_TOGGLE twice restores DO1, DO2 and REG_OUTPUT_STATE. -/
theorem c37_output_mirror (reg : Nat) (s : Device) (h : output_mirror s) :
    output_mirror (app_write_REG_OUTPUT_SET reg s).2 ∧
    output_mirror (app_write_REG_OUTPUT_CLEAR reg s).2 ∧
    output_mirror (app_write_REG_OUTPUT_TOGGLE reg s).2 ∧
    output_mirror (app_write_REG_OUTPUT_STATE reg s).2 ∧
    output_mirror (app_read_REG_OUTPUT_STATE s) ∧
    (app_write_REG_OUTPUT_TOGGLE reg (app_write_REG_OUTPUT_TOGGLE reg s).2).2.ports.DO1 =
      s.ports.DO1 ∧
    (app_write_REG_OUTPUT_TOGGLE reg (app_write_REG_OUTPUT_TOGGLE reg s).2).2.ports.DO2 =
      s.ports.DO2 ∧
    (app_write_REG_OUTPUT_TOGGLE reg
      (app_write_REG_OUTPUT_TOGGLE reg s).2).2.app_regs.REG_OUTPUT_STATE =
      s.app_regs.REG_OUTPUT_STATE :=
  ⟨output_mirror_set reg s h, output_mirror_clear reg s h, output_mirror_toggle reg s h,
    output_mirror_state reg s, output_mirror_read s h, toggle_twice reg s⟩

theorem c37_output_mirror_witness :
    output_mirror (app_write_REG_OUTPUT_SET 3 power_on).2 ∧
    output_mirror (app_write_REG_OUTPUT_TOGGLE 1 (app_write_REG_OUTPUT_SET 3 power_on).2).2 ∧
    (app_write_REG_OUTPUT_TOGGLE 1 (app_write_REG_OUTPUT_SET 3 power_on).2).2.ports.DO1 =
      false :=
  ⟨(c37_output_mirror 3 power_on (by unfold output_mirror; decide)).1,
    (c37_output_mirror 1 (app_write_REG_OUTPUT_SET 3 power_on).2
      (by unfold output_mirror; decide)).2.2.1,
    by decide⟩
/-! ## The bits shifted out by update_digipot (C38) -/

/-- The call that one pass of the loop makes on the data pin. -/
theorem io_calls_update_digipot_bit (data i : Nat) (s : Device) :
    (update_digipot_bit data i s).io_calls =
      s.io_calls ++ [if (data <<< i) &&& 0x80 ≠ 0 then IoCall.set Pin.POT_SDI
        else IoCall.clr Pin.POT_SDI, IoCall.set Pin.POT_CLK, IoCall.clr Pin.POT_CLK] := by
  unfold update_digipot_bit
  split_ifs <;> simp [set_POT_SDI, clr_POT_SDI, set_POT_CLK, clr_POT_CLK]

/-- The test of the loop reads bit 7 - i of data. -/
theorem shifted_bit (data i : Nat) (hi : i ≤ 7) :
    (data <<< i) &&& 0x80 ≠ 0 ↔ data.testBit (7 - i) = true := by
  have h := land_two_pow_ne_zero (data <<< i) 7
  have e : (2 : Nat) ^ 7 = 0x80 := by decide
  rw [e] at h
  rw [h, Nat.testBit_shiftLeft]
  simp [hi]

theorem sdi_rises_data_call (clk sdi : Bool) (b : Prop) [Decidable b] (cs : List IoCall) :
    sdi_at_clk_rises clk sdi
      ((if b then IoCall.set Pin.POT_SDI else IoCall.clr Pin.POT_SDI) :: cs) =
      sdi_at_clk_rises clk (decide b) cs := by
  by_cases h : b <;> cases clk <;> simp [sdi_at_clk_rises, pin_after, h]

theorem sdi_rises_clock_pulse (sdi : Bool) (cs : List IoCall) :
    sdi_at_clk_rises false sdi (IoCall.set Pin.POT_CLK :: IoCall.clr Pin.POT_CLK :: cs) =
      sdi :: sdi_at_clk_rises false sdi cs := by
  simp [sdi_at_clk_rises, pin_after]

/-- The pin calls of update_digipot, in order. -/
theorem io_calls_update_digipot (data : Nat) (s : Device) :
    (update_digipot data s).io_calls =
      s.io_calls ++ (IoCall.clr Pin.POT_CS ::
        ([IoCall.clr Pin.POT_SDI, IoCall.set Pin.POT_SDI, IoCall.set Pin.POT_CLK,
          IoCall.clr Pin.POT_CLK] ++
        (List.range 8).flatMap (fun i =>
          [if (data <<< i) &&& 0x80 ≠ 0 then IoCall.set Pin.POT_SDI
            else IoCall.clr Pin.POT_SDI, IoCall.set Pin.POT_CLK, IoCall.clr Pin.POT_CLK])) ++
        [IoCall.set Pin.POT_CS]) := by
  have hfold : ∀ (l : List Nat) (d : Device),
      (l.foldl (fun d i => update_digipot_bit data i d) d).io_calls =
        d.io_calls ++ l.flatMap (fun i =>
          [if (data <<< i) &&& 0x80 ≠ 0 then IoCall.set Pin.POT_SDI
            else IoCall.clr Pin.POT_SDI, IoCall.set Pin.POT_CLK, IoCall.clr Pin.POT_CLK]) := by
    intro l
    induction l with
    | nil => intro d; simp
    | cons i l ih =>
      intro d
      rw [List.foldl_cons, ih, io_calls_update_digipot_bit, List.flatMap_cons, List.append_assoc]
  unfold update_digipot
  simp only [set_POT_CS, hfold]
  simp [clr_POT_CS, set_POT_SDI, clr_POT_SDI, set_POT_CLK, clr_POT_CLK]

theorem shifted_bit_decide (data i : Nat) (hi : i ≤ 7) :
    decide ((data <<< i) &&& 0x80 ≠ 0) = data.testBit (7 - i) := by
  have h := shifted_bit data i hi
  cases hb : data.testBit (7 - i)
  · rw [hb] at h
    exact decide_eq_false (fun hc => absurd (h.mp hc) (by decide))
  · rw [hb] at h
    exact decide_eq_true (h.mpr rfl)

theorem sdi_rises_set_sdi (clk sdi : Bool) (cs : List IoCall) :
    sdi_at_clk_rises clk sdi (IoCall.set Pin.POT_SDI :: cs) = sdi_at_clk_rises clk true cs := by
  cases clk <;> simp [sdi_at_clk_rises, pin_after]

theorem sdi_rises_clr_sdi (clk sdi : Bool) (cs : List IoCall) :
    sdi_at_clk_rises clk sdi (IoCall.clr Pin.POT_SDI :: cs) = sdi_at_clk_rises clk false cs := by
  cases clk <;> simp [sdi_at_clk_rises, pin_after]

theorem range_eight : List.range 8 = [0, 1, 2, 3, 4, 5, 6, 7] := rfl

theorem pot_clk_update_digipot_bit (data i : Nat) (s : Device) :
    (update_digipot_bit data i s).ports.POT_CLK = false := by
  unfold update_digipot_bit
  split_ifs <;> rfl

theorem pot_clk_update_digipot_bits (data : Nat) (l : List Nat) (s : Device)
    (h : s.ports.POT_CLK = false) :
    (l.foldl (fun d i => update_digipot_bit data i d) s).ports.POT_CLK = false := by
  induction l generalizing s with
  | nil => exact h
  | cons i l ih =>
    rw [List.foldl_cons]
    exact ih _ (pot_clk_update_digipot_bit data i s)

/-- The function update_digipot returns with the clock pin low and the
chip-select pin high. -/
theorem ports_update_digipot (data : Nat) (s : Device) :
    (update_digipot data s).ports.POT_CLK = false ∧
    (update_digipot data s).ports.POT_CS = true := by
  unfold update_digipot
  simp only []
  constructor
  · have h := pot_clk_update_digipot_bits data (List.range 8)
      (clr_POT_CLK (set_POT_CLK (set_POT_SDI (clr_POT_SDI (clr_POT_CS s))))) rfl
    exact h
  · rfl

/-! ## The clock pin of the digipot is low between calls -/

theorem pot_clk_spad_switch_events (state : Nat) (s : Device) :
    (spad_switch_events state s).ports.POT_CLK = s.ports.POT_CLK := by
  unfold spad_switch_events
  simp only [set_MCU_TO_RELAY, clr_MCU_TO_RELAY, core_func_send_event]
  split_ifs <;> rfl

theorem pot_clk_app_write_REG_SPAD_SWITCH (reg : Nat) (s : Device) :
    (app_write_REG_SPAD_SWITCH reg s).2.ports.POT_CLK = s.ports.POT_CLK := by
  unfold app_write_REG_SPAD_SWITCH
  show (if reg = 0 ∨ reg = 1 then spad_switch_events reg s else s).ports.POT_CLK = _
  split_ifs
  · exact pot_clk_spad_switch_events reg s
  · rfl

theorem pot_clk_set_laser_freq (value : Nat) (s : Device) :
    (set_laser_freq value s).ports.POT_CLK = s.ports.POT_CLK := by
  unfold set_laser_freq
  simp only [put_REG_LASER_FREQUENCY_SELECT, set_F1, set_F2, set_F3, clr_F1, clr_F2, clr_F3,
    apply_ite Device.ports, apply_ite Ports.POT_CLK, ite_self]

theorem pot_clk_app_write_REG_LASER_FREQUENCY_SELECT (reg : Nat) (s : Device) :
    (app_write_REG_LASER_FREQUENCY_SELECT reg s).2.ports.POT_CLK = s.ports.POT_CLK := by
  unfold app_write_REG_LASER_FREQUENCY_SELECT
  show (if reg = 0 ∨ reg = 1 ∨ reg = 2 ∨ reg = 4 ∨ reg = 8 then set_laser_freq reg s
    else s).ports.POT_CLK = _
  split_ifs
  · exact pot_clk_set_laser_freq reg s
  · rfl

theorem pot_clk_app_write_REG_LASER_INTENSITY (reg : Nat) (s : Device)
    (h : s.ports.POT_CLK = false) :
    (app_write_REG_LASER_INTENSITY reg s).2.ports.POT_CLK = false := by
  unfold app_write_REG_LASER_INTENSITY
  show (if reg ≥ 0 ∧ reg ≤ 255 then update_digipot reg (put_REG_LASER_INTENSITY reg s)
    else s).ports.POT_CLK = false
  split_ifs
  · exact (ports_update_digipot reg _).1
  · exact h

theorem pot_clk_app_write_REG_OUTPUT_SET (reg : Nat) (s : Device) :
    (app_write_REG_OUTPUT_SET reg s).2.ports.POT_CLK = s.ports.POT_CLK := by
  simp only [app_write_REG_OUTPUT_SET, put_REG_OUTPUT_STATE, put_REG_OUTPUT_SET, set_DO1,
    set_DO2, apply_ite Device.ports, apply_ite Ports.POT_CLK, ite_self]

theorem pot_clk_app_write_REG_OUTPUT_CLEAR (reg : Nat) (s : Device) :
    (app_write_REG_OUTPUT_CLEAR reg s).2.ports.POT_CLK = s.ports.POT_CLK := by
  simp only [app_write_REG_OUTPUT_CLEAR, put_REG_OUTPUT_STATE, put_REG_OUTPUT_CLEAR, clr_DO1,
    clr_DO2, apply_ite Device.ports, apply_ite Ports.POT_CLK, ite_self]

theorem pot_clk_app_write_REG_OUTPUT_TOGGLE (reg : Nat) (s : Device) :
    (app_write_REG_OUTPUT_TOGGLE reg s).2.ports.POT_CLK = s.ports.POT_CLK := by
  simp only [app_write_REG_OUTPUT_TOGGLE, put_REG_OUTPUT_STATE, put_REG_OUTPUT_TOGGLE, tgl_DO1,
    tgl_DO2, set_DO1, set_DO2, apply_ite Device.ports, apply_ite Ports.POT_CLK, ite_self]

theorem pot_clk_app_write_REG_OUTPUT_STATE (reg : Nat) (s : Device) :
    (app_write_REG_OUTPUT_STATE reg s).2.ports.POT_CLK = s.ports.POT_CLK := by
  simp only [app_write_REG_OUTPUT_STATE, put_REG_OUTPUT_STATE, set_DO1, set_DO2, clr_DO1,
    clr_DO2, apply_ite Device.ports, apply_ite Ports.POT_CLK, ite_self]

theorem pot_clk_app_write_REG_BNCS_STATE (reg : Nat) (s : Device) :
    (app_write_REG_BNCS_STATE reg s).2.ports.POT_CLK = s.ports.POT_CLK := by
  simp only [app_write_REG_BNCS_STATE, write_bncs_bnc0, write_bncs_bnc1, put_tail_bnc0,
    put_period_bnc0, put_t_bnc0, put_count_pulses_bnc0, put_tail_bnc1, put_period_bnc1,
    put_t_bnc1, put_count_pulses_bnc1, put_REG_BNCS_STATE, set_BNC_SIG1_O, clr_BNC_SIG1_O,
    set_BNC_SIG2_O, clr_BNC_SIG2_O, apply_ite Device.ports, apply_ite Ports.POT_CLK, ite_self]

theorem pot_clk_wr_handler (i : Nat) (hi : i < 31) (d : Nat → Device → Bool × Device)
    (content : Nat) (s : Device) (h : s.ports.POT_CLK = false) :
    ((app_func_wr_pointer.getD i d) content s).2.ports.POT_CLK = false := by
  have e1 := pot_clk_app_write_REG_SPAD_SWITCH content s
  have e2 := pot_clk_app_write_REG_LASER_FREQUENCY_SELECT content s
  have e3 := pot_clk_app_write_REG_LASER_INTENSITY content s h
  have e4 := pot_clk_app_write_REG_OUTPUT_SET content s
  have e5 := pot_clk_app_write_REG_OUTPUT_CLEAR content s
  have e6 := pot_clk_app_write_REG_OUTPUT_TOGGLE content s
  have e7 := pot_clk_app_write_REG_OUTPUT_STATE content s
  have e8 := pot_clk_app_write_REG_BNCS_STATE content s
  rw [h] at e1 e2 e4 e5 e6 e7 e8
  interval_cases i
  · exact e1
  · exact h
  · exact h
  · exact h
  · exact h
  · exact h
  · exact e2
  · exact e3
  · exact e4
  · exact e5
  · exact e6
  · exact e7
  · exact e8
  all_goals exact h

theorem pot_clk_rd_handler (i : Nat) (hi : i < 31) (d : Device → Device) (s : Device) :
    ((app_func_rd_pointer.getD i d) s).ports.POT_CLK = s.ports.POT_CLK := by
  interval_cases i <;> rfl

theorem pot_clk_core_write_app_register (U8 U16 add type content n : Nat) (s : Device)
    (h : s.ports.POT_CLK = false) :
    (core_write_app_register U8 U16 add type content n s).2.ports.POT_CLK = false := by
  unfold core_write_app_register
  split_ifs with h1 h2 h3
  · exact h
  · exact h
  · exact h
  · have hi : add - APP_REGS_ADD_MIN < 31 := by
      have e1 : APP_REGS_ADD_MIN = 0x20 := rfl
      have e2 : APP_REGS_ADD_MAX = 0x3E := rfl
      rw [e1, e2] at h1
      rw [e1]
      omega
    exact pot_clk_wr_handler _ hi _ content s h

theorem pot_clk_core_read_app_register (U8 U16 add type : Nat) (s : Device) :
    (core_read_app_register U8 U16 add type s).2.ports.POT_CLK = s.ports.POT_CLK := by
  unfold core_read_app_register
  split_ifs with h1 h2
  · rfl
  · rfl
  · have hi : add - APP_REGS_ADD_MIN < 31 := by
      have e1 : APP_REGS_ADD_MIN = 0x20 := rfl
      have e2 : APP_REGS_ADD_MAX = 0x3E := rfl
      rw [e1, e2] at h1
      rw [e1]
      omega
    exact pot_clk_rd_handler _ hi _ s

theorem pot_clk_tick (s : Device) :
    (core_callback_t_500us s).ports.POT_CLK = s.ports.POT_CLK := by
  have h0 : ∀ d, (tick_bnc0 d).ports.POT_CLK = d.ports.POT_CLK := fun d => by
    rcases d with ⟨⟨r1, r2, r3, r4, r5, r6, r7, r8, r9, r10, r11, r12, r13, r14, r15, r16, r17,
      r18, r19, r20, r21, r22, r23, r24, r25, r26, r27, r28, r29, r30, r31⟩,
      ⟨c1, c2, c3, c4, c5, c6, c7, c8, c9, c10, c11, c12, c13, c14, c15, c16⟩, d0, d1, da, db,
      ⟨p1, p2, p3, p4, p5, p6, p7, p8, p9, p10, p11, p12, p13⟩, io, ev⟩
    simp only [tick_bnc0, put_tail_bnc0, put_period_bnc0, put_t_bnc0, put_count_pulses_bnc0,
      put_REG_BNCS_STATE, set_BNC_SIG1_O, clr_BNC_SIG1_O, apply_ite Device.ports,
      apply_ite Ports.POT_CLK, ite_self]
  have h1 : ∀ d, (tick_bnc1 d).ports.POT_CLK = d.ports.POT_CLK := fun d => by
    rcases d with ⟨⟨r1, r2, r3, r4, r5, r6, r7, r8, r9, r10, r11, r12, r13, r14, r15, r16, r17,
      r18, r19, r20, r21, r22, r23, r24, r25, r26, r27, r28, r29, r30, r31⟩,
      ⟨c1, c2, c3, c4, c5, c6, c7, c8, c9, c10, c11, c12, c13, c14, c15, c16⟩, d0, d1, da, db,
      ⟨p1, p2, p3, p4, p5, p6, p7, p8, p9, p10, p11, p12, p13⟩, io, ev⟩
    simp only [tick_bnc1, put_tail_bnc1, put_period_bnc1, put_t_bnc1, put_count_pulses_bnc1,
      put_REG_BNCS_STATE, set_BNC_SIG2_O, clr_BNC_SIG2_O, apply_ite Device.ports,
      apply_ite Ports.POT_CLK, ite_self]
  have h2 : ∀ d, (tick_signal_a d).ports.POT_CLK = d.ports.POT_CLK := fun d => by
    rcases d with ⟨⟨r1, r2, r3, r4, r5, r6, r7, r8, r9, r10, r11, r12, r13, r14, r15, r16, r17,
      r18, r19, r20, r21, r22, r23, r24, r25, r26, r27, r28, r29, r30, r31⟩,
      ⟨c1, c2, c3, c4, c5, c6, c7, c8, c9, c10, c11, c12, c13, c14, c15, c16⟩, d0, d1, da, db,
      ⟨p1, p2, p3, p4, p5, p6, p7, p8, p9, p10, p11, p12, p13⟩, io, ev⟩
    simp only [tick_signal_a, put_tail_signal_a, put_period_signal_a, put_t_signal_a,
      put_count_pulses_signal_a, put_REG_SIGNAL_STATE, set_SIGNAL_A_O, clr_SIGNAL_A_O,
      apply_ite Device.ports, apply_ite Ports.POT_CLK, ite_self]
  have h3 : ∀ d, (tick_signal_b d).ports.POT_CLK = d.ports.POT_CLK := fun d => by
    rcases d with ⟨⟨r1, r2, r3, r4, r5, r6, r7, r8, r9, r10, r11, r12, r13, r14, r15, r16, r17,
      r18, r19, r20, r21, r22, r23, r24, r25, r26, r27, r28, r29, r30, r31⟩,
      ⟨c1, c2, c3, c4, c5, c6, c7, c8, c9, c10, c11, c12, c13, c14, c15, c16⟩, d0, d1, da, db,
      ⟨p1, p2, p3, p4, p5, p6, p7, p8, p9, p10, p11, p12, p13⟩, io, ev⟩
    simp only [tick_signal_b, put_tail_signal_b, put_period_signal_b, put_t_signal_b,
      put_count_pulses_signal_b, put_REG_SIGNAL_STATE, set_SIGNAL_B_O, clr_SIGNAL_B_O,
      apply_ite Device.ports, apply_ite Ports.POT_CLK, ite_self]
  unfold core_callback_t_500us
  rw [h3, h2, h1, h0]

theorem pot_clk_standby (b : Nat) (s : Device) (h : s.ports.POT_CLK = false) :
    (core_callback_device_to_standby b s).ports.POT_CLK = false := by
  unfold core_callback_device_to_standby
  simp only []
  rw [pot_clk_app_write_REG_SPAD_SWITCH]
  apply pot_clk_app_write_REG_LASER_INTENSITY
  have e := pot_clk_app_write_REG_BNCS_STATE (put_REG_BNCS_STATE 0 s).app_regs.REG_BNCS_STATE
    (put_REG_BNCS_STATE 0 s)
  exact e.trans h

/-- The clock pin POT_CLK is low after boot and after every later call of
the host framework. -/
theorem pot_clk_low_reachable (U8 U16 : Nat) (calls : List HostCall) (sw key : Nat) :
    (host_calls U8 U16 calls (boot sw key)).ports.POT_CLK = false := by
  have step : ∀ (c : HostCall) (d : Device), d.ports.POT_CLK = false →
      (host_call U8 U16 c d).ports.POT_CLK = false := by
    intro c d h
    cases c with
    | write add type content n => exact pot_clk_core_write_app_register U8 U16 add type content n d h
    | read add type =>
      have e := pot_clk_core_read_app_register U8 U16 add type d
      rw [h] at e
      exact e
    | tick =>
      have e := pot_clk_tick d
      rw [h] at e
      exact e
    | standby b => exact pot_clk_standby b d h
    | reset sw key => exact h
    | initialize_hardware => exact (ports_update_digipot 0 (init_ios d)).1
  have run : ∀ (l : List HostCall) (d : Device), d.ports.POT_CLK = false →
      (host_calls U8 U16 l d).ports.POT_CLK = false := by
    intro l
    induction l with
    | nil => intro d h; exact h
    | cons c l ih =>
      intro d h
      show (host_calls U8 U16 l (host_call U8 U16 c d)).ports.POT_CLK = false
      exact ih _ (step c d h)
  exact run calls _ rfl
/-- C38: between its first call, which drives the chip-select pin POT_CS
low, and its last call, which drives it high, update_digipot makes no other
call on POT_CS; entered with the clock pin POT_CLK low, these calls produce
exactly nine rising edges of POT_CLK, and the levels of the data pin POT_SDI
at those edges are 1, then bit 7, bit 6, ..., bit 0 of data. The function
returns with POT_CLK low and POT_CS high, and POT_CLK is low after boot and
after every later call of the host framework. -/
theorem c38_digipot_msb_first (data : Nat) (s : Device) (hclk : s.ports.POT_CLK = false) :
    (∀ U8 U16 calls sw key, (host_calls U8 U16 calls (boot sw key)).ports.POT_CLK = false) ∧
    ∃ mid,
      (update_digipot data s).io_calls =
        s.io_calls ++ (IoCall.clr Pin.POT_CS :: mid ++ [IoCall.set Pin.POT_CS]) ∧
      (∀ c ∈ mid, on_POT_CS c = false) ∧
      sdi_at_clk_rises s.ports.POT_CLK s.ports.POT_SDI mid =
        [true, data.testBit 7, data.testBit 6, data.testBit 5, data.testBit 4,
          data.testBit 3, data.testBit 2, data.testBit 1, data.testBit 0] ∧
      (sdi_at_clk_rises s.ports.POT_CLK s.ports.POT_SDI mid).length = 9 ∧
      (update_digipot data s).ports.POT_CLK = false ∧
      (update_digipot data s).ports.POT_CS = true := by
  have hr : sdi_at_clk_rises s.ports.POT_CLK s.ports.POT_SDI
      ([IoCall.clr Pin.POT_SDI, IoCall.set Pin.POT_SDI, IoCall.set Pin.POT_CLK,
          IoCall.clr Pin.POT_CLK] ++
        (List.range 8).flatMap (fun i =>
          [if (data <<< i) &&& 0x80 ≠ 0 then IoCall.set Pin.POT_SDI
            else IoCall.clr Pin.POT_SDI, IoCall.set Pin.POT_CLK, IoCall.clr Pin.POT_CLK])) =
      [true, data.testBit 7, data.testBit 6, data.testBit 5, data.testBit 4,
        data.testBit 3, data.testBit 2, data.testBit 1, data.testBit 0] := by
    have b0 : decide ((data <<< 0) &&& 0x80 ≠ 0) = data.testBit 7 :=
      shifted_bit_decide data 0 (by decide)
    have b1 : decide ((data <<< 1) &&& 0x80 ≠ 0) = data.testBit 6 :=
      shifted_bit_decide data 1 (by decide)
    have b2 : decide ((data <<< 2) &&& 0x80 ≠ 0) = data.testBit 5 :=
      shifted_bit_decide data 2 (by decide)
    have b3 : decide ((data <<< 3) &&& 0x80 ≠ 0) = data.testBit 4 :=
      shifted_bit_decide data 3 (by decide)
    have b4 : decide ((data <<< 4) &&& 0x80 ≠ 0) = data.testBit 3 :=
      shifted_bit_decide data 4 (by decide)
    have b5 : decide ((data <<< 5) &&& 0x80 ≠ 0) = data.testBit 2 :=
      shifted_bit_decide data 5 (by decide)
    have b6 : decide ((data <<< 6) &&& 0x80 ≠ 0) = data.testBit 1 :=
      shifted_bit_decide data 6 (by decide)
    have b7 : decide ((data <<< 7) &&& 0x80 ≠ 0) = data.testBit 0 :=
      shifted_bit_decide data 7 (by decide)
    rw [hclk, range_eight]
    simp only [List.flatMap_cons, List.flatMap_nil, List.cons_append, List.nil_append,
      List.append_nil]
    rw [sdi_rises_clr_sdi, sdi_rises_set_sdi, sdi_rises_clock_pulse]
    rw [sdi_rises_data_call, sdi_rises_clock_pulse, sdi_rises_data_call, sdi_rises_clock_pulse,
      sdi_rises_data_call, sdi_rises_clock_pulse, sdi_rises_data_call, sdi_rises_clock_pulse,
      sdi_rises_data_call, sdi_rises_clock_pulse, sdi_rises_data_call, sdi_rises_clock_pulse,
      sdi_rises_data_call, sdi_rises_clock_pulse, sdi_rises_data_call, sdi_rises_clock_pulse]
    rw [b0, b1, b2, b3, b4, b5, b6, b7]
    simp only [sdi_at_clk_rises]
  refine ⟨fun U8 U16 calls sw key => pot_clk_low_reachable U8 U16 calls sw key,
    _, io_calls_update_digipot data s, ?_, hr, ?_, ?_, ?_⟩
  · intro c hc
    rw [List.mem_append] at hc
    rcases hc with hc | hc
    · simp only [List.mem_cons, List.mem_singleton, List.not_mem_nil, or_false] at hc
      rcases hc with h | h | h | h <;> subst h <;> rfl
    · rw [List.mem_flatMap] at hc
      obtain ⟨i, _, hi⟩ := hc
      simp only [List.mem_cons, List.mem_singleton, List.not_mem_nil, or_false] at hi
      rcases hi with h | h | h
      · subst h; split_ifs <;> rfl
      · subst h; rfl
      · subst h; rfl
  · rw [hr]; rfl
  · exact (ports_update_digipot data s).1
  · exact (ports_update_digipot data s).2

theorem c38_digipot_msb_first_witness :
    power_on.ports.POT_CLK = false ∧
    ∃ mid,
      (update_digipot 165 power_on).io_calls =
        power_on.io_calls ++ (IoCall.clr Pin.POT_CS :: mid ++ [IoCall.set Pin.POT_CS]) ∧
      sdi_at_clk_rises power_on.ports.POT_CLK power_on.ports.POT_SDI mid =
        [true, true, false, true, false, false, true, false, true] :=
  ⟨rfl,
    (c38_digipot_msb_first 165 power_on rfl).2.elim
      (fun mid h => ⟨mid, h.1, h.2.2.1.trans (by decide)⟩)⟩

/-! ## Idle channels and their lines over all calls of the host (C29) -/

theorem view_set_laser_freq (ch : Channel) (value : Nat) (s : Device) :
    view ch (set_laser_freq value s) = view ch s := by
  have h1 : ∀ d, view ch (set_F1 d) = view ch d := fun d => by cases ch <;> rfl
  have h2 : ∀ d, view ch (clr_F1 d) = view ch d := fun d => by cases ch <;> rfl
  have h3 : ∀ d, view ch (set_F2 d) = view ch d := fun d => by cases ch <;> rfl
  have h4 : ∀ d, view ch (clr_F2 d) = view ch d := fun d => by cases ch <;> rfl
  have h5 : ∀ d, view ch (set_F3 d) = view ch d := fun d => by cases ch <;> rfl
  have h6 : ∀ d, view ch (clr_F3 d) = view ch d := fun d => by cases ch <;> rfl
  have h7 : ∀ v d, view ch (put_REG_LASER_FREQUENCY_SELECT v d) = view ch d :=
    fun v d => by cases ch <;> rfl
  unfold set_laser_freq
  simp only [apply_ite (view ch), h1, h2, h3, h4, h5, h6, h7, ite_self]

theorem view_app_write_REG_LASER_FREQUENCY_SELECT (ch : Channel) (reg : Nat) (s : Device) :
    view ch (app_write_REG_LASER_FREQUENCY_SELECT reg s).2 = view ch s := by
  unfold app_write_REG_LASER_FREQUENCY_SELECT
  show view ch (if reg = 0 ∨ reg = 1 ∨ reg = 2 ∨ reg = 4 ∨ reg = 8 then set_laser_freq reg s
    else s) = view ch s
  split_ifs
  · exact view_set_laser_freq ch reg s
  · rfl

theorem view_app_write_REG_OUTPUT_SET (ch : Channel) (reg : Nat) (s : Device) :
    view ch (app_write_REG_OUTPUT_SET reg s).2 = view ch s := by
  unfold app_write_REG_OUTPUT_SET
  simp only []
  split_ifs <;> cases ch <;> rfl

theorem view_app_write_REG_OUTPUT_CLEAR (ch : Channel) (reg : Nat) (s : Device) :
    view ch (app_write_REG_OUTPUT_CLEAR reg s).2 = view ch s := by
  unfold app_write_REG_OUTPUT_CLEAR
  simp only []
  split_ifs <;> cases ch <;> rfl

theorem view_app_write_REG_OUTPUT_TOGGLE (ch : Channel) (reg : Nat) (s : Device) :
    view ch (app_write_REG_OUTPUT_TOGGLE reg s).2 = view ch s := by
  unfold app_write_REG_OUTPUT_TOGGLE
  simp only []
  split_ifs <;> cases ch <;> rfl

theorem view_app_write_REG_OUTPUT_STATE (ch : Channel) (reg : Nat) (s : Device) :
    view ch (app_write_REG_OUTPUT_STATE reg s).2 = view ch s := by
  unfold app_write_REG_OUTPUT_STATE
  simp only []
  split_ifs <;> cases ch <;> rfl

/-- Every write handler other than app_write_REG_BNCS_STATE leaves the active
bit and the line of both BNC channels as they are. -/
theorem wr_handler_keeps_lines (i : Nat) (hi : i < 31) (h12 : i ≠ 12)
    (d : Nat → Device → Bool × Device) (content : Nat) (s : Device) (ch : Channel)
    (hch : ch = Channel.bnc0 ∨ ch = Channel.bnc1) :
    (view ch ((app_func_wr_pointer.getD i d) content s).2).active = (view ch s).active ∧
    (view ch ((app_func_wr_pointer.getD i d) content s).2).out = (view ch s).out := by
  have e0 := view_app_write_REG_SPAD_SWITCH ch content s
  have e6 := view_app_write_REG_LASER_FREQUENCY_SELECT ch content s
  have e7 := view_app_write_REG_LASER_INTENSITY ch content s
  have e8 := view_app_write_REG_OUTPUT_SET ch content s
  have e9 := view_app_write_REG_OUTPUT_CLEAR ch content s
  have e10 := view_app_write_REG_OUTPUT_TOGGLE ch content s
  have e11 := view_app_write_REG_OUTPUT_STATE ch content s
  interval_cases i
  · exact ⟨congrArg Chan.active e0, congrArg Chan.out e0⟩
  · rcases hch with h | h <;> subst h <;> exact ⟨rfl, rfl⟩
  · rcases hch with h | h <;> subst h <;> exact ⟨rfl, rfl⟩
  · rcases hch with h | h <;> subst h <;> exact ⟨rfl, rfl⟩
  · rcases hch with h | h <;> subst h <;> exact ⟨rfl, rfl⟩
  · rcases hch with h | h <;> subst h <;> exact ⟨rfl, rfl⟩
  · exact ⟨congrArg Chan.active e6, congrArg Chan.out e6⟩
  · exact ⟨congrArg Chan.active e7, congrArg Chan.out e7⟩
  · exact ⟨congrArg Chan.active e8, congrArg Chan.out e8⟩
  · exact ⟨congrArg Chan.active e9, congrArg Chan.out e9⟩
  · exact ⟨congrArg Chan.active e10, congrArg Chan.out e10⟩
  · exact ⟨congrArg Chan.active e11, congrArg Chan.out e11⟩
  · exact absurd rfl h12
  all_goals (rcases hch with h | h <;> subst h <;> exact ⟨rfl, rfl⟩)

theorem rd_handler_keeps_lines (i : Nat) (hi : i < 31) (d : Device → Device) (s : Device)
    (ch : Channel) :
    (view ch ((app_func_rd_pointer.getD i d) s)).active = (view ch s).active ∧
    (view ch ((app_func_rd_pointer.getD i d) s)).out = (view ch s).out := by
  interval_cases i <;> cases ch <;> exact ⟨rfl, rfl⟩

theorem idle_deasserted_of_lines (s d : Device)
    (h : ∀ ch, ch = Channel.bnc0 ∨ ch = Channel.bnc1 →
      (view ch d).active = (view ch s).active ∧ (view ch d).out = (view ch s).out)
    (hs : idle_deasserted s) : idle_deasserted d := by
  rw [idle_deasserted_iff] at hs ⊢
  rw [(h Channel.bnc0 (Or.inl rfl)).1, (h Channel.bnc0 (Or.inl rfl)).2,
    (h Channel.bnc1 (Or.inr rfl)).1, (h Channel.bnc1 (Or.inr rfl)).2]
  exact hs

theorem idle_deasserted_write_bncs (reg : Nat) (s : Device) (h : idle_deasserted s) :
    idle_deasserted (app_write_REG_BNCS_STATE reg s).2 :=
  idle_deasserted_boot_op (BootOp.write_bncs reg) rfl s h

theorem idle_deasserted_core_write (U8 U16 add type content n : Nat) (s : Device)
    (h : idle_deasserted s) :
    idle_deasserted (core_write_app_register U8 U16 add type content n s).2 := by
  unfold core_write_app_register
  split_ifs with h1 h2 h3
  · exact h
  · exact h
  · exact h
  · have hi : add - APP_REGS_ADD_MIN < 31 := by
      have e1 : APP_REGS_ADD_MIN = 0x20 := rfl
      have e2 : APP_REGS_ADD_MAX = 0x3E := rfl
      rw [e1, e2] at h1
      rw [e1]
      omega
    by_cases h12 : add - APP_REGS_ADD_MIN = 12
    · rw [h12]
      exact idle_deasserted_write_bncs content s h
    · exact idle_deasserted_of_lines s _
        (fun ch hch => wr_handler_keeps_lines _ hi h12 _ content s ch hch) h

theorem idle_deasserted_core_read (U8 U16 add type : Nat) (s : Device)
    (h : idle_deasserted s) :
    idle_deasserted (core_read_app_register U8 U16 add type s).2 := by
  unfold core_read_app_register
  split_ifs with h1 h2
  · exact h
  · exact h
  · have hi : add - APP_REGS_ADD_MIN < 31 := by
      have e1 : APP_REGS_ADD_MIN = 0x20 := rfl
      have e2 : APP_REGS_ADD_MAX = 0x3E := rfl
      rw [e1, e2] at h1
      rw [e1]
      omega
    exact idle_deasserted_of_lines s _ (fun ch _ => rd_handler_keeps_lines _ hi _ s ch) h

theorem idle_deasserted_initialize_hardware (s : Device) :
    idle_deasserted (core_callback_initialize_hardware s) := by
  rw [idle_deasserted_iff]
  unfold core_callback_initialize_hardware
  rw [view_update_digipot, view_update_digipot]
  exact ⟨fun _ => rfl, fun _ => rfl⟩

theorem idle_deasserted_host_call (U8 U16 : Nat) (c : HostCall)
    (hc : is_host_reset c = false) (s : Device) (h : idle_deasserted s) :
    idle_deasserted (host_call U8 U16 c s) := by
  cases c with
  | write add type content n => exact idle_deasserted_core_write U8 U16 add type content n s h
  | read add type => exact idle_deasserted_core_read U8 U16 add type s h
  | tick => exact idle_deasserted_boot_op BootOp.tick rfl s h
  | standby b => exact idle_deasserted_boot_op (BootOp.standby b) rfl s h
  | reset sw key => exact absurd hc (by simp [is_host_reset])
  | initialize_hardware => exact idle_deasserted_initialize_hardware s

theorem idle_deasserted_host_calls (U8 U16 : Nat) (calls : List HostCall)
    (hcalls : no_host_reset calls) (s : Device) (h : idle_deasserted s) :
    idle_deasserted (host_calls U8 U16 calls s) := by
  induction calls generalizing s with
  | nil => exact h
  | cons c calls ih =>
    show idle_deasserted (host_calls U8 U16 calls (host_call U8 U16 c s))
    exact ih (fun o ho => hcalls o (List.mem_cons_of_mem c ho)) _
      (idle_deasserted_host_call U8 U16 c (hcalls c (List.mem_cons_self c calls)) s h)

/-- C29 (amended): every sequence of calls of the host framework after boot
that holds no register reset (register writes, the configuration registers
and REG_BNCS_STATE included, register reads, ticks, standby and hardware
initialisation callbacks) ends in a state where each BNC channel whose
active bit is clear has its line low, whatever the type codes, the two input
reads at boot and the bytes read by the standby callbacks. The register reset
stores 0 in REG_BNCS_STATE and leaves every pin at its level. -/
theorem c29_idle_deasserted (U8 U16 : Nat) (calls : List HostCall) (sw key : Nat)
    (h : no_host_reset calls) :
    idle_deasserted (host_calls U8 U16 calls (boot sw key)) ∧
    (∀ d sw2 key2,
      (core_callback_reset_registers sw2 key2 d).app_regs.REG_BNCS_STATE = 0 ∧
      (core_callback_reset_registers sw2 key2 d).ports = d.ports) :=
  ⟨idle_deasserted_host_calls U8 U16 calls h _ (idle_deasserted_boot sw key),
    fun _ _ _ => ⟨rfl, rfl⟩⟩

set_option maxRecDepth 8192 in
theorem c29_idle_deasserted_witness :
    no_host_reset [HostCall.write 46 2 1 1, HostCall.write 47 2 1 1, HostCall.write 48 2 1 1,
      HostCall.write 44 1 1 1, HostCall.tick, HostCall.tick, HostCall.tick] ∧
    (host_calls 1 2 [HostCall.write 46 2 1 1, HostCall.write 47 2 1 1, HostCall.write 48 2 1 1,
      HostCall.write 44 1 1 1, HostCall.tick] (boot 0 0)).app_regs.REG_BNCS_STATE &&& B_BNC0 ≠
        0 ∧
    (host_calls 1 2 [HostCall.write 46 2 1 1, HostCall.write 47 2 1 1, HostCall.write 48 2 1 1,
      HostCall.write 44 1 1 1, HostCall.tick] (boot 0 0)).ports.BNC_SIG1_O = true ∧
    (host_calls 1 2 [HostCall.write 46 2 1 1, HostCall.write 47 2 1 1, HostCall.write 48 2 1 1,
      HostCall.write 44 1 1 1, HostCall.tick, HostCall.tick, HostCall.tick]
      (boot 0 0)).app_regs.REG_BNCS_STATE &&& B_BNC0 = 0 ∧
    idle_deasserted
      (host_calls 1 2 [HostCall.write 46 2 1 1, HostCall.write 47 2 1 1,
        HostCall.write 48 2 1 1, HostCall.write 44 1 1 1, HostCall.tick, HostCall.tick,
        HostCall.tick] (boot 0 0)) :=
  ⟨by unfold no_host_reset; decide, by decide, by decide, by decide,
    (c29_idle_deasserted 1 2 [HostCall.write 46 2 1 1, HostCall.write 47 2 1 1,
      HostCall.write 48 2 1 1, HostCall.write 44 1 1 1, HostCall.tick, HostCall.tick,
      HostCall.tick] 0 0 (by unfold no_host_reset; decide)).1⟩

end LaserDriver
